import Mathlib

/-!
# LegoOS memory manager: the mmap-family request handlers

A shallow embedding of `managers/memory/handle_mmap.c`, and of the state bits of a
pcache line declared in `include/processor/pcache_types.h`.

* Unsigned 64-bit values (`u64`, `unsigned long`) are natural numbers, and every
  arithmetic operation of the C code that can wrap is written with an explicit
  reduction modulo `2 ^ 64`.  Values of type `int` are integers.
* A handler is a function from the environment, the request payload, the reply
  descriptor and the common header to an `Outcome`: the address space of the task
  after the handler, the reply that was sent, and the list of calls the handler made
  to its collaborators, in program order.
* The build modelled is the one without `CONFIG_DEBUG_HANDLE_MMAP`, in which
  `mmap_debug` and `debug_dump_vm_all` are empty and leave no trace.
* The collaborators that live outside this file of the repository (the VMA tree
  operations, the task table, the semaphore, the transport) are the fields of `Env`.
  They read the whole `lego_mm_struct` and may replace its VMA list; they never
  touch `start_brk` or `brk`, which only `handle_p2m_brk` writes.
-/

namespace LegoOS

/-! ## Machine words -/

/-- The modulus of 64-bit unsigned arithmetic. -/
def U64_MOD : Nat := 2 ^ 64

/-- The modulus of 32-bit unsigned arithmetic. -/
def U32_MOD : Nat := 2 ^ 32

/-- Addition of two `u64` values, `a + b` in C. -/
def u64_add (a b : Nat) : Nat := (a + b) % U64_MOD

/-- Subtraction of two `u64` values, `a - b` in C. -/
def u64_sub (a b : Nat) : Nat := (a + (U64_MOD - b % U64_MOD)) % U64_MOD

/-- Bitwise complement of a `u64` value, `~a` in C. -/
def u64_not (a : Nat) : Nat := U64_MOD - 1 - a % U64_MOD

/-- Conversion of a signed value to `u64` (sign extension). -/
def u64_of_int (i : Int) : Nat := (i % (U64_MOD : Int)).toNat

/-- Conversion of a signed value to `u32`. -/
def u32_of_int (i : Int) : Nat := (i % (U32_MOD : Int)).toNat

/-- Reading a `u64` bit pattern as `s64`. -/
def s64_of_u64 (x : Nat) : Int :=
  if x % U64_MOD < 2 ^ 63 then ((x % U64_MOD : Nat) : Int)
  else ((x % U64_MOD : Nat) : Int) - (U64_MOD : Int)

/-! ## Constants

Apart from `TASK_SIZE`, the constants and macros below are declared in headers that
are not among the sources at hand; they carry the values of the x86-64 ABI, which
the spec's scenarios use (`A % 0x1000 == 0`, `OKAY(0)`). -/

/-- Modelled from the spec: the page shift, for pages of 4096 bytes. -/
def PAGE_SHIFT : Nat := 12

/-- Modelled from the spec: the page size, `1UL << PAGE_SHIFT`. -/
def PAGE_SIZE : Nat := 1 <<< PAGE_SHIFT

/-- Modelled from the spec: the page mask, `~(PAGE_SIZE - 1)`. -/
def PAGE_MASK : Nat := u64_not (PAGE_SIZE - 1)

/-- Modelled from the spec: the macro `PAGE_ALIGN` rounds an address up to the next
page boundary, `(addr + PAGE_SIZE - 1) & PAGE_MASK`, in `unsigned long` arithmetic. -/
def PAGE_ALIGN (addr : Nat) : Nat := u64_add addr (PAGE_SIZE - 1) &&& PAGE_MASK

/-- Modelled from the spec: the macro `offset_in_page` is the in-page offset
`p & ~PAGE_MASK`. -/
def offset_in_page (p : Nat) : Nat := p &&& u64_not PAGE_MASK

/-- User space process size, `(1UL << 47) - PAGE_SIZE` (asm/processor.h). -/
def TASK_SIZE : Nat := (1 <<< 47) - PAGE_SIZE

/-- Modelled from the spec: the largest errno that `IS_ERR_VALUE` recognises. -/
def MAX_ERRNO : Nat := 4095

/-- Modelled from the spec: the test `IS_ERR_VALUE(x)`,
`x >= (unsigned long)-MAX_ERRNO`. -/
def IS_ERR_VALUE (x : Nat) : Bool := decide (u64_of_int (-(MAX_ERRNO : Int)) ≤ x)

/-- Modelled from the spec: errno of "no such process". -/
def ESRCH : Nat := 3

/-- Modelled from the spec: errno of "interrupted call". -/
def EINTR : Nat := 4

/-- Modelled from the spec: errno of "out of memory". -/
def ENOMEM : Nat := 12

/-- Modelled from the spec: errno of "bad address". -/
def EFAULT : Nat := 14

/-- Modelled from the spec: errno of "already exists". -/
def EEXIST : Nat := 17

/-- Modelled from the spec: errno of "invalid argument". -/
def EINVAL : Nat := 22

/-- Modelled from the spec: the status `OKAY(0)`. -/
def RET_OKAY : Nat := 0

/-- Modelled from the spec: the status `ESRCH`. -/
def RET_ESRCH : Nat := ESRCH

/-- Modelled from the spec: the status `EINTR`. -/
def RET_EINTR : Nat := EINTR

/-- Modelled from the spec: the status `ENOMEM`. -/
def RET_ENOMEM : Nat := ENOMEM

/-- Modelled from the spec: the status `EINVAL`. -/
def RET_EINVAL : Nat := EINVAL

/-- Modelled from the spec: mmap flag of a shared mapping. -/
def MAP_SHARED : Nat := 0x01

/-- Modelled from the spec: mmap flag of an exact placement. -/
def MAP_FIXED : Nat := 0x10

/-- Modelled from the spec: mmap flag of a mapping without a file. -/
def MAP_ANONYMOUS : Nat := 0x20

/-- Modelled from the spec: the mmap flag `MAP_DENYWRITE`, stripped by the handlers. -/
def MAP_DENYWRITE : Nat := 0x0800

/-- Modelled from the spec: the mmap flag `MAP_EXECUTABLE`, stripped by the handlers. -/
def MAP_EXECUTABLE : Nat := 0x1000

/-- Modelled from the spec: mremap flag that allows a move. -/
def MREMAP_MAYMOVE : Nat := 1

/-- Modelled from the spec: mremap flag that names the destination. -/
def MREMAP_FIXED : Nat := 2

/-- Modelled from the spec: msync flag of a synchronous flush. -/
def MS_SYNC : Nat := 4

/-- Modelled from the spec: VMA flag of a shared mapping. -/
def VM_SHARED : Nat := 0x00000008

/-- Modelled from the spec: VMA flag of a mapping that may be shared. -/
def VM_MAYSHARE : Nat := 0x00000080

/-! ## Data model -/

/-- A file handle returned by `file_open`. -/
structure lego_file where
  id : Nat
deriving DecidableEq, Repr

/-- A virtual memory area, the half-open interval `[vm_start, vm_end)`. -/
structure vm_area_struct where
  vm_start : Nat
  vm_end : Nat
  vm_flags : Nat
  vm_pgoff : Nat
  vm_file : Option lego_file
deriving DecidableEq, Repr

/-- One fixed-width VMA range of the distributed router. -/
structure vma_tree where
  begin : Nat
  end_ : Nat
  mnode : Nat
  max_gap : Nat
deriving DecidableEq, Repr

/-- The address space of a task: the heap bounds, the VMAs in address order (linked
by `vm_next` in the source) and, in the distributed build, the VMA ranges. -/
structure lego_mm_struct where
  start_brk : Nat
  brk : Nat
  mmap : List vm_area_struct
  vmrange_map : List vma_tree
deriving DecidableEq, Repr

/-- A task, identified by `(nid, pid)`. -/
structure lego_task_struct where
  pid : Nat
  home_node : Nat
  mm : lego_mm_struct
deriving DecidableEq, Repr

/-- Header common to all requests. -/
structure common_header where
  src_nid : Nat
deriving DecidableEq, Repr

structure p2m_brk_struct where
  pid : Nat
  brk : Nat
deriving DecidableEq, Repr

structure p2m_brk_reply_struct where
  ret_brk : Nat
deriving DecidableEq, Repr

/-- A call made by a handler to one of its collaborators, with the arguments the
properties speak about. -/
inductive Call where
  | find_lego_task_by_pid (nid pid : Nat)
  | down_write_killable
  | up_write
  | down_read
  | up_read
  | do_munmap (addr len : Nat)
  | do_brk (addr len : Nat)
  | find_vma_intersection (start_addr end_addr : Nat)
  | lego_mm_populate (addr len : Nat)
  | load_reply_buffer
  | remove_reply_buffer
  | distvm_munmap_homenode (addr len : Nat)
  | distvm_brk_homenode (addr len : Nat)
  | find_dist_vma_intersection (start_addr end_addr : Nat)
  | file_open (f_name : String)
  | vm_mmap_pgoff (file : Option lego_file) (addr len prot flags pgoff : Nat)
  | find_vma (addr : Nat)
  | vma_to_resize (addr old_len new_len : Nat)
  | vma_expandable (delta : Nat)
  | vma_adjust (start_addr end_addr pgoff : Nat)
  | get_unmapped_area (file : Option lego_file) (addr len pgoff flags : Nat)
  | move_vma (old_addr old_len new_len new_addr : Nat)
  | distvm_mremap_homenode (old_addr old_len new_len flags new_addr : Nat)
  | net_send_reply_timeout (mnode pid start len flags : Nat)
  | kzalloc
  | lego_mm_alloc
  | ht_insert_lego_task
  | lego_mmput
  | kfree
  | do_dist_mmap (file : Option lego_file) (new_range addr len prot flags vm_flags pgoff : Nat)
  | WARN_ON
  | ibapi_reply_message (desc : Nat)
deriving DecidableEq, Repr

/-- What a handler leaves behind: the address space of the task (none when no task
was found), the reply it sent and the calls it made. -/
structure Outcome (R : Type) where
  mm : Option lego_mm_struct
  reply : R
  trace : List Call

/-- The collaborators of the handlers: the functions and macros that the handlers
call and whose code is not among the sources at hand.  Each one is given the address
space it works on and returns its C return value, together with the VMA list it
leaves when it may change it. -/
structure Env where
  find_lego_task_by_pid : Nat → Nat → Option lego_task_struct
  down_write_killable : lego_mm_struct → Int
  do_munmap : lego_mm_struct → Nat → Nat → Int × List vm_area_struct
  do_brk : lego_mm_struct → Nat → Nat → Int × List vm_area_struct
  find_vma_intersection : lego_mm_struct → Nat → Nat → Option vm_area_struct
  lego_mm_populate : lego_mm_struct → Nat → Nat → List vm_area_struct
  distvm_munmap_homenode : lego_mm_struct → Nat → Nat → Int × List vm_area_struct
  distvm_brk_homenode : lego_mm_struct → Nat → Nat → Int × List vm_area_struct
  find_dist_vma_intersection : lego_mm_struct → Nat → Nat → Bool
  ERR_TO_LEGO_RET : Nat → Nat
  file_open : lego_task_struct → String → Except Int lego_file
  vm_mmap_pgoff : lego_mm_struct → Option lego_file → Nat → Nat → Nat → Nat → Nat →
    Nat × List vm_area_struct
  vma_to_resize : lego_mm_struct → Nat → Nat → Nat → Except Int vm_area_struct
  vma_expandable : lego_mm_struct → vm_area_struct → Nat → Bool
  vma_adjust : lego_mm_struct → vm_area_struct → Nat → Nat → Nat → Int × List vm_area_struct
  get_unmapped_area : lego_mm_struct → Option lego_file → Nat → Nat → Nat → Nat → Nat
  move_vma : lego_mm_struct → vm_area_struct → Nat → Nat → Nat → Nat →
    Nat × List vm_area_struct
  distvm_mremap_homenode : lego_mm_struct → Nat → Nat → Nat → Nat → Nat →
    Nat × List vm_area_struct
  vmr_idx : Nat → Nat
  is_local : Nat → Bool
  net_send_reply_timeout : Nat → Nat → Nat → Nat → Nat → Int × Int
  kzalloc : Bool
  lego_mm_alloc : Option lego_mm_struct
  ht_insert_lego_task : lego_task_struct → Int
  do_dist_mmap : lego_mm_struct → Option lego_file → Nat → Nat → Nat → Nat → Nat → Nat →
    Nat → Nat × Nat × List vm_area_struct

/-! ## handle_p2m_brk (build without CONFIG_DISTRIBUTED_VMA_MEMORY) -/

/-- The label `out:` of `handle_p2m_brk`: release the semaphore and reply `mm->brk`. -/
def brk_out (mm : lego_mm_struct) (desc : Nat) (tr : List Call) :
    Outcome p2m_brk_reply_struct :=
  { mm := some mm
    reply := { ret_brk := mm.brk }
    trace := tr ++ [Call.up_write, Call.ibapi_reply_message desc] }

/-- The label `set_brk:` of `handle_p2m_brk`: store the new break, populate the new
pages when the heap grew, and fall through to `out:`. -/
def brk_set_brk (E : Env) (mm : lego_mm_struct) (brk newbrk oldbrk desc : Nat)
    (tr : List Call) : Outcome p2m_brk_reply_struct :=
  let mm1 := { mm with brk := brk }
  if newbrk > oldbrk then
    brk_out { mm1 with mmap := E.lego_mm_populate mm1 oldbrk (newbrk - oldbrk) } desc
      (tr ++ [Call.lego_mm_populate oldbrk (newbrk - oldbrk)])
  else
    brk_out mm1 desc tr

/-- The handler `handle_p2m_brk` of the non-distributed build. -/
def handle_p2m_brk (E : Env) (payload : p2m_brk_struct) (desc : Nat)
    (hdr : common_header) : Outcome p2m_brk_reply_struct :=
  let nid := hdr.src_nid
  let pid := payload.pid
  let brk := payload.brk
  let tr0 := [Call.find_lego_task_by_pid nid pid]
  match E.find_lego_task_by_pid nid pid with
  | none =>
    { mm := none
      reply := { ret_brk := RET_ESRCH }
      trace := tr0 ++ [Call.ibapi_reply_message desc] }
  | some tsk =>
    let mm := tsk.mm
    let tr1 := tr0 ++ [Call.down_write_killable]
    if E.down_write_killable mm ≠ 0 then
      { mm := some mm
        reply := { ret_brk := RET_EINTR }
        trace := tr1 ++ [Call.ibapi_reply_message desc] }
    else
      let min_brk := mm.start_brk
      if brk < min_brk then
        brk_out mm desc tr1
      else
        let newbrk := PAGE_ALIGN brk
        let oldbrk := PAGE_ALIGN mm.brk
        if oldbrk = newbrk then
          brk_set_brk E mm brk newbrk oldbrk desc tr1
        else if brk ≤ mm.brk then
          let r := E.do_munmap mm newbrk (u64_sub oldbrk newbrk)
          let tr2 := tr1 ++ [Call.do_munmap newbrk (u64_sub oldbrk newbrk)]
          if r.1 = 0 then
            brk_set_brk E { mm with mmap := r.2 } brk newbrk oldbrk desc tr2
          else
            brk_out { mm with mmap := r.2 } desc tr2
        else
          let tr2 := tr1 ++ [Call.find_vma_intersection oldbrk (u64_add newbrk PAGE_SIZE)]
          if (E.find_vma_intersection mm oldbrk (u64_add newbrk PAGE_SIZE)).isSome then
            brk_out mm desc tr2
          else
            let r := E.do_brk mm oldbrk (u64_sub newbrk oldbrk)
            let tr3 := tr2 ++ [Call.do_brk oldbrk (u64_sub newbrk oldbrk)]
            if r.1 < 0 then
              brk_out { mm with mmap := r.2 } desc tr3
            else
              brk_set_brk E { mm with mmap := r.2 } brk newbrk oldbrk desc tr3

/-! ## handle_p2m_brk (build with CONFIG_DISTRIBUTED_VMA_MEMORY) -/

/-- The label `out:` of the distributed `handle_p2m_brk`. -/
def distvm_brk_out (mm : lego_mm_struct) (desc : Nat) (tr : List Call) :
    Outcome p2m_brk_reply_struct :=
  { mm := some mm
    reply := { ret_brk := mm.brk }
    trace := tr ++ [Call.remove_reply_buffer, Call.up_write, Call.ibapi_reply_message desc] }

/-- The label `set_brk:` of the distributed `handle_p2m_brk`. -/
def distvm_brk_set_brk (E : Env) (mm : lego_mm_struct) (brk newbrk oldbrk desc : Nat)
    (tr : List Call) : Outcome p2m_brk_reply_struct :=
  let mm1 := { mm with brk := brk }
  if newbrk > oldbrk then
    distvm_brk_out { mm1 with mmap := E.lego_mm_populate mm1 oldbrk (newbrk - oldbrk) } desc
      (tr ++ [Call.lego_mm_populate oldbrk (newbrk - oldbrk)])
  else
    distvm_brk_out mm1 desc tr

/-- The handler `handle_p2m_brk` of the distributed build. -/
def distvm_handle_p2m_brk (E : Env) (payload : p2m_brk_struct) (desc : Nat)
    (hdr : common_header) : Outcome p2m_brk_reply_struct :=
  let nid := hdr.src_nid
  let pid := payload.pid
  let brk := payload.brk
  let tr0 := [Call.find_lego_task_by_pid nid pid]
  match E.find_lego_task_by_pid nid pid with
  | none =>
    { mm := none
      reply := { ret_brk := RET_ESRCH }
      trace := tr0 ++ [Call.ibapi_reply_message desc] }
  | some tsk =>
    let mm := tsk.mm
    let tr1 := tr0 ++ [Call.down_write_killable]
    if E.down_write_killable mm ≠ 0 then
      { mm := some mm
        reply := { ret_brk := RET_EINTR }
        trace := tr1 ++ [Call.ibapi_reply_message desc] }
    else
      let tr1 := tr1 ++ [Call.load_reply_buffer]
      let min_brk := mm.start_brk
      if brk < min_brk then
        distvm_brk_out mm desc tr1
      else
        let newbrk := PAGE_ALIGN brk
        let oldbrk := PAGE_ALIGN mm.brk
        if oldbrk = newbrk then
          distvm_brk_set_brk E mm brk newbrk oldbrk desc tr1
        else if brk ≤ mm.brk then
          let r := E.distvm_munmap_homenode mm newbrk (u64_sub oldbrk newbrk)
          let tr2 := tr1 ++ [Call.distvm_munmap_homenode newbrk (u64_sub oldbrk newbrk)]
          if r.1 = 0 then
            distvm_brk_set_brk E { mm with mmap := r.2 } brk newbrk oldbrk desc tr2
          else
            distvm_brk_out { mm with mmap := r.2 } desc tr2
        else
          let tr2 := tr1 ++
            [Call.find_dist_vma_intersection oldbrk (u64_add newbrk PAGE_SIZE)]
          if E.find_dist_vma_intersection mm oldbrk (u64_add newbrk PAGE_SIZE) then
            distvm_brk_out mm desc tr2
          else
            let r := E.distvm_brk_homenode mm oldbrk (u64_sub newbrk oldbrk)
            let tr3 := tr2 ++ [Call.distvm_brk_homenode oldbrk (u64_sub newbrk oldbrk)]
            if r.1 < 0 then
              distvm_brk_out { mm with mmap := r.2 } desc tr3
            else
              distvm_brk_set_brk E { mm with mmap := r.2 } brk newbrk oldbrk desc tr3

/-! ## handle_p2m_mmap, handle_p2m_munmap -/

structure p2m_mmap_struct where
  pid : Nat
  addr : Nat
  len : Nat
  prot : Nat
  flags : Nat
  pgoff : Nat
  f_name : String
deriving DecidableEq, Repr

/-- The reply of `handle_p2m_mmap`; a field that the handler did not assign holds
whatever the stack held and is `none`. -/
structure p2m_mmap_reply_struct where
  ret : Option Nat
  ret_addr : Option Nat
deriving DecidableEq, Repr

/-- The second half of `handle_p2m_mmap`, from `flags &= ~(MAP_EXECUTABLE |
MAP_DENYWRITE)` on: strip the flags, map, and reply.  The argument `flags` is the
request's flags word and `file` the file that was opened, if any. -/
def p2m_mmap_map (CONFIG_DISTRIBUTED_VMA_MEMORY : Bool) (E : Env) (tsk : lego_task_struct)
    (file : Option lego_file) (payload : p2m_mmap_struct) (desc : Nat) (tr1 : List Call) :
    Outcome p2m_mmap_reply_struct :=
  let addr := payload.addr
  let len := payload.len
  let prot := payload.prot
  let pgoff := payload.pgoff
  let reply : p2m_mmap_reply_struct := { ret := none, ret_addr := none }
  let flags := payload.flags &&& u64_not (MAP_EXECUTABLE ||| MAP_DENYWRITE)
  let tr2 := if CONFIG_DISTRIBUTED_VMA_MEMORY then tr1 ++ [Call.load_reply_buffer] else tr1
  let r := E.vm_mmap_pgoff tsk.mm file addr len prot flags pgoff
  let tr3 := tr2 ++ [Call.vm_mmap_pgoff file addr len prot flags pgoff]
  let tr4 := if CONFIG_DISTRIBUTED_VMA_MEMORY then tr3 ++ [Call.remove_reply_buffer] else tr3
  let mm := { tsk.mm with mmap := r.2 }
  let ret := s64_of_u64 r.1
  if ret < 0 then
    { mm := some mm
      reply := { reply with ret := some (E.ERR_TO_LEGO_RET r.1) }
      trace := tr4 ++ [Call.ibapi_reply_message desc] }
  else
    { mm := some mm
      reply := { ret := some RET_OKAY, ret_addr := some r.1 }
      trace := tr4 ++ [Call.ibapi_reply_message desc] }

/-- The handler `handle_p2m_mmap`; the flag selects the lines under
`#ifdef CONFIG_DISTRIBUTED_VMA_MEMORY`. -/
def handle_p2m_mmap (CONFIG_DISTRIBUTED_VMA_MEMORY : Bool) (E : Env)
    (payload : p2m_mmap_struct) (desc : Nat) (hdr : common_header) :
    Outcome p2m_mmap_reply_struct :=
  let nid := hdr.src_nid
  let pid := payload.pid
  let flags := payload.flags
  let f_name := payload.f_name
  let reply : p2m_mmap_reply_struct := { ret := none, ret_addr := none }
  let tr0 := [Call.find_lego_task_by_pid nid pid]
  match E.find_lego_task_by_pid nid pid with
  | none =>
    { mm := none
      reply := { reply with ret := some RET_ESRCH }
      trace := tr0 ++ [Call.ibapi_reply_message desc] }
  | some tsk =>
    if flags &&& MAP_ANONYMOUS = 0 then
      let tr1 := tr0 ++ [Call.file_open f_name]
      match E.file_open tsk f_name with
      | Except.error _ =>
        { mm := some tsk.mm
          reply := { reply with ret := some RET_ENOMEM }
          trace := tr1 ++ [Call.ibapi_reply_message desc] }
      | Except.ok file =>
        p2m_mmap_map CONFIG_DISTRIBUTED_VMA_MEMORY E tsk (some file) payload desc tr1
    else
      p2m_mmap_map CONFIG_DISTRIBUTED_VMA_MEMORY E tsk none payload desc tr0

structure p2m_munmap_struct where
  pid : Nat
  addr : Nat
  len : Nat
deriving DecidableEq, Repr

/-- The handler `handle_p2m_munmap`; the reply is the `u64` status. -/
def handle_p2m_munmap (CONFIG_DISTRIBUTED_VMA_MEMORY : Bool) (E : Env)
    (payload : p2m_munmap_struct) (desc : Nat) (hdr : common_header) : Outcome Nat :=
  let nid := hdr.src_nid
  let pid := payload.pid
  let addr := payload.addr
  let len := payload.len
  let tr0 := [Call.find_lego_task_by_pid nid pid]
  match E.find_lego_task_by_pid nid pid with
  | none =>
    { mm := none, reply := RET_ESRCH, trace := tr0 ++ [Call.ibapi_reply_message desc] }
  | some tsk =>
    let mm := tsk.mm
    let tr1 := tr0 ++ [Call.down_write_killable]
    if E.down_write_killable mm ≠ 0 then
      { mm := some mm, reply := RET_EINTR, trace := tr1 ++ [Call.ibapi_reply_message desc] }
    else if CONFIG_DISTRIBUTED_VMA_MEMORY then
      let r := E.distvm_munmap_homenode mm addr len
      { mm := some { mm with mmap := r.2 }
        reply := u64_of_int r.1
        trace := tr1 ++ [Call.distvm_munmap_homenode addr len, Call.up_write,
          Call.ibapi_reply_message desc] }
    else
      let r := E.do_munmap mm addr len
      { mm := some { mm with mmap := r.2 }
        reply := u64_of_int r.1
        trace := tr1 ++ [Call.do_munmap addr len, Call.up_write,
          Call.ibapi_reply_message desc] }

/-! ## do_msync and the msync handlers -/

/-- Why a run of the model stops without a result. -/
inductive Halt where
  | out_of_fuel
  | bug_on
  | null_deref
deriving DecidableEq, Repr

/-- Modelled from the spec: `find_vma(mm, addr)` is the smallest VMA with
`vm_end > addr`; its code is outside the sources at hand.  The result is the VMA
followed by its `vm_next` chain, and the empty list is `NULL`. -/
def find_vma (mm : lego_mm_struct) (addr : Nat) : List vm_area_struct :=
  mm.mmap.dropWhile (fun vma => decide (vma.vm_end ≤ addr))

/-- The label `out:` of `do_msync`. -/
def msync_out (ret unmapped_error : Int) (tr : List Call) : Int × List Call :=
  (if unmapped_error ≠ 0 then unmapped_error else ret, tr)

/-- The label `out_unlock:` of `do_msync`. -/
def msync_out_unlock (ret unmapped_error : Int) (tr : List Call) : Int × List Call :=
  msync_out ret unmapped_error (tr ++ [Call.up_read])

/-- The scanning loop `for (;;)` of `do_msync`; the first argument bounds the number
of iterations, the second is the cursor `vma`. -/
def do_msync_loop (mm : lego_mm_struct) (end_ flags : Nat) :
    Nat → List vm_area_struct → Nat → Int → List Call → Except Halt (Int × List Call)
  | 0, _, _, _, _ => Except.error Halt.out_of_fuel
  | _ + 1, [], _, unmapped_error, tr =>
    Except.ok (msync_out_unlock (-(ENOMEM : Int)) unmapped_error tr)
  | fuel + 1, vma :: vm_next, start, unmapped_error, tr =>
    let ret : Int := -(ENOMEM : Int)
    let before := decide (start < vma.vm_start)
    let start1 := if before then vma.vm_start else start
    if before ∧ start1 ≥ end_ then
      Except.ok (msync_out_unlock ret unmapped_error tr)
    else
      let unmapped_error1 := if before then -(ENOMEM : Int) else unmapped_error
      let file := vma.vm_file
      let start2 := vma.vm_end
      if flags &&& MS_SYNC ≠ 0 ∧ file.isSome ∧ vma.vm_flags &&& VM_SHARED ≠ 0 then
        let tr1 := tr ++ [Call.up_read]
        if ret ≠ 0 ∨ start2 ≥ end_ then
          Except.ok (msync_out ret unmapped_error1 tr1)
        else
          do_msync_loop mm end_ flags fuel (find_vma mm start2) start2 unmapped_error1
            (tr1 ++ [Call.down_read, Call.find_vma start2])
      else
        if start2 ≥ end_ then
          Except.ok (msync_out_unlock 0 unmapped_error1 tr)
        else
          do_msync_loop mm end_ flags fuel vm_next start2 unmapped_error1 tr

/-- The function `do_msync`: scan `[start, end)` and report `-ENOMEM` for the parts
that no VMA covers. -/
def do_msync (fuel : Nat) (mm : lego_mm_struct) (start end_ flags : Nat) :
    Except Halt (Int × List Call) :=
  do_msync_loop mm end_ flags fuel (find_vma mm start) start 0
    [Call.down_read, Call.find_vma start]

structure m2m_msync_struct where
  pid : Nat
  start : Nat
  len : Nat
  flags : Nat
deriving DecidableEq, Repr

/-- The function `distribute_msync`: forward one shard to the memory node `mnode`. -/
def distribute_msync (E : Env) (tsk : lego_task_struct) (start len flags mnode : Nat) :
    m2m_msync_struct × Int × List Call :=
  let info : m2m_msync_struct := { pid := tsk.pid, start := start, len := len, flags := flags }
  let r := E.net_send_reply_timeout mnode info.pid info.start info.len info.flags
  let tr := [Call.net_send_reply_timeout mnode info.pid info.start info.len info.flags]
  if r.1 ≠ 0 then (info, r.1, tr) else (info, r.2, tr)

/-- The handler `handle_m2m_msync` (distributed build); the reply is the `u32` status. -/
def handle_m2m_msync (fuel : Nat) (E : Env) (payload : m2m_msync_struct) (desc : Nat)
    (hdr : common_header) : Except Halt (Outcome Nat) :=
  let nid := hdr.src_nid
  let pid := payload.pid
  let start := payload.start
  let len := payload.len
  let flags := payload.flags
  let tr0 := [Call.find_lego_task_by_pid nid pid]
  match E.find_lego_task_by_pid nid pid with
  | none =>
    Except.ok { mm := none, reply := RET_ESRCH, trace := tr0 ++ [Call.ibapi_reply_message desc] }
  | some tsk =>
    match do_msync fuel tsk.mm start (u64_add start len) flags with
    | Except.error e => Except.error e
    | Except.ok r =>
      Except.ok { mm := some tsk.mm, reply := u32_of_int r.1
                  trace := tr0 ++ r.2 ++ [Call.ibapi_reply_message desc] }

structure p2m_msync_struct where
  pid : Nat
  start : Nat
  len : Nat
  flags : Nat
deriving DecidableEq, Repr

/-- The loop `while (len)` of the distributed `handle_p2m_msync`: one iteration per
VMA range that the request overlaps.  The first argument bounds the number of
iterations, the second the iterations of each `do_msync`. -/
def msync_shards (E : Env) (tsk : lego_task_struct) (payload : p2m_msync_struct)
    (flags : Nat) : Nat → Nat → Nat → Nat → Nat → List Call → Except Halt (Nat × List Call)
  | 0, _, _, len, ret, tr =>
    if len = 0 then Except.ok (ret, tr) else Except.error Halt.out_of_fuel
  | n + 1, fuel, start, len, ret, tr =>
    if len = 0 then Except.ok (ret, tr)
    else
      match tsk.mm.vmrange_map.get? (E.vmr_idx start) with
      | none => Except.error Halt.null_deref
      | some root =>
        let end_ := min root.end_ (u64_add start len)
        let delta := u64_sub end_ start
        let shard : Except Halt (Int × List Call) :=
          if E.is_local root.mnode then
            do_msync fuel tsk.mm start end_ flags
          else
            Except.ok (distribute_msync E tsk start end_ flags root.mnode).2
        match shard with
        | Except.error e => Except.error e
        | Except.ok r =>
          let ret1 := ret ||| u32_of_int r.1
          let len1 := u64_sub len delta
          let start1 := u64_add start delta
          if u64_add start1 len1 > u64_add payload.start payload.len then
            Except.error Halt.bug_on
          else
            msync_shards E tsk payload flags n fuel start1 len1 ret1 (tr ++ r.2)

/-- The handler `handle_p2m_msync`; the reply is the `u32` status.  The first flag
selects the branch under `#ifdef CONFIG_DISTRIBUTED_VMA_MEMORY`. -/
def handle_p2m_msync (CONFIG_DISTRIBUTED_VMA_MEMORY : Bool) (shards fuel : Nat) (E : Env)
    (payload : p2m_msync_struct) (desc : Nat) (hdr : common_header) :
    Except Halt (Outcome Nat) :=
  let nid := hdr.src_nid
  let pid := payload.pid
  let start := payload.start
  let len := payload.len
  let flags := payload.flags
  let tr0 := [Call.find_lego_task_by_pid nid pid]
  match E.find_lego_task_by_pid nid pid with
  | none =>
    Except.ok { mm := none, reply := RET_ESRCH, trace := tr0 ++ [Call.ibapi_reply_message desc] }
  | some tsk =>
    if CONFIG_DISTRIBUTED_VMA_MEMORY then
      match msync_shards E tsk payload flags shards fuel start len 0 tr0 with
      | Except.error e => Except.error e
      | Except.ok r =>
        Except.ok { mm := some tsk.mm, reply := r.1
                    trace := r.2 ++ [Call.ibapi_reply_message desc] }
    else
      match do_msync fuel tsk.mm start (u64_add start len) flags with
      | Except.error e => Except.error e
      | Except.ok r =>
        Except.ok { mm := some tsk.mm, reply := u32_of_int r.1
                    trace := tr0 ++ r.2 ++ [Call.ibapi_reply_message desc] }

/-! ## handle_p2m_mremap -/

structure p2m_mremap_struct where
  pid : Nat
  old_addr : Nat
  old_len : Nat
  new_len : Nat
  flags : Nat
  new_addr : Nat
deriving DecidableEq, Repr

/-- The reply of `handle_p2m_mremap`; a field that the handler did not assign holds
whatever the stack held and is `none`. -/
structure p2m_mremap_reply_struct where
  status : Option Nat
  new_addr : Option Nat
  line : Option Nat
deriving DecidableEq, Repr

/-- The state that `mremap_to` and `handle_p2m_mremap` thread through their steps. -/
structure MremapState where
  mm : lego_mm_struct
  reply : p2m_mremap_reply_struct
  trace : List Call

/-- The second half of `mremap_to`, from `vma_to_resize` on: find the VMA, reserve
the destination and move.  The argument `old_len` is the value the variable holds at
that point. -/
def mremap_to_move (E : Env) (addr old_len new_addr new_len : Nat) (mm : lego_mm_struct)
    (reply : p2m_mremap_reply_struct) (tr : List Call) : MremapState :=
  let tr1 := tr ++ [Call.vma_to_resize addr old_len new_len]
  match E.vma_to_resize mm addr old_len new_len with
  | Except.error err =>
    { mm := mm
      reply := { reply with status := some (E.ERR_TO_LEGO_RET (u64_of_int err)),
                            line := some 512 }
      trace := tr1 }
  | Except.ok vma =>
    let map_flags :=
      if vma.vm_flags &&& VM_MAYSHARE ≠ 0 then MAP_FIXED ||| MAP_SHARED else MAP_FIXED
    let pgoff := u64_add vma.vm_pgoff (u64_sub addr vma.vm_start >>> PAGE_SHIFT)
    let ret := E.get_unmapped_area mm vma.vm_file new_addr new_len pgoff map_flags
    let tr2 := tr1 ++ [Call.get_unmapped_area vma.vm_file new_addr new_len pgoff map_flags]
    if offset_in_page ret ≠ 0 then
      { mm := mm
        reply := { reply with status := some RET_ENOMEM, line := some 526 }
        trace := tr2 }
    else
      let r := E.move_vma mm vma addr old_len new_len new_addr
      let mm1 := { mm with mmap := r.2 }
      let tr3 := tr2 ++ [Call.move_vma addr old_len new_len new_addr]
      if offset_in_page r.1 ≠ 0 then
        { mm := mm1
          reply := { reply with status := some RET_ENOMEM, line := some 533 }
          trace := tr3 }
      else
        { mm := mm1
          reply := { reply with status := some RET_OKAY, new_addr := some new_addr }
          trace := tr3 }

/-- The function `mremap_to`, the `MREMAP_FIXED` case (non-distributed build).  The
numbers stored in `line` are the values of `__LINE__` in the source. -/
def mremap_to (E : Env) (addr old_len new_addr new_len : Nat) (mm : lego_mm_struct)
    (reply : p2m_mremap_reply_struct) (tr : List Call) : MremapState :=
  if offset_in_page new_addr ≠ 0 then
    { mm := mm, reply := { reply with status := some RET_EINVAL }, trace := tr }
  else if new_len > TASK_SIZE ∨ new_addr > u64_sub TASK_SIZE new_len then
    { mm := mm, reply := { reply with status := some RET_EINVAL }, trace := tr }
  else
    let r := E.do_munmap mm new_addr new_len
    let ret := u64_of_int r.1
    let mm1 := { mm with mmap := r.2 }
    let tr1 := tr ++ [Call.do_munmap new_addr new_len]
    if ret ≠ 0 then
      { mm := mm1
        reply := { reply with status := some (E.ERR_TO_LEGO_RET ret), line := some 486 }
        trace := tr1 ++ [Call.WARN_ON] }
    else if old_len ≥ new_len then
      let r2 := E.do_munmap mm1 (u64_add addr new_len) (u64_sub old_len new_len)
      let ret2 := u64_of_int r2.1
      let mm2 := { mm1 with mmap := r2.2 }
      let tr2 := tr1 ++ [Call.do_munmap (u64_add addr new_len) (u64_sub old_len new_len)]
      if ret2 ≠ 0 ∧ old_len ≠ new_len then
        { mm := mm2
          reply := { reply with status := some (E.ERR_TO_LEGO_RET ret2), line := some 501 }
          trace := tr2 ++ [Call.WARN_ON] }
      else
        mremap_to_move E addr new_len new_addr new_len mm2 reply tr2
    else
      mremap_to_move E addr old_len new_addr new_len mm1 reply tr1

/-- The label `out:` of the non-distributed `handle_p2m_mremap`: release the
semaphore and reply. -/
def mremap_out (st : MremapState) (desc : Nat) : Outcome p2m_mremap_reply_struct :=
  { mm := some st.mm
    reply := st.reply
    trace := st.trace ++ [Call.up_write, Call.ibapi_reply_message desc] }

/-- The last part of the non-distributed `handle_p2m_mremap`, from
`if (flags & MREMAP_MAYMOVE)` on: the area could neither shrink nor expand in place. -/
def mremap_maymove (E : Env) (payload : p2m_mremap_struct) (vma : vm_area_struct)
    (mm : lego_mm_struct) (reply : p2m_mremap_reply_struct) (tr : List Call) : MremapState :=
  let old_addr := payload.old_addr
  let old_len := payload.old_len
  let new_len := payload.new_len
  let flags := payload.flags
  if flags &&& MREMAP_MAYMOVE ≠ 0 then
    let map_flags := if vma.vm_flags &&& VM_MAYSHARE ≠ 0 then 0 ||| MAP_SHARED else 0
    let pgoff := u64_add vma.vm_pgoff (u64_sub old_addr vma.vm_start >>> PAGE_SHIFT)
    let new_addr := E.get_unmapped_area mm vma.vm_file 0 new_len pgoff map_flags
    let tr1 := tr ++ [Call.get_unmapped_area vma.vm_file 0 new_len pgoff map_flags]
    if offset_in_page new_addr ≠ 0 then
      { mm := mm, trace := tr1
        reply := { reply with status := some (E.ERR_TO_LEGO_RET new_addr),
                              line := some 641 } }
    else
      let r := E.move_vma mm vma old_addr old_len new_len new_addr
      let mm1 := { mm with mmap := r.2 }
      let tr2 := tr1 ++ [Call.move_vma old_addr old_len new_len new_addr]
      if offset_in_page r.1 ≠ 0 then
        { mm := mm1, trace := tr2
          reply := { reply with status := some (E.ERR_TO_LEGO_RET r.1), line := some 648 } }
      else
        { mm := mm1, trace := tr2
          reply := { reply with status := some RET_OKAY, new_addr := some r.1 } }
  else
    { mm := mm, trace := tr
      reply := { reply with status := some RET_EINVAL, line := some 658 } }

/-- The handler `handle_p2m_mremap` of the non-distributed build. -/
def handle_p2m_mremap (E : Env) (payload : p2m_mremap_struct) (desc : Nat)
    (hdr : common_header) : Outcome p2m_mremap_reply_struct :=
  let nid := hdr.src_nid
  let pid := payload.pid
  let old_addr := payload.old_addr
  let old_len := payload.old_len
  let new_len := payload.new_len
  let flags := payload.flags
  let new_addr := payload.new_addr
  let reply : p2m_mremap_reply_struct := { status := none, new_addr := none, line := none }
  let tr0 := [Call.find_lego_task_by_pid nid pid]
  match E.find_lego_task_by_pid nid pid with
  | none =>
    { mm := none
      reply := { reply with status := some RET_ESRCH, line := some 564 }
      trace := tr0 ++ [Call.ibapi_reply_message desc] }
  | some tsk =>
    let mm := tsk.mm
    let tr1 := tr0 ++ [Call.down_write_killable]
    if E.down_write_killable mm ≠ 0 then
      { mm := some mm
        reply := { reply with status := some RET_EINTR, line := some 571 }
        trace := tr1 ++ [Call.ibapi_reply_message desc] }
    else if flags &&& MREMAP_FIXED ≠ 0 then
      mremap_out (mremap_to E old_addr old_len new_addr new_len mm reply tr1) desc
    else if old_len ≥ new_len then
      let r := E.do_munmap mm (u64_add old_addr new_len) (u64_sub old_len new_len)
      let ret := u64_of_int r.1
      let mm1 := { mm with mmap := r.2 }
      let tr2 := tr1 ++ [Call.do_munmap (u64_add old_addr new_len) (u64_sub old_len new_len)]
      if ret ≠ 0 ∧ old_len ≠ new_len then
        mremap_out { mm := mm1, trace := tr2
                     reply := { reply with status := some (E.ERR_TO_LEGO_RET ret),
                                           line := some 588 } } desc
      else
        mremap_out { mm := mm1, trace := tr2
                     reply := { reply with status := some RET_OKAY,
                                           new_addr := some old_addr } } desc
    else
      let tr2 := tr1 ++ [Call.vma_to_resize old_addr old_len new_len]
      match E.vma_to_resize mm old_addr old_len new_len with
      | Except.error err =>
        mremap_out { mm := mm, trace := tr2
                     reply := { reply with status := some (E.ERR_TO_LEGO_RET (u64_of_int err)),
                                           line := some 603 } } desc
      | Except.ok vma =>
        if old_len = u64_sub vma.vm_end old_addr then
          let tr3 := tr2 ++ [Call.vma_expandable (u64_sub new_len old_len)]
          if E.vma_expandable mm vma (u64_sub new_len old_len) then
            let r := E.vma_adjust mm vma vma.vm_start (u64_add old_addr new_len) vma.vm_pgoff
            let mm1 := { mm with mmap := r.2 }
            let tr4 := tr3 ++
              [Call.vma_adjust vma.vm_start (u64_add old_addr new_len) vma.vm_pgoff]
            if r.1 ≠ 0 then
              mremap_out { mm := mm1, trace := tr4
                           reply := { reply with status := some RET_ENOMEM,
                                                 line := some 614 } } desc
            else
              mremap_out { mm := mm1, trace := tr4
                           reply := { reply with status := some RET_OKAY,
                                                 new_addr := some old_addr } } desc
          else
            mremap_out (mremap_maymove E payload vma mm reply tr3) desc
        else
          mremap_out (mremap_maymove E payload vma mm reply tr2) desc

/-- The handler `handle_p2m_mremap` of the distributed build. -/
def distvm_handle_p2m_mremap (E : Env) (payload : p2m_mremap_struct) (desc : Nat)
    (hdr : common_header) : Outcome p2m_mremap_reply_struct :=
  let nid := hdr.src_nid
  let pid := payload.pid
  let old_addr := payload.old_addr
  let old_len := payload.old_len
  let new_len := payload.new_len
  let flags := payload.flags
  let new_addr := payload.new_addr
  let reply : p2m_mremap_reply_struct := { status := none, new_addr := none, line := none }
  let tr0 := [Call.find_lego_task_by_pid nid pid]
  match E.find_lego_task_by_pid nid pid with
  | none =>
    { mm := none
      reply := { reply with status := some RET_ESRCH, line := some 426 }
      trace := tr0 ++ [Call.ibapi_reply_message desc] }
  | some tsk =>
    let mm := tsk.mm
    let tr1 := tr0 ++ [Call.down_write_killable]
    if E.down_write_killable mm ≠ 0 then
      { mm := some mm
        reply := { reply with status := some RET_EINTR, line := some 433 }
        trace := tr1 ++ [Call.ibapi_reply_message desc] }
    else
      let r := E.distvm_mremap_homenode mm old_addr old_len new_len flags new_addr
      let mm1 := { mm with mmap := r.2 }
      let tr2 := tr1 ++ [Call.load_reply_buffer,
        Call.distvm_mremap_homenode old_addr old_len new_len flags new_addr,
        Call.remove_reply_buffer]
      let reply1 := { reply with new_addr := some r.1 }
      if IS_ERR_VALUE r.1 then
        { mm := some mm1
          reply := { reply1 with status := some (r.1 % U32_MOD) }
          trace := tr2 ++ [Call.ibapi_reply_message desc] }
      else
        { mm := some mm1
          reply := { reply1 with status := some 0 }
          trace := tr2 ++ [Call.up_write, Call.ibapi_reply_message desc] }

/-! ## handle_m2m_mmap (distributed build) -/

structure m2m_mmap_struct where
  pid : Nat
  new_range : Nat
  addr : Nat
  len : Nat
  prot : Nat
  flags : Nat
  vm_flags : Nat
  pgoff : Nat
  f_name : String
deriving DecidableEq, Repr

/-- The reply of `handle_m2m_mmap`; an unassigned field is `none`. -/
structure m2m_mmap_reply_struct where
  addr : Option Nat
  max_gap : Option Nat
deriving DecidableEq, Repr

/-- The last step of `handle_m2m_mmap`, from `flags &= ~(MAP_EXECUTABLE |
MAP_DENYWRITE)` on: strip the flags, map, and reply. -/
def m2m_mmap_map (E : Env) (tsk : lego_task_struct) (file : Option lego_file)
    (payload : m2m_mmap_struct) (desc : Nat) (tr : List Call) :
    Outcome m2m_mmap_reply_struct :=
  let flags := payload.flags &&& u64_not (MAP_EXECUTABLE ||| MAP_DENYWRITE)
  let r := E.do_dist_mmap tsk.mm file payload.new_range payload.addr payload.len
    payload.prot flags payload.vm_flags payload.pgoff
  { mm := some { tsk.mm with mmap := r.2.2 }
    reply := { addr := some r.1, max_gap := some r.2.1 }
    trace := tr ++ [Call.do_dist_mmap file payload.new_range payload.addr payload.len
      payload.prot flags payload.vm_flags payload.pgoff, Call.ibapi_reply_message desc] }

/-- The part of `handle_m2m_mmap` that runs once a task is at hand: open the file
when the mapping is not anonymous, then map. -/
def m2m_mmap_open (E : Env) (tsk : lego_task_struct) (payload : m2m_mmap_struct)
    (desc : Nat) (tr0 : List Call) : Outcome m2m_mmap_reply_struct :=
  if payload.flags &&& MAP_ANONYMOUS = 0 then
    let tr1 := tr0 ++ [Call.file_open payload.f_name]
    match E.file_open tsk payload.f_name with
    | Except.error _ =>
      { mm := some tsk.mm
        reply := { addr := some (u64_of_int (-(ENOMEM : Int))), max_gap := none }
        trace := tr1 ++ [Call.ibapi_reply_message desc] }
    | Except.ok file => m2m_mmap_map E tsk (some file) payload desc tr1
  else
    m2m_mmap_map E tsk none payload desc tr0

/-- The handler `handle_m2m_mmap`: on first contact the task and its address space
are created and inserted into the task table. -/
def handle_m2m_mmap (E : Env) (payload : m2m_mmap_struct) (desc : Nat)
    (hdr : common_header) : Outcome m2m_mmap_reply_struct :=
  let nid := hdr.src_nid
  let pid := payload.pid
  let tr0 := [Call.find_lego_task_by_pid nid pid]
  match E.find_lego_task_by_pid nid pid with
  | some tsk => m2m_mmap_open E tsk payload desc tr0
  | none =>
    let tr1 := tr0 ++ [Call.kzalloc]
    if ¬ E.kzalloc then
      { mm := none
        reply := { addr := some (u64_of_int (-(ENOMEM : Int))), max_gap := none }
        trace := tr1 ++ [Call.ibapi_reply_message desc] }
    else
      let tr2 := tr1 ++ [Call.lego_mm_alloc]
      match E.lego_mm_alloc with
      | none =>
        { mm := none
          reply := { addr := some (u64_of_int (-(ENOMEM : Int))), max_gap := none }
          trace := tr2 ++ [Call.ibapi_reply_message desc] }
      | some mm =>
        let tsk : lego_task_struct := { pid := pid, home_node := nid, mm := mm }
        let addr := u64_of_int (E.ht_insert_lego_task tsk)
        let tr3 := tr2 ++ [Call.ht_insert_lego_task]
        if addr ≠ 0 then
          let tr4 := tr3 ++ [Call.lego_mmput, Call.kfree]
          if addr = u64_of_int (-(EEXIST : Int)) then
            { mm := none
              reply := { addr := some 0, max_gap := none }
              trace := tr4 ++ [Call.ibapi_reply_message desc] }
          else
            { mm := none
              reply := { addr := some addr, max_gap := none }
              trace := tr4 ++ [Call.ibapi_reply_message desc] }
        else
          m2m_mmap_open E tsk payload desc tr3

/-! ## handle_p2m_mprotect -/

/-- The handler `handle_p2m_mprotect`, whose body is `WARN_ON(1); return 0;`.  It
reads neither the payload (whose declaration is outside the sources at hand) nor the
reply descriptor.  The result is the value returned and the calls made. -/
def handle_p2m_mprotect {P : Type} (_payload : P) (_desc : Nat) (_hdr : common_header) :
    Int × List Call :=
  (0, [Call.WARN_ON])

/-! ## The state bits of a pcache line (`include/processor/pcache_types.h`) -/

/-- The metadata of a pcache line; of `struct pcache_meta` only the field `bits`, an
`unsigned long`, is kept. -/
structure pcache_meta where
  bits : Nat
deriving DecidableEq, Repr

/-- The enumerators of `enum pcache_meta_bits`, numbered from 0 in the order of the
declaration. -/
def PC_locked : Nat := 0

def PC_allocated : Nat := 1

def PC_usable : Nat := 2

def PC_valid : Nat := 3

def PC_dirty : Nat := 4

def PC_reclaim : Nat := 5

def PC_writeback : Nat := 6

def __NR_PCLBITS : Nat := 7

/-- Modelled from the spec: `test_bit(nr, addr)` tests bit `nr` of the word at
`addr`; the bit operations are outside the sources at hand.  The result is 1 when
the bit is set and 0 when it is clear. -/
def test_bit (nr : Nat) (word : Nat) : Int :=
  if word.testBit nr then 1 else 0

/-- Modelled from the spec: `set_bit(nr, addr)` sets bit `nr` of the word at `addr`
and leaves the other bits alone.  The result is the new word. -/
def set_bit (nr : Nat) (word : Nat) : Nat :=
  word ||| (1 <<< nr)

/-- Modelled from the spec: `clear_bit(nr, addr)` clears bit `nr` of the 64-bit word
at `addr` and leaves the other bits alone.  The result is the new word. -/
def clear_bit (nr : Nat) (word : Nat) : Nat :=
  word &&& u64_not (1 <<< nr)

/-- Modelled from the spec: `test_and_set_bit(nr, addr)` sets bit `nr` and returns
its old value.  The result is the value returned and the new word. -/
def test_and_set_bit (nr : Nat) (word : Nat) : Int × Nat :=
  (test_bit nr word, set_bit nr word)

/-- Modelled from the spec: `test_and_clear_bit(nr, addr)` clears bit `nr` and
returns its old value.  The result is the value returned and the new word. -/
def test_and_clear_bit (nr : Nat) (word : Nat) : Int × Nat :=
  (test_bit nr word, clear_bit nr word)

/-- The macro `TEST_PC_BITS(uname, lname)`: the body of `Pcache##uname`. -/
def TEST_PC_BITS (lname : Nat) (p : pcache_meta) : Int :=
  test_bit lname p.bits

/-- The macro `SET_PC_BITS(uname, lname)`: the body of `SetPcache##uname`. -/
def SET_PC_BITS (lname : Nat) (p : pcache_meta) : pcache_meta :=
  { p with bits := set_bit lname p.bits }

/-- The macro `CLEAR_PC_BITS(uname, lname)`: the body of `ClearPcache##uname`. -/
def CLEAR_PC_BITS (lname : Nat) (p : pcache_meta) : pcache_meta :=
  { p with bits := clear_bit lname p.bits }

/-- The macro `TEST_SET_BITS(uname, lname)`: the body of `TestSetPcache##uname`.  The
result is the value returned and the line it leaves. -/
def TEST_SET_BITS (lname : Nat) (p : pcache_meta) : Int × pcache_meta :=
  ((test_and_set_bit lname p.bits).1, { p with bits := (test_and_set_bit lname p.bits).2 })

/-- The macro `TEST_CLEAR_BITS(uname, lname)`: the body of `TestClearPcache##uname`. -/
def TEST_CLEAR_BITS (lname : Nat) (p : pcache_meta) : Int × pcache_meta :=
  ((test_and_clear_bit lname p.bits).1,
    { p with bits := (test_and_clear_bit lname p.bits).2 })

/-- The functions that `PCACHE_META_BITS(Locked, locked)` declares. -/
def PcacheLocked : pcache_meta → Int := TEST_PC_BITS PC_locked

def SetPcacheLocked : pcache_meta → pcache_meta := SET_PC_BITS PC_locked

def ClearPcacheLocked : pcache_meta → pcache_meta := CLEAR_PC_BITS PC_locked

def TestSetPcacheLocked : pcache_meta → Int × pcache_meta := TEST_SET_BITS PC_locked

def TestClearPcacheLocked : pcache_meta → Int × pcache_meta := TEST_CLEAR_BITS PC_locked

/-- The test functions that `PCACHE_META_BITS` declares for the other six bits. -/
def PcacheAllocated : pcache_meta → Int := TEST_PC_BITS PC_allocated

def PcacheUsable : pcache_meta → Int := TEST_PC_BITS PC_usable

def PcacheValid : pcache_meta → Int := TEST_PC_BITS PC_valid

def PcacheDirty : pcache_meta → Int := TEST_PC_BITS PC_dirty

def PcacheReclaim : pcache_meta → Int := TEST_PC_BITS PC_reclaim

def PcacheWriteback : pcache_meta → Int := TEST_PC_BITS PC_writeback

/-- The macro `PCACHE_FLAGS_CHECK_AT_FREE`: the flags that a pcache line being freed
should not have set. -/
def PCACHE_FLAGS_CHECK_AT_FREE : Nat :=
  (1 <<< PC_locked) ||| (1 <<< PC_valid) ||| (1 <<< PC_dirty) ||| (1 <<< PC_reclaim) |||
    (1 <<< PC_writeback)

/-! ## Observations on traces -/

/-- The reply descriptors of the calls of `ibapi_reply_message` in a trace, in order. -/
def replies (tr : List Call) : List Nat :=
  tr.filterMap (fun c => match c with
    | Call.ibapi_reply_message desc => some desc
    | _ => none)

/-- Whether a VMA holds the address `a`. -/
def vma_holds (a : Nat) (vma : vm_area_struct) : Bool :=
  decide (vma.vm_start ≤ a) && decide (a < vma.vm_end)

/-- Reading a `u32` bit pattern as `int`. -/
def int_of_u32 (x : Nat) : Int :=
  if x % U32_MOD < 2 ^ 31 then ((x % U32_MOD : Nat) : Int)
  else ((x % U32_MOD : Nat) : Int) - (U32_MOD : Int)

/-! ## A small concrete environment

The theorems below hold for every environment.  To run the handlers on concrete
requests we also fix one simple environment: a task table with at most one task, a
semaphore that is always granted, and VMA operations that work on whole VMAs only. -/

/-- Whether the VMA overlaps `[a, b)`. -/
def vma_overlaps (a b : Nat) (vma : vm_area_struct) : Bool :=
  decide (vma.vm_start < b) && decide (a < vma.vm_end)

/-- Whether the VMA lies inside `[a, b)`. -/
def vma_inside (a b : Nat) (vma : vm_area_struct) : Bool :=
  decide (a ≤ vma.vm_start) && decide (vma.vm_end ≤ b)

/-- An anonymous private VMA `[a, b)`. -/
def anon_vma (a b : Nat) : vm_area_struct :=
  { vm_start := a, vm_end := b, vm_flags := 0, vm_pgoff := 0, vm_file := none }

/-- A simple environment: `tsk` is the only task, found under its `home_node` and
`pid`.  Unmapping removes the VMAs that lie inside the range and fails with `-EINVAL`
on an empty range; `do_brk` appends an anonymous VMA; resizing finds the VMA that
holds the address or fails with `-EFAULT`; moving replaces the VMA. -/
def sim_env (tsk : Option lego_task_struct) : Env where
  find_lego_task_by_pid := fun nid pid =>
    match tsk with
    | some t => if t.home_node = nid ∧ t.pid = pid then some t else none
    | none => none
  down_write_killable := fun _ => 0
  do_munmap := fun mm addr len =>
    if len = 0 then (-(EINVAL : Int), mm.mmap)
    else (0, mm.mmap.filter (fun vma => ! vma_inside addr (addr + len) vma))
  do_brk := fun mm addr len => (0, mm.mmap ++ [anon_vma addr (addr + len)])
  find_vma_intersection := fun mm a b => mm.mmap.find? (vma_overlaps a b)
  lego_mm_populate := fun mm _ _ => mm.mmap
  distvm_munmap_homenode := fun mm addr len =>
    if len = 0 then (-(EINVAL : Int), mm.mmap)
    else (0, mm.mmap.filter (fun vma => ! vma_inside addr (addr + len) vma))
  distvm_brk_homenode := fun mm addr len => (0, mm.mmap ++ [anon_vma addr (addr + len)])
  find_dist_vma_intersection := fun mm a b => (mm.mmap.find? (vma_overlaps a b)).isSome
  ERR_TO_LEGO_RET := fun ret => (U64_MOD - ret % U64_MOD) % U32_MOD
  file_open := fun _ _ => Except.ok { id := 1 }
  vm_mmap_pgoff := fun mm file addr len _ _ pgoff =>
    (addr, mm.mmap ++ [{ anon_vma addr (addr + len) with vm_file := file, vm_pgoff := pgoff }])
  vma_to_resize := fun mm addr _ _ =>
    match mm.mmap.find? (fun vma => decide (vma.vm_start ≤ addr) && decide (addr < vma.vm_end)) with
    | some vma => Except.ok vma
    | none => Except.error (-(EFAULT : Int))
  vma_expandable := fun mm vma delta =>
    (mm.mmap.find? (vma_overlaps vma.vm_end (vma.vm_end + delta))).isNone
  vma_adjust := fun mm vma start_addr end_addr pgoff =>
    (0, mm.mmap.map (fun v =>
      if v = vma then { v with vm_start := start_addr, vm_end := end_addr, vm_pgoff := pgoff }
      else v))
  get_unmapped_area := fun _ _ addr _ _ _ => addr
  move_vma := fun mm vma _ _ new_len new_addr =>
    (new_addr, (mm.mmap.filter (fun v => decide (v ≠ vma))) ++
      [{ vma with vm_start := new_addr, vm_end := new_addr + new_len }])
  distvm_mremap_homenode := fun mm old_addr _ _ _ _ => (old_addr, mm.mmap)
  vmr_idx := fun addr => addr >>> 30
  is_local := fun mnode => decide (mnode = 0)
  net_send_reply_timeout := fun _ _ _ _ _ => (0, 0)
  kzalloc := true
  lego_mm_alloc := some { start_brk := 0, brk := 0, mmap := [], vmrange_map := [] }
  ht_insert_lego_task := fun _ => 0
  do_dist_mmap := fun mm file _ addr len _ _ _ pgoff =>
    (addr, 0, mm.mmap ++ [{ anon_vma addr (addr + len) with vm_file := file, vm_pgoff := pgoff }])

/-- A task on node 0 with pid 1 whose heap is empty and starts at `0x400000`. -/
def heap_task : lego_task_struct :=
  { pid := 1, home_node := 0
    mm := { start_brk := 0x400000, brk := 0x400000, mmap := [], vmrange_map := [] } }

/-- The task `heap_task` with one VMA `[0x410000, 0x420000)` right above its heap. -/
def blocked_heap_task : lego_task_struct :=
  { heap_task with mm := { heap_task.mm with mmap := [anon_vma 0x410000 0x420000] } }

/-- A task whose break lies in the last page of the 64-bit space, above one VMA. -/
def top_heap_task : lego_task_struct :=
  { pid := 1, home_node := 0
    mm := { start_brk := 0x400000, brk := 0xFFFFFFFFFFFFFFFF
            mmap := [anon_vma 0x400000 0x800000], vmrange_map := [] } }

/-- The task `heap_task` after its heap grew to `[0x400000, 0x420000)`. -/
def grown_heap_task : lego_task_struct :=
  { heap_task with
    mm := { heap_task.mm with brk := 0x420000, mmap := [anon_vma 0x400000 0x410000,
                                                       anon_vma 0x410000 0x420000] } }

/-- The task `heap_task` with its break in the middle of a page. -/
def midpage_heap_task : lego_task_struct :=
  { heap_task with mm := { heap_task.mm with brk := 0x400010 } }

/-- The task `heap_task` after `BRK(0x410000)`. -/
def grown_once_task : lego_task_struct :=
  { heap_task with
    mm := { heap_task.mm with brk := 0x410000, mmap := [anon_vma 0x400000 0x410000] } }

/-- A task with the mappings `[0x10000, 0x12000)` and `[0x30000, 0x31000)`. -/
def remap_task : lego_task_struct :=
  { pid := 1, home_node := 0
    mm := { start_brk := 0x400000, brk := 0x400000
            mmap := [anon_vma 0x10000 0x12000, anon_vma 0x30000 0x31000]
            vmrange_map := [] } }

/-- An address space with the mappings `[0x1000, 0x2000)` and `[0x3000, 0x4000)`. -/
def gap_mm : lego_mm_struct :=
  { start_brk := 0x400000, brk := 0x400000
    mmap := [anon_vma 0x1000 0x2000, anon_vma 0x3000 0x4000], vmrange_map := [] }

/-- The environment `sim_env` with a semaphore wait that a signal interrupts. -/
def interrupted_env (tsk : Option lego_task_struct) : Env :=
  { sim_env tsk with down_write_killable := fun _ => -(EINTR : Int) }

/-- The environment `sim_env` with a home node that cannot remap: the call
`distvm_mremap_homenode` returns `-ENOMEM` and leaves the address space alone. -/
def failing_homenode_env (tsk : Option lego_task_struct) : Env :=
  { sim_env tsk with
    distvm_mremap_homenode := fun mm _ _ _ _ _ => (u64_of_int (-(ENOMEM : Int)), mm.mmap) }

/-- The environment `sim_env` with a task table in which the inserted task is there
already: `ht_insert_lego_task` returns `-EEXIST`. -/
def racing_env : Env :=
  { sim_env none with ht_insert_lego_task := fun _ => -(EEXIST : Int) }

/-- A file-backed shared VMA `[0x1000, 0x2000)`. -/
def shared_file_vma : vm_area_struct :=
  { vm_start := 0x1000, vm_end := 0x2000, vm_flags := VM_SHARED, vm_pgoff := 0,
    vm_file := some { id := 1 } }

/-- An address space whose only mapping is `shared_file_vma`. -/
def shared_file_mm : lego_mm_struct :=
  { start_brk := 0x400000, brk := 0x400000, mmap := [shared_file_vma], vmrange_map := [] }

/-- The task of pid 1 as its home node 0 sees it: the first GiB is local, the second
GiB belongs to the memory node 1. -/
def home_task : lego_task_struct :=
  { pid := 1, home_node := 0
    mm := { start_brk := 0x400000, brk := 0x400000, mmap := []
            vmrange_map := [{ begin := 0, end_ := 0x40000000, mnode := 0, max_gap := 0 },
                            { begin := 0x40000000, end_ := 0x80000000, mnode := 1,
                              max_gap := 0 }] } }

/-- The same task as the memory node 1 sees it: one page is mapped at `0x40000000`. -/
def remote_task : lego_task_struct :=
  { pid := 1, home_node := 0
    mm := { start_brk := 0, brk := 0, mmap := [anon_vma 0x40000000 0x40001000]
            vmrange_map := [] } }

/-- The home node 0 with the memory node 1 behind the transport: a message
`M2M_MSYNC` is handled by `handle_m2m_msync` on node 1, and its `u32` reply comes
back as the `int` that `distribute_msync` reads. -/
def two_node_env : Env :=
  { sim_env (some home_task) with
    net_send_reply_timeout := fun _ pid start len flags =>
      match handle_m2m_msync 8 (sim_env (some remote_task))
          { pid := pid, start := start, len := len, flags := flags } 0 { src_nid := 0 } with
      | Except.ok o => (0, int_of_u32 o.reply)
      | Except.error _ => (-(EINTR : Int), 0) }

/-! ## Arithmetic of page alignment -/

theorem PAGE_SIZE_eq : PAGE_SIZE = 4096 := by decide

theorem U64_MOD_eq : U64_MOD = 18446744073709551616 := by
  unfold U64_MOD; norm_num

theorem PAGE_MASK_eq : PAGE_MASK = 2 ^ 64 - 2 ^ 12 := by
  unfold PAGE_MASK u64_not U64_MOD PAGE_SIZE PAGE_SHIFT; norm_num [Nat.shiftLeft_eq]

theorem land_page_mask (x : Nat) (h : x < 2 ^ 64) :
    x &&& (2 ^ 64 - 2 ^ 12) = x / 4096 * 4096 := by
  apply Nat.eq_of_testBit_eq
  intro i
  have hC : (2 ^ 64 - 2 ^ 12 : Nat) = 2 ^ 12 * (2 ^ 52 - 1) := by norm_num
  have hx : x / 4096 * 4096 = 2 ^ 12 * (x >>> 12) := by
    rw [Nat.shiftRight_eq_div_pow]; norm_num [Nat.mul_comm]
  rw [hC, hx, Nat.testBit_land, Nat.testBit_mul_pow_two, Nat.testBit_mul_pow_two,
    Nat.testBit_two_pow_sub_one, Nat.testBit_shiftRight]
  by_cases h12 : 12 ≤ i
  · have e : 12 + (i - 12) = i := by omega
    simp only [ge_iff_le, h12, decide_True, Bool.true_and, e]
    by_cases h64 : i < 64
    · have : i - 12 < 52 := by omega
      simp [this]
    · have : x < 2 ^ i := lt_of_lt_of_le h (Nat.pow_le_pow_right (by norm_num) (by omega))
      simp [Nat.testBit_lt_two_pow this]
  · simp [h12]

/-- Rounding up to a page boundary, written with division. -/
theorem PAGE_ALIGN_eq (x : Nat) :
    PAGE_ALIGN x = (x + 4095) % 18446744073709551616 / 4096 * 4096 := by
  have hlt : (x + 4095) % 18446744073709551616 < 2 ^ 64 := by
    have : (18446744073709551616 : Nat) = 2 ^ 64 := by norm_num
    rw [← this]; exact Nat.mod_lt _ (by norm_num)
  unfold PAGE_ALIGN
  rw [PAGE_MASK_eq]
  have hadd : u64_add x (PAGE_SIZE - 1) = (x + 4095) % 18446744073709551616 := by
    unfold u64_add; rw [PAGE_SIZE_eq, U64_MOD_eq]
  rw [hadd]
  exact land_page_mask _ hlt

/-- Below the last page of the 64-bit space, rounding up is monotone. -/
theorem PAGE_ALIGN_mono (a b : Nat) (hab : a ≤ b) (hb : b ≤ U64_MOD - PAGE_SIZE) :
    PAGE_ALIGN a ≤ PAGE_ALIGN b := by
  rw [PAGE_ALIGN_eq, PAGE_ALIGN_eq]
  rw [U64_MOD_eq, PAGE_SIZE_eq] at hb
  omega

/-! ## Properties of the handlers -/

/-- On every path that took the semaphore, `handle_p2m_brk` replies the break that it
leaves in the address space. -/
theorem brk_reply_is_final_brk (E : Env) (payload : p2m_brk_struct) (desc : Nat)
    (hdr : common_header) (tsk : lego_task_struct)
    (htsk : E.find_lego_task_by_pid hdr.src_nid payload.pid = some tsk)
    (hsem : E.down_write_killable tsk.mm = 0) :
    ∃ mm, (handle_p2m_brk E payload desc hdr).mm = some mm ∧
      (handle_p2m_brk E payload desc hdr).reply.ret_brk = mm.brk := by
  simp only [handle_p2m_brk, htsk, hsem, brk_set_brk, brk_out]
  split_ifs <;> simp_all

/-- C1: when `find_lego_task_by_pid(src_nid, pid)` finds no task, each of
`handle_p2m_brk`, `handle_p2m_mmap`, `handle_p2m_munmap`, `handle_p2m_msync` and
`handle_p2m_mremap` (in both builds) replies the status `RET_ESRCH`, and the only
calls it makes are the task lookup and the reply: no semaphore is taken and no
address-space operation runs. -/
theorem no_task_replies_ESRCH (E : Env) (desc : Nat) (hdr : common_header) (pid : Nat)
    (hnone : E.find_lego_task_by_pid hdr.src_nid pid = none) :
    (∀ brk,
      (handle_p2m_brk E { pid := pid, brk := brk } desc hdr).reply.ret_brk = RET_ESRCH ∧
      (handle_p2m_brk E { pid := pid, brk := brk } desc hdr).trace =
        [Call.find_lego_task_by_pid hdr.src_nid pid, Call.ibapi_reply_message desc] ∧
      (handle_p2m_brk E { pid := pid, brk := brk } desc hdr).mm = none) ∧
    (∀ brk,
      (distvm_handle_p2m_brk E { pid := pid, brk := brk } desc hdr).reply.ret_brk
        = RET_ESRCH ∧
      (distvm_handle_p2m_brk E { pid := pid, brk := brk } desc hdr).trace =
        [Call.find_lego_task_by_pid hdr.src_nid pid, Call.ibapi_reply_message desc] ∧
      (distvm_handle_p2m_brk E { pid := pid, brk := brk } desc hdr).mm = none) ∧
    (∀ cfg (p : p2m_mmap_struct), p.pid = pid →
      (handle_p2m_mmap cfg E p desc hdr).reply.ret = some RET_ESRCH ∧
      (handle_p2m_mmap cfg E p desc hdr).trace =
        [Call.find_lego_task_by_pid hdr.src_nid pid, Call.ibapi_reply_message desc] ∧
      (handle_p2m_mmap cfg E p desc hdr).mm = none) ∧
    (∀ cfg (p : p2m_munmap_struct), p.pid = pid →
      (handle_p2m_munmap cfg E p desc hdr).reply = RET_ESRCH ∧
      (handle_p2m_munmap cfg E p desc hdr).trace =
        [Call.find_lego_task_by_pid hdr.src_nid pid, Call.ibapi_reply_message desc] ∧
      (handle_p2m_munmap cfg E p desc hdr).mm = none) ∧
    (∀ cfg shards fuel (p : p2m_msync_struct), p.pid = pid →
      handle_p2m_msync cfg shards fuel E p desc hdr = Except.ok
        { mm := none, reply := RET_ESRCH
          trace := [Call.find_lego_task_by_pid hdr.src_nid pid,
            Call.ibapi_reply_message desc] }) ∧
    (∀ (p : p2m_mremap_struct), p.pid = pid →
      (handle_p2m_mremap E p desc hdr).reply.status = some RET_ESRCH ∧
      (handle_p2m_mremap E p desc hdr).trace =
        [Call.find_lego_task_by_pid hdr.src_nid pid, Call.ibapi_reply_message desc] ∧
      (handle_p2m_mremap E p desc hdr).mm = none) ∧
    (∀ (p : p2m_mremap_struct), p.pid = pid →
      (distvm_handle_p2m_mremap E p desc hdr).reply.status = some RET_ESRCH ∧
      (distvm_handle_p2m_mremap E p desc hdr).trace =
        [Call.find_lego_task_by_pid hdr.src_nid pid, Call.ibapi_reply_message desc] ∧
      (distvm_handle_p2m_mremap E p desc hdr).mm = none) := by
  refine ⟨?_, ?_, ?_, ?_, ?_, ?_, ?_⟩
  · intro brk; simp [handle_p2m_brk, hnone]
  · intro brk; simp [distvm_handle_p2m_brk, hnone]
  · intro cfg p hp; subst hp; simp [handle_p2m_mmap, hnone]
  · intro cfg p hp; subst hp; simp [handle_p2m_munmap, hnone]
  · intro cfg shards fuel p hp; subst hp; simp [handle_p2m_msync, hnone]
  · intro p hp; subst hp; simp [handle_p2m_mremap, hnone]
  · intro p hp; subst hp; simp [distvm_handle_p2m_mremap, hnone]

/-- Witness of C1: with an empty task table, a `BRK` and an `MREMAP` request of pid 7
are answered `RET_ESRCH` after the lookup alone. -/
theorem no_task_replies_ESRCH_witness :
    (sim_env none).find_lego_task_by_pid 0 7 = none ∧
    (handle_p2m_brk (sim_env none) { pid := 7, brk := 0x410000 } 5
      { src_nid := 0 }).reply.ret_brk = RET_ESRCH ∧
    (handle_p2m_mremap (sim_env none)
      { pid := 7, old_addr := 0x10000, old_len := 0x2000, new_len := 0x1000, flags := 0,
        new_addr := 0 } 5 { src_nid := 0 }).trace =
      [Call.find_lego_task_by_pid 0 7, Call.ibapi_reply_message 5] :=
  ⟨rfl,
   ((no_task_replies_ESRCH (sim_env none) 5 { src_nid := 0 } 7 rfl).1 0x410000).1,
   ((no_task_replies_ESRCH (sim_env none) 5 { src_nid := 0 } 7 rfl).2.2.2.2.2.1
      { pid := 7, old_addr := 0x10000, old_len := 0x2000, new_len := 0x1000, flags := 0,
        new_addr := 0 } rfl).2.1⟩

/-- C2, as the code has it: a `BRK` request that grows the heap across a page
boundary, with nothing mapped in `[oldbrk, newbrk + PAGE_SIZE)` and a `do_brk` that
does not fail, stores `brk` in `mm->brk` and replies `brk`; and when `brk` lies at
most `2 ^ 64 - PAGE_SIZE`, so that `PAGE_ALIGN(brk)` does not wrap, it calls
`lego_mm_populate` exactly once, with `(oldbrk, newbrk - oldbrk)`, after
`do_brk(oldbrk, newbrk - oldbrk)`. -/
theorem brk_grow_success (E : Env) (payload : p2m_brk_struct) (desc : Nat)
    (hdr : common_header) (tsk : lego_task_struct)
    (htsk : E.find_lego_task_by_pid hdr.src_nid payload.pid = some tsk)
    (hsem : E.down_write_killable tsk.mm = 0)
    (hmin : tsk.mm.start_brk ≤ payload.brk)
    (hgrow : tsk.mm.brk < payload.brk)
    (hpage : PAGE_ALIGN payload.brk ≠ PAGE_ALIGN tsk.mm.brk)
    (hfree : E.find_vma_intersection tsk.mm (PAGE_ALIGN tsk.mm.brk)
      (u64_add (PAGE_ALIGN payload.brk) PAGE_SIZE) = none)
    (hbrk : 0 ≤ (E.do_brk tsk.mm (PAGE_ALIGN tsk.mm.brk)
      (u64_sub (PAGE_ALIGN payload.brk) (PAGE_ALIGN tsk.mm.brk))).1) :
    (handle_p2m_brk E payload desc hdr).mm.map (fun mm => mm.brk) = some payload.brk ∧
    (handle_p2m_brk E payload desc hdr).reply.ret_brk = payload.brk ∧
    (payload.brk ≤ U64_MOD - PAGE_SIZE →
      PAGE_ALIGN tsk.mm.brk < PAGE_ALIGN payload.brk ∧
      (handle_p2m_brk E payload desc hdr).trace =
        [Call.find_lego_task_by_pid hdr.src_nid payload.pid, Call.down_write_killable,
         Call.find_vma_intersection (PAGE_ALIGN tsk.mm.brk)
           (u64_add (PAGE_ALIGN payload.brk) PAGE_SIZE),
         Call.do_brk (PAGE_ALIGN tsk.mm.brk)
           (u64_sub (PAGE_ALIGN payload.brk) (PAGE_ALIGN tsk.mm.brk)),
         Call.lego_mm_populate (PAGE_ALIGN tsk.mm.brk)
           (PAGE_ALIGN payload.brk - PAGE_ALIGN tsk.mm.brk),
         Call.up_write, Call.ibapi_reply_message desc]) := by
  have h1 : ¬ payload.brk < tsk.mm.start_brk := Nat.not_lt.mpr hmin
  have h2 : ¬ payload.brk ≤ tsk.mm.brk := Nat.not_le.mpr hgrow
  have h3 : ¬ (E.do_brk tsk.mm (PAGE_ALIGN tsk.mm.brk)
      (u64_sub (PAGE_ALIGN payload.brk) (PAGE_ALIGN tsk.mm.brk))).1 < 0 := not_lt.mpr hbrk
  refine ⟨?_, ?_, ?_⟩
  · by_cases hlt : PAGE_ALIGN tsk.mm.brk < PAGE_ALIGN payload.brk
    · simp [handle_p2m_brk, htsk, hsem, h1, h2, h3, Ne.symm hpage, hfree, brk_set_brk,
        brk_out, hlt]
    · simp [handle_p2m_brk, htsk, hsem, h1, h2, h3, Ne.symm hpage, hfree, brk_set_brk,
        brk_out, hlt]
  · by_cases hlt : PAGE_ALIGN tsk.mm.brk < PAGE_ALIGN payload.brk
    · simp [handle_p2m_brk, htsk, hsem, h1, h2, h3, Ne.symm hpage, hfree, brk_set_brk,
        brk_out, hlt]
    · simp [handle_p2m_brk, htsk, hsem, h1, h2, h3, Ne.symm hpage, hfree, brk_set_brk,
        brk_out, hlt]
  · intro hnowrap
    have hmono : PAGE_ALIGN tsk.mm.brk ≤ PAGE_ALIGN payload.brk :=
      PAGE_ALIGN_mono _ _ (Nat.le_of_lt hgrow) hnowrap
    have hlt : PAGE_ALIGN tsk.mm.brk < PAGE_ALIGN payload.brk :=
      lt_of_le_of_ne hmono (Ne.symm hpage)
    refine ⟨hlt, ?_⟩
    simp [handle_p2m_brk, htsk, hsem, h1, h2, h3, Ne.symm hpage, hfree, brk_set_brk,
      brk_out, hlt]

/-- Witness of C2: with `start_brk = brk = 0x400000`, `BRK(0x410000)` replies
`0x410000` after `do_brk(0x400000, 0x10000)` and `populate(0x400000, 0x10000)`, and
the heap is the one new anonymous VMA `[0x400000, 0x410000)`. -/
theorem brk_grow_success_witness :
    (handle_p2m_brk (sim_env (some heap_task)) { pid := 1, brk := 0x410000 } 9
      { src_nid := 0 }).reply.ret_brk = 0x410000 ∧
    (handle_p2m_brk (sim_env (some heap_task)) { pid := 1, brk := 0x410000 } 9
      { src_nid := 0 }).trace =
      [Call.find_lego_task_by_pid 0 1, Call.down_write_killable,
       Call.find_vma_intersection 0x400000 0x411000, Call.do_brk 0x400000 0x10000,
       Call.lego_mm_populate 0x400000 0x10000, Call.up_write,
       Call.ibapi_reply_message 9] ∧
    (handle_p2m_brk (sim_env (some heap_task)) { pid := 1, brk := 0x410000 } 9
      { src_nid := 0 }).mm =
      some { start_brk := 0x400000, brk := 0x410000, mmap := [anon_vma 0x400000 0x410000],
             vmrange_map := [] } := by
  have h := brk_grow_success (sim_env (some heap_task)) { pid := 1, brk := 0x410000 } 9
    { src_nid := 0 } heap_task rfl rfl (by decide) (by decide) (by decide) rfl
    (by decide)
  refine ⟨h.2.1, ?_, by decide⟩
  rw [(h.2.2 (by decide)).2]
  decide

/-- Counterexample to C2 as stated: with `mm->brk = 0x400000`, the request
`BRK(0xFFFFFFFFFFFFFFFF)` meets every condition of the claim (`PAGE_ALIGN(brk)` wraps
to 0, nothing is mapped, `do_brk` returns 0), yet the handler makes no call of
`lego_mm_populate`, because `newbrk > oldbrk` is false. -/
theorem brk_grow_wrap_counterexample :
    (sim_env (some heap_task)).find_lego_task_by_pid 0 1 = some heap_task ∧
    heap_task.mm.start_brk ≤ 0xFFFFFFFFFFFFFFFF ∧
    heap_task.mm.brk < 0xFFFFFFFFFFFFFFFF ∧
    PAGE_ALIGN 0xFFFFFFFFFFFFFFFF ≠ PAGE_ALIGN heap_task.mm.brk ∧
    (sim_env (some heap_task)).find_vma_intersection heap_task.mm
      (PAGE_ALIGN heap_task.mm.brk) (u64_add (PAGE_ALIGN 0xFFFFFFFFFFFFFFFF) PAGE_SIZE)
      = none ∧
    0 ≤ ((sim_env (some heap_task)).do_brk heap_task.mm (PAGE_ALIGN heap_task.mm.brk)
      (u64_sub (PAGE_ALIGN 0xFFFFFFFFFFFFFFFF) (PAGE_ALIGN heap_task.mm.brk))).1 ∧
    (handle_p2m_brk (sim_env (some heap_task)) { pid := 1, brk := 0xFFFFFFFFFFFFFFFF } 9
      { src_nid := 0 }).reply.ret_brk = 0xFFFFFFFFFFFFFFFF ∧
    (handle_p2m_brk (sim_env (some heap_task)) { pid := 1, brk := 0xFFFFFFFFFFFFFFFF } 9
      { src_nid := 0 }).trace =
      [Call.find_lego_task_by_pid 0 1, Call.down_write_killable,
       Call.find_vma_intersection 0x400000 0x1000,
       Call.do_brk 0x400000 0xFFFFFFFFFFC00000,
       Call.up_write, Call.ibapi_reply_message 9] := by
  refine ⟨rfl, by decide, by decide, by decide, rfl, by decide, by decide, by decide⟩

/-- C3: a `BRK` request that grows the heap across a page boundary while a VMA
intersects `[PAGE_ALIGN(mm->brk), PAGE_ALIGN(brk) + PAGE_SIZE)` calls neither
`do_brk` nor `lego_mm_populate`, leaves the address space as it was, and replies the
old `mm->brk`; the same holds in the distributed build, whose test is
`find_dist_vma_intersection`. -/
theorem brk_grow_conflict (E : Env) (payload : p2m_brk_struct) (desc : Nat)
    (hdr : common_header) (tsk : lego_task_struct)
    (htsk : E.find_lego_task_by_pid hdr.src_nid payload.pid = some tsk)
    (hsem : E.down_write_killable tsk.mm = 0)
    (hmin : tsk.mm.start_brk ≤ payload.brk)
    (hgrow : tsk.mm.brk < payload.brk)
    (hpage : PAGE_ALIGN payload.brk ≠ PAGE_ALIGN tsk.mm.brk) :
    (∀ vma, E.find_vma_intersection tsk.mm (PAGE_ALIGN tsk.mm.brk)
        (u64_add (PAGE_ALIGN payload.brk) PAGE_SIZE) = some vma →
      (handle_p2m_brk E payload desc hdr).mm = some tsk.mm ∧
      (handle_p2m_brk E payload desc hdr).reply.ret_brk = tsk.mm.brk ∧
      (handle_p2m_brk E payload desc hdr).trace =
        [Call.find_lego_task_by_pid hdr.src_nid payload.pid, Call.down_write_killable,
         Call.find_vma_intersection (PAGE_ALIGN tsk.mm.brk)
           (u64_add (PAGE_ALIGN payload.brk) PAGE_SIZE),
         Call.up_write, Call.ibapi_reply_message desc]) ∧
    (E.find_dist_vma_intersection tsk.mm (PAGE_ALIGN tsk.mm.brk)
        (u64_add (PAGE_ALIGN payload.brk) PAGE_SIZE) = true →
      (distvm_handle_p2m_brk E payload desc hdr).mm = some tsk.mm ∧
      (distvm_handle_p2m_brk E payload desc hdr).reply.ret_brk = tsk.mm.brk ∧
      (distvm_handle_p2m_brk E payload desc hdr).trace =
        [Call.find_lego_task_by_pid hdr.src_nid payload.pid, Call.down_write_killable,
         Call.load_reply_buffer,
         Call.find_dist_vma_intersection (PAGE_ALIGN tsk.mm.brk)
           (u64_add (PAGE_ALIGN payload.brk) PAGE_SIZE),
         Call.remove_reply_buffer, Call.up_write, Call.ibapi_reply_message desc]) := by
  have h1 : ¬ payload.brk < tsk.mm.start_brk := Nat.not_lt.mpr hmin
  have h2 : ¬ payload.brk ≤ tsk.mm.brk := Nat.not_le.mpr hgrow
  constructor
  · intro vma hvma
    simp [handle_p2m_brk, htsk, hsem, h1, h2, Ne.symm hpage, hvma, brk_out]
  · intro hvma
    simp [distvm_handle_p2m_brk, htsk, hsem, h1, h2, Ne.symm hpage, hvma, distvm_brk_out]

/-- Witness of C3: the heap ends at `0x400000` and a VMA sits at
`[0x410000, 0x420000)`; `BRK(0x410000)` is refused and the reply is `0x400000`. -/
theorem brk_grow_conflict_witness :
    (handle_p2m_brk (sim_env (some blocked_heap_task)) { pid := 1, brk := 0x410000 } 9
      { src_nid := 0 }).mm = some blocked_heap_task.mm ∧
    (handle_p2m_brk (sim_env (some blocked_heap_task)) { pid := 1, brk := 0x410000 } 9
      { src_nid := 0 }).reply.ret_brk = 0x400000 ∧
    (distvm_handle_p2m_brk (sim_env (some blocked_heap_task)) { pid := 1, brk := 0x410000 } 9
      { src_nid := 0 }).reply.ret_brk = 0x400000 := by
  have h := brk_grow_conflict (sim_env (some blocked_heap_task))
    { pid := 1, brk := 0x410000 } 9 { src_nid := 0 } blocked_heap_task rfl rfl
    (by decide) (by decide) (by decide)
  have ha := h.1 (anon_vma 0x410000 0x420000) (by decide)
  have hb := h.2 (by decide)
  exact ⟨ha.1, ha.2.1, hb.2.1⟩

/-- Counterexample to C4 as stated: with `mm->brk = 0xFFFFFFFFFFFFFFFF` (so that
`PAGE_ALIGN(mm->brk)` wraps to 0) the request `BRK(0x400000)` meets every condition
of the claim and `do_munmap` returns 0, yet the handler then calls
`lego_mm_populate(0, 0x400000)`, because `newbrk > oldbrk` holds. -/
theorem brk_shrink_wrap_counterexample :
    (sim_env (some top_heap_task)).find_lego_task_by_pid 0 1 = some top_heap_task ∧
    top_heap_task.mm.start_brk ≤ 0x400000 ∧
    0x400000 ≤ top_heap_task.mm.brk ∧
    PAGE_ALIGN 0x400000 ≠ PAGE_ALIGN top_heap_task.mm.brk ∧
    ((sim_env (some top_heap_task)).do_munmap top_heap_task.mm (PAGE_ALIGN 0x400000)
      (u64_sub (PAGE_ALIGN top_heap_task.mm.brk) (PAGE_ALIGN 0x400000))).1 = 0 ∧
    (handle_p2m_brk (sim_env (some top_heap_task)) { pid := 1, brk := 0x400000 } 9
      { src_nid := 0 }).trace =
      [Call.find_lego_task_by_pid 0 1, Call.down_write_killable,
       Call.do_munmap 0x400000 0xFFFFFFFFFFC00000,
       Call.lego_mm_populate 0 0x400000,
       Call.up_write, Call.ibapi_reply_message 9] := by
  refine ⟨rfl, by decide, by decide, by decide, by decide, by decide⟩

/-- C4, as the code has it: a `BRK` request with `start_brk <= brk <= mm->brk` that
crosses a page boundary calls `do_munmap` exactly once, on the address `newbrk` and
the length `oldbrk - newbrk`, and never `do_brk`; when `do_munmap` returns 0
`mm->brk` becomes `brk` and the reply is `brk`, otherwise `mm->brk` is unchanged and
the reply is the old break.  When `mm->brk` lies at most `2 ^ 64 - PAGE_SIZE`, so
that `PAGE_ALIGN(mm->brk)` does not wrap, `lego_mm_populate` is not called either and
the length is the distance between the two page-aligned breaks. -/
theorem brk_shrink (E : Env) (payload : p2m_brk_struct) (desc : Nat)
    (hdr : common_header) (tsk : lego_task_struct)
    (htsk : E.find_lego_task_by_pid hdr.src_nid payload.pid = some tsk)
    (hsem : E.down_write_killable tsk.mm = 0)
    (hmin : tsk.mm.start_brk ≤ payload.brk)
    (hshrink : payload.brk ≤ tsk.mm.brk)
    (hpage : PAGE_ALIGN payload.brk ≠ PAGE_ALIGN tsk.mm.brk) :
    ((handle_p2m_brk E payload desc hdr).trace =
        [Call.find_lego_task_by_pid hdr.src_nid payload.pid, Call.down_write_killable,
         Call.do_munmap (PAGE_ALIGN payload.brk)
           (u64_sub (PAGE_ALIGN tsk.mm.brk) (PAGE_ALIGN payload.brk)),
         Call.up_write, Call.ibapi_reply_message desc] ∨
      (handle_p2m_brk E payload desc hdr).trace =
        [Call.find_lego_task_by_pid hdr.src_nid payload.pid, Call.down_write_killable,
         Call.do_munmap (PAGE_ALIGN payload.brk)
           (u64_sub (PAGE_ALIGN tsk.mm.brk) (PAGE_ALIGN payload.brk)),
         Call.lego_mm_populate (PAGE_ALIGN tsk.mm.brk)
           (PAGE_ALIGN payload.brk - PAGE_ALIGN tsk.mm.brk),
         Call.up_write, Call.ibapi_reply_message desc]) ∧
    ((E.do_munmap tsk.mm (PAGE_ALIGN payload.brk)
        (u64_sub (PAGE_ALIGN tsk.mm.brk) (PAGE_ALIGN payload.brk))).1 = 0 →
      (handle_p2m_brk E payload desc hdr).mm.map (fun mm => mm.brk) = some payload.brk ∧
      (handle_p2m_brk E payload desc hdr).reply.ret_brk = payload.brk) ∧
    ((E.do_munmap tsk.mm (PAGE_ALIGN payload.brk)
        (u64_sub (PAGE_ALIGN tsk.mm.brk) (PAGE_ALIGN payload.brk))).1 ≠ 0 →
      (handle_p2m_brk E payload desc hdr).mm.map (fun mm => mm.brk) = some tsk.mm.brk ∧
      (handle_p2m_brk E payload desc hdr).reply.ret_brk = tsk.mm.brk) ∧
    (tsk.mm.brk ≤ U64_MOD - PAGE_SIZE →
      PAGE_ALIGN payload.brk < PAGE_ALIGN tsk.mm.brk ∧
      u64_sub (PAGE_ALIGN tsk.mm.brk) (PAGE_ALIGN payload.brk)
        = PAGE_ALIGN tsk.mm.brk - PAGE_ALIGN payload.brk ∧
      (handle_p2m_brk E payload desc hdr).trace =
        [Call.find_lego_task_by_pid hdr.src_nid payload.pid, Call.down_write_killable,
         Call.do_munmap (PAGE_ALIGN payload.brk)
           (u64_sub (PAGE_ALIGN tsk.mm.brk) (PAGE_ALIGN payload.brk)),
         Call.up_write, Call.ibapi_reply_message desc]) := by
  have h1 : ¬ payload.brk < tsk.mm.start_brk := Nat.not_lt.mpr hmin
  refine ⟨?_, ?_, ?_, ?_⟩
  · by_cases hr : (E.do_munmap tsk.mm (PAGE_ALIGN payload.brk)
        (u64_sub (PAGE_ALIGN tsk.mm.brk) (PAGE_ALIGN payload.brk))).1 = 0
    · by_cases hlt : PAGE_ALIGN tsk.mm.brk < PAGE_ALIGN payload.brk
      · right
        simp [handle_p2m_brk, htsk, hsem, h1, hshrink, Ne.symm hpage, hr, brk_set_brk,
          brk_out, hlt]
      · left
        simp [handle_p2m_brk, htsk, hsem, h1, hshrink, Ne.symm hpage, hr, brk_set_brk,
          brk_out, hlt]
    · left
      simp [handle_p2m_brk, htsk, hsem, h1, hshrink, Ne.symm hpage, hr, brk_out]
  · intro hr
    by_cases hlt : PAGE_ALIGN tsk.mm.brk < PAGE_ALIGN payload.brk
    · simp [handle_p2m_brk, htsk, hsem, h1, hshrink, Ne.symm hpage, hr, brk_set_brk,
        brk_out, hlt]
    · simp [handle_p2m_brk, htsk, hsem, h1, hshrink, Ne.symm hpage, hr, brk_set_brk,
        brk_out, hlt]
  · intro hr
    simp [handle_p2m_brk, htsk, hsem, h1, hshrink, Ne.symm hpage, hr, brk_out]
  · intro hnowrap
    have hmono : PAGE_ALIGN payload.brk ≤ PAGE_ALIGN tsk.mm.brk :=
      PAGE_ALIGN_mono _ _ hshrink hnowrap
    have hlt : PAGE_ALIGN payload.brk < PAGE_ALIGN tsk.mm.brk := lt_of_le_of_ne hmono hpage
    have hnot : ¬ PAGE_ALIGN tsk.mm.brk < PAGE_ALIGN payload.brk := Nat.not_lt.mpr hmono
    have hsub : u64_sub (PAGE_ALIGN tsk.mm.brk) (PAGE_ALIGN payload.brk)
        = PAGE_ALIGN tsk.mm.brk - PAGE_ALIGN payload.brk := by
      have ha := PAGE_ALIGN_eq tsk.mm.brk
      have hb := PAGE_ALIGN_eq payload.brk
      unfold u64_sub
      rw [U64_MOD_eq]
      omega
    refine ⟨hlt, hsub, ?_⟩
    by_cases hr : (E.do_munmap tsk.mm (PAGE_ALIGN payload.brk)
        (u64_sub (PAGE_ALIGN tsk.mm.brk) (PAGE_ALIGN payload.brk))).1 = 0
    · simp [handle_p2m_brk, htsk, hsem, h1, hshrink, Ne.symm hpage, hr, brk_set_brk,
        brk_out, hnot]
    · simp [handle_p2m_brk, htsk, hsem, h1, hshrink, Ne.symm hpage, hr, brk_out]

/-- Witness of C4: the heap `[0x400000, 0x420000)` shrinks to `0x410000`. -/
theorem brk_shrink_witness :
    (handle_p2m_brk (sim_env (some grown_heap_task)) { pid := 1, brk := 0x410000 } 9
      { src_nid := 0 }).trace =
      [Call.find_lego_task_by_pid 0 1, Call.down_write_killable,
       Call.do_munmap 0x410000 0x10000, Call.up_write, Call.ibapi_reply_message 9] ∧
    (handle_p2m_brk (sim_env (some grown_heap_task)) { pid := 1, brk := 0x410000 } 9
      { src_nid := 0 }).reply.ret_brk = 0x410000 ∧
    (handle_p2m_brk (sim_env (some grown_heap_task)) { pid := 1, brk := 0x410000 } 9
      { src_nid := 0 }).mm = some grown_once_task.mm := by
  have h := brk_shrink (sim_env (some grown_heap_task)) { pid := 1, brk := 0x410000 } 9
    { src_nid := 0 } grown_heap_task rfl rfl (by decide) (by decide) (by decide)
  refine ⟨?_, (h.2.1 (by decide)).2, by decide⟩
  rw [(h.2.2.2 (by decide)).2.2]
  decide

/-- C5: a `BRK` request below `mm->start_brk` leaves the address space as it was,
calls none of `do_munmap`, `do_brk`, `find_vma_intersection`, `lego_mm_populate`, and
replies the unchanged `mm->brk`. -/
theorem brk_below_start_rejected (E : Env) (payload : p2m_brk_struct) (desc : Nat)
    (hdr : common_header) (tsk : lego_task_struct)
    (htsk : E.find_lego_task_by_pid hdr.src_nid payload.pid = some tsk)
    (hsem : E.down_write_killable tsk.mm = 0)
    (hlow : payload.brk < tsk.mm.start_brk) :
    (handle_p2m_brk E payload desc hdr).mm = some tsk.mm ∧
    (handle_p2m_brk E payload desc hdr).reply.ret_brk = tsk.mm.brk ∧
    (handle_p2m_brk E payload desc hdr).trace =
      [Call.find_lego_task_by_pid hdr.src_nid payload.pid, Call.down_write_killable,
       Call.up_write, Call.ibapi_reply_message desc] := by
  simp [handle_p2m_brk, htsk, hsem, hlow, brk_out]

/-- Witness of C5: `BRK(0x3ff000)` on a heap that starts at `0x400000`. -/
theorem brk_below_start_rejected_witness :
    (handle_p2m_brk (sim_env (some heap_task)) { pid := 1, brk := 0x3ff000 } 9
      { src_nid := 0 }).mm = some heap_task.mm ∧
    (handle_p2m_brk (sim_env (some heap_task)) { pid := 1, brk := 0x3ff000 } 9
      { src_nid := 0 }).reply.ret_brk = 0x400000 :=
  ⟨(brk_below_start_rejected (sim_env (some heap_task)) { pid := 1, brk := 0x3ff000 } 9
      { src_nid := 0 } heap_task rfl rfl (by decide)).1,
   (brk_below_start_rejected (sim_env (some heap_task)) { pid := 1, brk := 0x3ff000 } 9
      { src_nid := 0 } heap_task rfl rfl (by decide)).2.1⟩

/-- C6: a `BRK` request with `brk >= start_brk` that stays within the page of
`mm->brk` changes nothing but `mm->brk := brk`, calls none of `do_munmap`, `do_brk`,
`find_vma_intersection`, `lego_mm_populate`, and replies `brk`. -/
theorem brk_same_page (E : Env) (payload : p2m_brk_struct) (desc : Nat)
    (hdr : common_header) (tsk : lego_task_struct)
    (htsk : E.find_lego_task_by_pid hdr.src_nid payload.pid = some tsk)
    (hsem : E.down_write_killable tsk.mm = 0)
    (hmin : tsk.mm.start_brk ≤ payload.brk)
    (hpage : PAGE_ALIGN payload.brk = PAGE_ALIGN tsk.mm.brk) :
    (handle_p2m_brk E payload desc hdr).mm = some { tsk.mm with brk := payload.brk } ∧
    (handle_p2m_brk E payload desc hdr).reply.ret_brk = payload.brk ∧
    (handle_p2m_brk E payload desc hdr).trace =
      [Call.find_lego_task_by_pid hdr.src_nid payload.pid, Call.down_write_killable,
       Call.up_write, Call.ibapi_reply_message desc] := by
  have h1 : ¬ payload.brk < tsk.mm.start_brk := Nat.not_lt.mpr hmin
  simp [handle_p2m_brk, htsk, hsem, h1, hpage, brk_set_brk, brk_out]

/-- Witness of C6: the break `0x400010` moves to `0x400800` within its page. -/
theorem brk_same_page_witness :
    (handle_p2m_brk (sim_env (some midpage_heap_task)) { pid := 1, brk := 0x400800 } 9
      { src_nid := 0 }).mm = some { midpage_heap_task.mm with brk := 0x400800 } ∧
    (handle_p2m_brk (sim_env (some midpage_heap_task)) { pid := 1, brk := 0x400800 } 9
      { src_nid := 0 }).reply.ret_brk = 0x400800 :=
  ⟨(brk_same_page (sim_env (some midpage_heap_task)) { pid := 1, brk := 0x400800 } 9
      { src_nid := 0 } midpage_heap_task rfl rfl (by decide) (by decide)).1,
   (brk_same_page (sim_env (some midpage_heap_task)) { pid := 1, brk := 0x400800 } 9
      { src_nid := 0 } midpage_heap_task rfl rfl (by decide) (by decide)).2.1⟩

/-- C7: a `BRK` request whose argument equals the current `mm->brk` leaves the
address space as it was (whatever `start_brk` is), calls none of `do_munmap`,
`do_brk`, `lego_mm_populate`, and replies `mm->brk`.  Hence when a first `BRK`
succeeded (it left `mm->brk = brk` in the address space that the second request
finds), the same request issued again leaves that address space as it is and sends
the same reply. -/
theorem brk_idempotent (E E2 : Env) (payload : p2m_brk_struct) (desc : Nat)
    (hdr : common_header) (tsk tsk2 : lego_task_struct)
    (htsk : E.find_lego_task_by_pid hdr.src_nid payload.pid = some tsk)
    (hsem : E.down_write_killable tsk.mm = 0)
    (htsk2 : E2.find_lego_task_by_pid hdr.src_nid payload.pid = some tsk2)
    (hsem2 : E2.down_write_killable tsk2.mm = 0) :
    (payload.brk = tsk.mm.brk →
      (handle_p2m_brk E payload desc hdr).mm = some tsk.mm ∧
      (handle_p2m_brk E payload desc hdr).reply.ret_brk = tsk.mm.brk ∧
      (handle_p2m_brk E payload desc hdr).trace =
        [Call.find_lego_task_by_pid hdr.src_nid payload.pid, Call.down_write_killable,
         Call.up_write, Call.ibapi_reply_message desc]) ∧
    ((handle_p2m_brk E payload desc hdr).mm = some tsk2.mm → tsk2.mm.brk = payload.brk →
      (handle_p2m_brk E2 payload desc hdr).mm = some tsk2.mm ∧
      (handle_p2m_brk E2 payload desc hdr).reply = (handle_p2m_brk E payload desc hdr).reply ∧
      (handle_p2m_brk E2 payload desc hdr).trace =
        [Call.find_lego_task_by_pid hdr.src_nid payload.pid, Call.down_write_killable,
         Call.up_write, Call.ibapi_reply_message desc]) := by
  have key : ∀ (F : Env) (t : lego_task_struct),
      F.find_lego_task_by_pid hdr.src_nid payload.pid = some t →
      F.down_write_killable t.mm = 0 → payload.brk = t.mm.brk →
      (handle_p2m_brk F payload desc hdr).mm = some t.mm ∧
      (handle_p2m_brk F payload desc hdr).reply.ret_brk = t.mm.brk ∧
      (handle_p2m_brk F payload desc hdr).trace =
        [Call.find_lego_task_by_pid hdr.src_nid payload.pid, Call.down_write_killable,
         Call.up_write, Call.ibapi_reply_message desc] := by
    intro F t ht hs hb
    by_cases hlow : payload.brk < t.mm.start_brk
    · simp [handle_p2m_brk, ht, hs, hlow, brk_out]
    · simp [handle_p2m_brk, ht, hs, hlow, hb, brk_set_brk, brk_out]
  refine ⟨key E tsk htsk hsem, ?_⟩
  intro hmm hb
  obtain ⟨h2a, h2b, h2c⟩ := key E2 tsk2 htsk2 hsem2 hb.symm
  refine ⟨h2a, ?_, h2c⟩
  obtain ⟨mm, hm1, hm2⟩ := brk_reply_is_final_brk E payload desc hdr tsk htsk hsem
  rw [hmm] at hm1
  have hmm2 : tsk2.mm = mm := Option.some.inj hm1
  have e1 : (handle_p2m_brk E2 payload desc hdr).reply.ret_brk
      = (handle_p2m_brk E payload desc hdr).reply.ret_brk := by
    rw [h2b, hm2, hmm2]
  cases hr1 : (handle_p2m_brk E2 payload desc hdr).reply
  cases hr2 : (handle_p2m_brk E payload desc hdr).reply
  rw [hr1, hr2] at e1
  simp only at e1
  rw [e1]

/-- Witness of C7: `BRK(0x410000)` grows the heap of `heap_task`; issued again on
the address space it left, it changes nothing and replies `0x410000` again. -/
theorem brk_idempotent_witness :
    (handle_p2m_brk (sim_env (some heap_task)) { pid := 1, brk := 0x410000 } 9
      { src_nid := 0 }).mm = some grown_once_task.mm ∧
    (handle_p2m_brk (sim_env (some grown_once_task)) { pid := 1, brk := 0x410000 } 9
      { src_nid := 0 }).mm = some grown_once_task.mm ∧
    (handle_p2m_brk (sim_env (some grown_once_task)) { pid := 1, brk := 0x410000 } 9
      { src_nid := 0 }).reply =
    (handle_p2m_brk (sim_env (some heap_task)) { pid := 1, brk := 0x410000 } 9
      { src_nid := 0 }).reply := by
  have hfirst : (handle_p2m_brk (sim_env (some heap_task)) { pid := 1, brk := 0x410000 } 9
      { src_nid := 0 }).mm = some grown_once_task.mm := by decide
  have h := (brk_idempotent (sim_env (some heap_task)) (sim_env (some grown_once_task))
    { pid := 1, brk := 0x410000 } 9 { src_nid := 0 } heap_task grown_once_task
    rfl rfl rfl rfl).2 hfirst rfl
  exact ⟨hfirst, h.1, h.2.1⟩

/-- Clearing the bits of a 64-bit mask `m` in a 64-bit word: bit by bit. -/
theorem land_u64_not_testBit (x m : Nat) (hx : x < U64_MOD) (hm : m < U64_MOD) (i : Nat) :
    (x &&& u64_not m).testBit i = (x.testBit i && !m.testBit i) := by
  have hnot : u64_not m = 2 ^ 64 - (m + 1) := by
    unfold u64_not
    rw [Nat.mod_eq_of_lt hm]
    unfold U64_MOD
    omega
  have hm64 : m < 2 ^ 64 := hm
  rw [Nat.testBit_land, hnot, Nat.testBit_two_pow_sub_succ hm64]
  by_cases hi : i < 64
  · simp [hi]
  · have hxi : x < 2 ^ i :=
      lt_of_lt_of_le hx (Nat.pow_le_pow_right (by norm_num) (Nat.le_of_not_lt hi))
    simp [Nat.testBit_lt_two_pow hxi]

/-- The mask `MAP_EXECUTABLE | MAP_DENYWRITE` has exactly the bits 11 and 12. -/
theorem strip_mask_testBit (i : Nat) :
    (MAP_EXECUTABLE ||| MAP_DENYWRITE).testBit i = decide (i = 11 ∨ i = 12) := by
  have h : (MAP_EXECUTABLE ||| MAP_DENYWRITE) = 2 ^ 12 + 2 ^ 11 := by decide
  by_cases hi : i < 13
  · interval_cases i <;> decide
  · have hlt : (MAP_EXECUTABLE ||| MAP_DENYWRITE) < 2 ^ i := by
      rw [h]
      calc 2 ^ 12 + 2 ^ 11 < 2 ^ 13 := by norm_num
        _ ≤ 2 ^ i := Nat.pow_le_pow_right (by norm_num) (Nat.le_of_not_lt hi)
    rw [Nat.testBit_lt_two_pow hlt]
    have : ¬ (i = 11 ∨ i = 12) := by omega
    simp [this]

/-- Once a task is at hand, `handle_m2m_mmap` continues with `m2m_mmap_open`, which
opens the file exactly when the `MAP_ANONYMOUS` bit of the request's flags is clear
and passes the stripped flags, and the file that opened, to `do_dist_mmap`. -/
theorem m2m_mmap_open_decides (E : Env) (tsk : lego_task_struct) (q : m2m_mmap_struct)
    (desc : Nat) (tr : List Call) (hfo : Call.file_open q.f_name ∉ tr) :
    (Call.file_open q.f_name ∈ (m2m_mmap_open E tsk q desc tr).trace
      ↔ q.flags &&& MAP_ANONYMOUS = 0) ∧
    (q.flags &&& MAP_ANONYMOUS ≠ 0 →
      Call.do_dist_mmap none q.new_range q.addr q.len q.prot
          (q.flags &&& u64_not (MAP_EXECUTABLE ||| MAP_DENYWRITE)) q.vm_flags q.pgoff
        ∈ (m2m_mmap_open E tsk q desc tr).trace) ∧
    (∀ file, q.flags &&& MAP_ANONYMOUS = 0 → E.file_open tsk q.f_name = Except.ok file →
      Call.do_dist_mmap (some file) q.new_range q.addr q.len q.prot
          (q.flags &&& u64_not (MAP_EXECUTABLE ||| MAP_DENYWRITE)) q.vm_flags q.pgoff
        ∈ (m2m_mmap_open E tsk q desc tr).trace) := by
  refine ⟨?_, ?_, ?_⟩
  · by_cases ha : q.flags &&& MAP_ANONYMOUS = 0
    · simp only [m2m_mmap_open, ha, if_true, iff_true]
      split <;> simp [m2m_mmap_map]
    · simp [m2m_mmap_open, ha, m2m_mmap_map, hfo]
  · intro ha
    simp [m2m_mmap_open, ha, m2m_mmap_map]
  · intro file ha hf
    simp [m2m_mmap_open, ha, hf, m2m_mmap_map]

/-- C8: `handle_p2m_mmap` and `handle_m2m_mmap` strip the flags.  For every 64-bit
flags word, the word `flags & ~(MAP_EXECUTABLE | MAP_DENYWRITE)` has the bits of the
request's flags except for the bits of `MAP_EXECUTABLE` and of `MAP_DENYWRITE`,
which are clear; every call of `vm_mmap_pgoff` (of `do_dist_mmap`)
that the handler makes passes this word; and once a task is at hand (found by the
lookup or, in `handle_m2m_mmap`, created and inserted on first contact) the handler
calls `file_open` exactly when the `MAP_ANONYMOUS` bit of the request's flags is
clear, in which case a file that opened is the one passed on.  On no path at all is
a file opened for a request whose `MAP_ANONYMOUS` bit is set. -/
theorem mmap_strips_flags (cfg : Bool) (E : Env) (p : p2m_mmap_struct)
    (q : m2m_mmap_struct) (desc : Nat) (hdr : common_header)
    (hp : p.flags < U64_MOD) (hq : q.flags < U64_MOD) :
    (∀ i, (MAP_EXECUTABLE ||| MAP_DENYWRITE).testBit i
        = (MAP_EXECUTABLE.testBit i || MAP_DENYWRITE.testBit i)) ∧
    (∀ i, (p.flags &&& u64_not (MAP_EXECUTABLE ||| MAP_DENYWRITE)).testBit i
        = (p.flags.testBit i && !(MAP_EXECUTABLE ||| MAP_DENYWRITE).testBit i)) ∧
    (∀ file addr len prot flags pgoff,
      Call.vm_mmap_pgoff file addr len prot flags pgoff
          ∈ (handle_p2m_mmap cfg E p desc hdr).trace →
        flags = p.flags &&& u64_not (MAP_EXECUTABLE ||| MAP_DENYWRITE)) ∧
    (∀ tsk, E.find_lego_task_by_pid hdr.src_nid p.pid = some tsk →
      (Call.file_open p.f_name ∈ (handle_p2m_mmap cfg E p desc hdr).trace
        ↔ p.flags &&& MAP_ANONYMOUS = 0) ∧
      (p.flags &&& MAP_ANONYMOUS ≠ 0 →
        Call.vm_mmap_pgoff none p.addr p.len p.prot
            (p.flags &&& u64_not (MAP_EXECUTABLE ||| MAP_DENYWRITE)) p.pgoff
          ∈ (handle_p2m_mmap cfg E p desc hdr).trace) ∧
      (∀ file, p.flags &&& MAP_ANONYMOUS = 0 → E.file_open tsk p.f_name = Except.ok file →
        Call.vm_mmap_pgoff (some file) p.addr p.len p.prot
            (p.flags &&& u64_not (MAP_EXECUTABLE ||| MAP_DENYWRITE)) p.pgoff
          ∈ (handle_p2m_mmap cfg E p desc hdr).trace)) ∧
    (∀ i, (q.flags &&& u64_not (MAP_EXECUTABLE ||| MAP_DENYWRITE)).testBit i
        = (q.flags.testBit i && !(MAP_EXECUTABLE ||| MAP_DENYWRITE).testBit i)) ∧
    (∀ file new_range addr len prot flags vm_flags pgoff,
      Call.do_dist_mmap file new_range addr len prot flags vm_flags pgoff
          ∈ (handle_m2m_mmap E q desc hdr).trace →
        flags = q.flags &&& u64_not (MAP_EXECUTABLE ||| MAP_DENYWRITE)) ∧
    (∀ tsk, E.find_lego_task_by_pid hdr.src_nid q.pid = some tsk →
      (Call.file_open q.f_name ∈ (handle_m2m_mmap E q desc hdr).trace
        ↔ q.flags &&& MAP_ANONYMOUS = 0) ∧
      (q.flags &&& MAP_ANONYMOUS ≠ 0 →
        Call.do_dist_mmap none q.new_range q.addr q.len q.prot
            (q.flags &&& u64_not (MAP_EXECUTABLE ||| MAP_DENYWRITE)) q.vm_flags q.pgoff
          ∈ (handle_m2m_mmap E q desc hdr).trace) ∧
      (∀ file, q.flags &&& MAP_ANONYMOUS = 0 → E.file_open tsk q.f_name = Except.ok file →
        Call.do_dist_mmap (some file) q.new_range q.addr q.len q.prot
            (q.flags &&& u64_not (MAP_EXECUTABLE ||| MAP_DENYWRITE)) q.vm_flags q.pgoff
          ∈ (handle_m2m_mmap E q desc hdr).trace)) ∧
    (∀ mm, E.find_lego_task_by_pid hdr.src_nid q.pid = none → E.kzalloc = true →
      E.lego_mm_alloc = some mm →
      u64_of_int (E.ht_insert_lego_task
        { pid := q.pid, home_node := hdr.src_nid, mm := mm }) = 0 →
      (Call.file_open q.f_name ∈ (handle_m2m_mmap E q desc hdr).trace
        ↔ q.flags &&& MAP_ANONYMOUS = 0) ∧
      (q.flags &&& MAP_ANONYMOUS ≠ 0 →
        Call.do_dist_mmap none q.new_range q.addr q.len q.prot
            (q.flags &&& u64_not (MAP_EXECUTABLE ||| MAP_DENYWRITE)) q.vm_flags q.pgoff
          ∈ (handle_m2m_mmap E q desc hdr).trace) ∧
      (∀ file, q.flags &&& MAP_ANONYMOUS = 0 →
        E.file_open { pid := q.pid, home_node := hdr.src_nid, mm := mm } q.f_name
          = Except.ok file →
        Call.do_dist_mmap (some file) q.new_range q.addr q.len q.prot
            (q.flags &&& u64_not (MAP_EXECUTABLE ||| MAP_DENYWRITE)) q.vm_flags q.pgoff
          ∈ (handle_m2m_mmap E q desc hdr).trace)) ∧
    (∀ f_name, Call.file_open f_name ∈ (handle_p2m_mmap cfg E p desc hdr).trace →
      f_name = p.f_name ∧ p.flags &&& MAP_ANONYMOUS = 0) ∧
    (∀ f_name, Call.file_open f_name ∈ (handle_m2m_mmap E q desc hdr).trace →
      f_name = q.f_name ∧ q.flags &&& MAP_ANONYMOUS = 0) := by
  have hmask : (MAP_EXECUTABLE ||| MAP_DENYWRITE) < U64_MOD := by decide
  have hopenfile : ∀ (tsk : lego_task_struct) (tr : List Call) (f_name : String),
      Call.file_open f_name ∉ tr →
      Call.file_open f_name ∈ (m2m_mmap_open E tsk q desc tr).trace →
      f_name = q.f_name ∧ q.flags &&& MAP_ANONYMOUS = 0 := by
    intro tsk tr f_name hno hm
    by_cases ha : q.flags &&& MAP_ANONYMOUS = 0
    · refine ⟨?_, ha⟩
      simp only [m2m_mmap_open, ha, if_true, m2m_mmap_map] at hm
      split at hm <;> simpa [hno] using hm
    · simp [m2m_mmap_open, ha, m2m_mmap_map, hno] at hm
  refine ⟨?_, ?_, ?_, ?_, ?_, ?_, ?_, ?_, ?_, ?_⟩
  · intro i
    exact Nat.testBit_lor _ _ _
  · intro i
    exact land_u64_not_testBit _ _ hp hmask i
  · intro file addr len prot flags pgoff hmem
    simp only [handle_p2m_mmap, p2m_mmap_map] at hmem
    split at hmem
    · simp at hmem
    · split at hmem
      · split at hmem
        · simp at hmem
        · split at hmem <;> cases cfg <;> simp at hmem <;> exact hmem.2.2.2.2.1
      · split at hmem <;> cases cfg <;> simp at hmem <;> exact hmem.2.2.2.2.1
  · intro tsk htsk
    refine ⟨?_, ?_, ?_⟩
    · by_cases ha : p.flags &&& MAP_ANONYMOUS = 0
      · simp only [handle_p2m_mmap, htsk, ha, if_true, iff_true]
        split
        · simp
        · simp only [p2m_mmap_map]
          split <;> cases cfg <;> simp
      · simp only [handle_p2m_mmap, htsk, ha, if_false, iff_false, p2m_mmap_map]
        split <;> cases cfg <;> simp
    · intro ha
      simp only [handle_p2m_mmap, htsk, ha, if_false, p2m_mmap_map]
      split <;> cases cfg <;> simp
    · intro file ha hf
      simp only [handle_p2m_mmap, htsk, ha, if_true, hf, p2m_mmap_map]
      split <;> cases cfg <;> simp
  · intro i
    exact land_u64_not_testBit _ _ hq hmask i
  · intro file new_range addr len prot flags vm_flags pgoff hmem
    have hopen : ∀ (tsk : lego_task_struct) (tr : List Call),
        (∀ c ∈ tr, ∀ f n a l pr fl vf pg, c ≠ Call.do_dist_mmap f n a l pr fl vf pg) →
        Call.do_dist_mmap file new_range addr len prot flags vm_flags pgoff
          ∈ (m2m_mmap_open E tsk q desc tr).trace →
        flags = q.flags &&& u64_not (MAP_EXECUTABLE ||| MAP_DENYWRITE) := by
      intro tsk tr htr hm
      have hno : Call.do_dist_mmap file new_range addr len prot flags vm_flags pgoff ∉ tr :=
        fun hc => htr _ hc _ _ _ _ _ _ _ _ rfl
      simp only [m2m_mmap_open, m2m_mmap_map] at hm
      split at hm
      · split at hm
        · simp [hno] at hm
        · simp [hno] at hm
          exact hm.2.2.2.2.2.1
      · simp [hno] at hm
        exact hm.2.2.2.2.2.1
    simp only [handle_m2m_mmap] at hmem
    split at hmem
    · exact hopen _ _ (by simp) hmem
    · split at hmem
      · simp at hmem
      · split at hmem
        · simp at hmem
        · split at hmem
          · split at hmem <;> simp at hmem
          · exact hopen _ _ (by simp) hmem
  · intro tsk htsk
    have hrun : handle_m2m_mmap E q desc hdr =
        m2m_mmap_open E tsk q desc [Call.find_lego_task_by_pid hdr.src_nid q.pid] := by
      simp only [handle_m2m_mmap, htsk]
    rw [hrun]
    exact m2m_mmap_open_decides E tsk q desc _ (by simp)
  · intro mm hnone hzalloc hmm hins
    have hrun : handle_m2m_mmap E q desc hdr =
        m2m_mmap_open E { pid := q.pid, home_node := hdr.src_nid, mm := mm } q desc
          [Call.find_lego_task_by_pid hdr.src_nid q.pid, Call.kzalloc, Call.lego_mm_alloc,
           Call.ht_insert_lego_task] := by
      simp [handle_m2m_mmap, hnone, hzalloc, hmm, hins]
    rw [hrun]
    exact m2m_mmap_open_decides E _ q desc _ (by simp)
  · intro f_name hmem
    by_cases ha : p.flags &&& MAP_ANONYMOUS = 0
    · refine ⟨?_, ha⟩
      simp only [handle_p2m_mmap, p2m_mmap_map, ha, if_true] at hmem
      split at hmem
      · simp at hmem
      · split at hmem
        · simp at hmem
          exact hmem
        · split at hmem <;> cases cfg <;> simp at hmem <;> exact hmem
    · exfalso
      simp only [handle_p2m_mmap, p2m_mmap_map, ha, if_false] at hmem
      split at hmem
      · simp at hmem
      · split at hmem <;> cases cfg <;> simp at hmem
  · intro f_name hmem
    simp only [handle_m2m_mmap] at hmem
    split at hmem
    · exact hopenfile _ _ _ (by simp) hmem
    · split at hmem
      · simp at hmem
      · split at hmem
        · simp at hmem
        · split at hmem
          · split at hmem <;> simp at hmem
          · exact hopenfile _ _ _ (by simp) hmem

/-- Witness of C8: an anonymous private mapping requested with `MAP_EXECUTABLE` and
`MAP_DENYWRITE` set (flags `0x1822`) reaches `vm_mmap_pgoff` with flags `0x22`, and no
file is opened.  On first contact, `handle_m2m_mmap` passes the same request to
`do_dist_mmap` with flags `0x22`, and it opens the file of a request whose
`MAP_ANONYMOUS` bit is clear (flags `0x1802`). -/
theorem mmap_strips_flags_witness :
    Call.vm_mmap_pgoff none 0 0x3000 3 0x22 0 ∈
      (handle_p2m_mmap false (sim_env (some heap_task))
        { pid := 1, addr := 0, len := 0x3000, prot := 3, flags := 0x1822, pgoff := 0,
          f_name := "" } 9 { src_nid := 0 }).trace ∧
    Call.file_open "" ∉
      (handle_p2m_mmap false (sim_env (some heap_task))
        { pid := 1, addr := 0, len := 0x3000, prot := 3, flags := 0x1822, pgoff := 0,
          f_name := "" } 9 { src_nid := 0 }).trace ∧
    Call.do_dist_mmap none 0 0 0x3000 3 0x22 0 0 ∈
      (handle_m2m_mmap (sim_env none)
        { pid := 1, new_range := 0, addr := 0, len := 0x3000, prot := 3, flags := 0x1822,
          vm_flags := 0, pgoff := 0, f_name := "" } 9 { src_nid := 0 }).trace ∧
    Call.file_open "lib" ∈
      (handle_m2m_mmap (sim_env none)
        { pid := 1, new_range := 0, addr := 0, len := 0x3000, prot := 3, flags := 0x1802,
          vm_flags := 0, pgoff := 0, f_name := "lib" } 9 { src_nid := 0 }).trace := by
  have h := (mmap_strips_flags false (sim_env (some heap_task))
    { pid := 1, addr := 0, len := 0x3000, prot := 3, flags := 0x1822, pgoff := 0,
      f_name := "" }
    { pid := 1, new_range := 0, addr := 0, len := 0x3000, prot := 3, flags := 0x1822,
      vm_flags := 0, pgoff := 0, f_name := "" } 9 { src_nid := 0 }
    (by decide) (by decide)).2.2.2.1 heap_task rfl
  have hne : (0x1822 : Nat) &&& MAP_ANONYMOUS ≠ 0 := by decide
  have h1 := (mmap_strips_flags false (sim_env none)
    { pid := 1, addr := 0, len := 0x3000, prot := 3, flags := 0x1822, pgoff := 0,
      f_name := "" }
    { pid := 1, new_range := 0, addr := 0, len := 0x3000, prot := 3, flags := 0x1822,
      vm_flags := 0, pgoff := 0, f_name := "" } 9 { src_nid := 0 }
    (by decide) (by decide)).2.2.2.2.2.2.2.1
    { start_brk := 0, brk := 0, mmap := [], vmrange_map := [] } rfl rfl rfl (by decide)
  have h2 := (mmap_strips_flags false (sim_env none)
    { pid := 1, addr := 0, len := 0x3000, prot := 3, flags := 0x1802, pgoff := 0,
      f_name := "lib" }
    { pid := 1, new_range := 0, addr := 0, len := 0x3000, prot := 3, flags := 0x1802,
      vm_flags := 0, pgoff := 0, f_name := "lib" } 9 { src_nid := 0 }
    (by decide) (by decide)).2.2.2.2.2.2.2.1
    { start_brk := 0, brk := 0, mmap := [], vmrange_map := [] } rfl rfl rfl (by decide)
  exact ⟨h.2.1 hne, fun hmem => hne (h.1.mp hmem), h1.2.1 hne, h2.1.mpr (by decide)⟩

/-- A value of type `int` is zero exactly when its conversion to `u64` is. -/
theorem u64_of_int_eq_zero (i : Int) (hlo : -(2 ^ 31) ≤ i) (hhi : i < 2 ^ 31) :
    u64_of_int i = 0 ↔ i = 0 := by
  unfold u64_of_int U64_MOD
  constructor
  · intro h
    have h2 : i % ((2 ^ 64 : Nat) : Int) ≤ 0 := Int.toNat_eq_zero.mp h
    norm_num at h2
    omega
  · intro h
    subst h
    simp

/-- C9: a `MREMAP` request without `MREMAP_FIXED` and with `old_len > new_len` makes
`handle_p2m_mremap` (non-distributed build) call `do_munmap` once, on the address
`old_addr + new_len` and the length `old_len - new_len`, and none of
`vma_to_resize`, `vma_adjust`, `get_unmapped_area`, `move_vma`; when `do_munmap`
returns 0 the reply is `RET_OKAY` with `new_addr = old_addr`, otherwise its status is
`ERR_TO_LEGO_RET` of the value that `do_munmap` returned. -/
theorem mremap_shrink (E : Env) (p : p2m_mremap_struct) (desc : Nat) (hdr : common_header)
    (tsk : lego_task_struct)
    (htsk : E.find_lego_task_by_pid hdr.src_nid p.pid = some tsk)
    (hsem : E.down_write_killable tsk.mm = 0)
    (hfixed : p.flags &&& MREMAP_FIXED = 0)
    (hlen : p.new_len < p.old_len)
    (hlo : -(2 ^ 31) ≤ (E.do_munmap tsk.mm (u64_add p.old_addr p.new_len)
      (u64_sub p.old_len p.new_len)).1)
    (hhi : (E.do_munmap tsk.mm (u64_add p.old_addr p.new_len)
      (u64_sub p.old_len p.new_len)).1 < 2 ^ 31) :
    (handle_p2m_mremap E p desc hdr).trace =
      [Call.find_lego_task_by_pid hdr.src_nid p.pid, Call.down_write_killable,
       Call.do_munmap (u64_add p.old_addr p.new_len) (u64_sub p.old_len p.new_len),
       Call.up_write, Call.ibapi_reply_message desc] ∧
    (p.old_len < U64_MOD → u64_sub p.old_len p.new_len = p.old_len - p.new_len) ∧
    ((E.do_munmap tsk.mm (u64_add p.old_addr p.new_len)
        (u64_sub p.old_len p.new_len)).1 = 0 →
      (handle_p2m_mremap E p desc hdr).reply.status = some RET_OKAY ∧
      (handle_p2m_mremap E p desc hdr).reply.new_addr = some p.old_addr) ∧
    ((E.do_munmap tsk.mm (u64_add p.old_addr p.new_len)
        (u64_sub p.old_len p.new_len)).1 ≠ 0 →
      (handle_p2m_mremap E p desc hdr).reply.status =
        some (E.ERR_TO_LEGO_RET (u64_of_int (E.do_munmap tsk.mm
          (u64_add p.old_addr p.new_len) (u64_sub p.old_len p.new_len)).1))) := by
  have hz := u64_of_int_eq_zero _ hlo hhi
  have hge : p.old_len ≥ p.new_len := Nat.le_of_lt hlen
  have hne : p.old_len ≠ p.new_len := Nat.ne_of_gt hlen
  refine ⟨?_, ?_, ?_, ?_⟩
  · by_cases hr : (E.do_munmap tsk.mm (u64_add p.old_addr p.new_len)
        (u64_sub p.old_len p.new_len)).1 = 0
    · simp [handle_p2m_mremap, htsk, hsem, hfixed, hge, hr, mremap_out, u64_of_int]
    · have hr2 := mt hz.mp hr
      simp [handle_p2m_mremap, htsk, hsem, hfixed, hge, hne, hr2, mremap_out]
  · intro hold
    unfold u64_sub
    rw [U64_MOD_eq] at hold ⊢
    omega
  · intro hr
    simp [handle_p2m_mremap, htsk, hsem, hfixed, hge, hr, mremap_out, u64_of_int]
  · intro hr
    have hr2 := mt hz.mp hr
    simp [handle_p2m_mremap, htsk, hsem, hfixed, hge, hne, hr2, mremap_out]

/-- Witness of C9: the mapping `[0x10000, 0x12000)` of `remap_task` shrinks to one
page; the tail `[0x11000, 0x12000)` is unmapped and the reply is `RET_OKAY`. -/
theorem mremap_shrink_witness :
    (handle_p2m_mremap (sim_env (some remap_task))
      { pid := 1, old_addr := 0x10000, old_len := 0x2000, new_len := 0x1000, flags := 0,
        new_addr := 0 } 9 { src_nid := 0 }).trace =
      [Call.find_lego_task_by_pid 0 1, Call.down_write_killable,
       Call.do_munmap 0x11000 0x1000, Call.up_write, Call.ibapi_reply_message 9] ∧
    (handle_p2m_mremap (sim_env (some remap_task))
      { pid := 1, old_addr := 0x10000, old_len := 0x2000, new_len := 0x1000, flags := 0,
        new_addr := 0 } 9 { src_nid := 0 }).reply.status = some RET_OKAY := by
  have h := mremap_shrink (sim_env (some remap_task))
    { pid := 1, old_addr := 0x10000, old_len := 0x2000, new_len := 0x1000, flags := 0,
      new_addr := 0 } 9 { src_nid := 0 } remap_task rfl rfl (by decide) (by decide)
    (by decide) (by decide)
  refine ⟨?_, (h.2.2.1 (by decide)).1⟩
  rw [h.1]
  decide

/-- Counterexample to C10 as stated: `remap_task` maps `[0x30000, 0x31000)`; the
request `MREMAP(0x20000, 0x1000, 0x1000, MREMAP_FIXED | MREMAP_MAYMOVE, 0x30000)`
first unmaps the destination, then `vma_to_resize` fails because nothing is mapped at
`0x20000`; the handler replies a failure and the destination mapping is gone. -/
theorem mremap_to_rollback_counterexample :
    (handle_p2m_mremap (sim_env (some remap_task))
      { pid := 1, old_addr := 0x20000, old_len := 0x1000, new_len := 0x1000, flags := 3,
        new_addr := 0x30000 } 9 { src_nid := 0 }).trace =
      [Call.find_lego_task_by_pid 0 1, Call.down_write_killable,
       Call.do_munmap 0x30000 0x1000, Call.do_munmap 0x21000 0,
       Call.vma_to_resize 0x20000 0x1000 0x1000,
       Call.up_write, Call.ibapi_reply_message 9] ∧
    (handle_p2m_mremap (sim_env (some remap_task))
      { pid := 1, old_addr := 0x20000, old_len := 0x1000, new_len := 0x1000, flags := 3,
        new_addr := 0x30000 } 9 { src_nid := 0 }).reply =
      { status := some EFAULT, new_addr := none, line := some 512 } ∧
    (handle_p2m_mremap (sim_env (some remap_task))
      { pid := 1, old_addr := 0x20000, old_len := 0x1000, new_len := 0x1000, flags := 3,
        new_addr := 0x30000 } 9 { src_nid := 0 }).mm =
      some { remap_task.mm with mmap := [anon_vma 0x10000 0x12000] } ∧
    (handle_p2m_mremap (sim_env (some remap_task))
      { pid := 1, old_addr := 0x20000, old_len := 0x1000, new_len := 0x1000, flags := 3,
        new_addr := 0x30000 } 9 { src_nid := 0 }).mm ≠ some remap_task.mm := by
  refine ⟨by decide, by decide, by decide, by decide⟩

/-- The ways in which the second half of `mremap_to` fails: it returns at once, with
the address space it was given, or with the one `move_vma` left. -/
theorem mremap_to_move_fails (E : Env) (addr old_len new_addr new_len : Nat)
    (mm : lego_mm_struct) (reply : p2m_mremap_reply_struct) (tr : List Call) :
    (∀ err, E.vma_to_resize mm addr old_len new_len = Except.error err →
      mremap_to_move E addr old_len new_addr new_len mm reply tr =
        { mm := mm
          reply := { reply with status := some (E.ERR_TO_LEGO_RET (u64_of_int err)),
                                line := some 512 }
          trace := tr ++ [Call.vma_to_resize addr old_len new_len] }) ∧
    (∀ vma map_flags pgoff, E.vma_to_resize mm addr old_len new_len = Except.ok vma →
      map_flags = (if vma.vm_flags &&& VM_MAYSHARE ≠ 0 then MAP_FIXED ||| MAP_SHARED
        else MAP_FIXED) →
      pgoff = u64_add vma.vm_pgoff (u64_sub addr vma.vm_start >>> PAGE_SHIFT) →
      (offset_in_page
          (E.get_unmapped_area mm vma.vm_file new_addr new_len pgoff map_flags) ≠ 0 →
        mremap_to_move E addr old_len new_addr new_len mm reply tr =
          { mm := mm
            reply := { reply with status := some RET_ENOMEM, line := some 526 }
            trace := tr ++ [Call.vma_to_resize addr old_len new_len,
              Call.get_unmapped_area vma.vm_file new_addr new_len pgoff map_flags] }) ∧
      (offset_in_page
          (E.get_unmapped_area mm vma.vm_file new_addr new_len pgoff map_flags) = 0 →
        offset_in_page (E.move_vma mm vma addr old_len new_len new_addr).1 ≠ 0 →
        mremap_to_move E addr old_len new_addr new_len mm reply tr =
          { mm := { mm with mmap := (E.move_vma mm vma addr old_len new_len new_addr).2 }
            reply := { reply with status := some RET_ENOMEM, line := some 533 }
            trace := tr ++ [Call.vma_to_resize addr old_len new_len,
              Call.get_unmapped_area vma.vm_file new_addr new_len pgoff map_flags,
              Call.move_vma addr old_len new_len new_addr] })) := by
  refine ⟨?_, ?_⟩
  · intro err herr
    simp [mremap_to_move, herr]
  · intro vma map_flags pgoff hvma hmf hpg
    subst hmf hpg
    refine ⟨?_, ?_⟩
    · intro hgua
      simp only [mremap_to_move, hvma]
      rw [if_pos hgua]
      simp
    · intro hgua hmove
      simp only [mremap_to_move, hvma]
      rw [if_neg (not_not.mpr hgua), if_pos hmove]
      simp

/-- Past validation, a destination `do_munmap` that returned 0 and a tail `do_munmap`
that did not fail, `mremap_to` continues with its second half on the address space
that the two calls left. -/
theorem mremap_to_reaches_move (E : Env) (addr old_len new_addr new_len : Nat)
    (mm : lego_mm_struct) (reply : p2m_mremap_reply_struct) (tr : List Call)
    (halign : offset_in_page new_addr = 0)
    (hrange : ¬ (new_len > TASK_SIZE ∨ new_addr > u64_sub TASK_SIZE new_len))
    (hdest : u64_of_int (E.do_munmap mm new_addr new_len).1 = 0)
    (htail : ¬ (old_len > new_len ∧
      u64_of_int (E.do_munmap { mm with mmap := (E.do_munmap mm new_addr new_len).2 }
        (u64_add addr new_len) (u64_sub old_len new_len)).1 ≠ 0)) :
    mremap_to E addr old_len new_addr new_len mm reply tr =
      mremap_to_move E addr (if old_len ≥ new_len then new_len else old_len) new_addr new_len
        (if old_len ≥ new_len then
          { mm with mmap := (E.do_munmap { mm with mmap := (E.do_munmap mm new_addr new_len).2 }
              (u64_add addr new_len) (u64_sub old_len new_len)).2 }
         else { mm with mmap := (E.do_munmap mm new_addr new_len).2 })
        reply
        (if old_len ≥ new_len then
          tr ++ [Call.do_munmap new_addr new_len,
                 Call.do_munmap (u64_add addr new_len) (u64_sub old_len new_len)]
         else tr ++ [Call.do_munmap new_addr new_len]) := by
  have hrange1 : ¬ new_len > TASK_SIZE := fun h => hrange (Or.inl h)
  have hrange2 : ¬ new_addr > u64_sub TASK_SIZE new_len := fun h => hrange (Or.inr h)
  by_cases hge : old_len ≥ new_len
  · have hnf : ¬ (¬ u64_of_int (E.do_munmap
        { mm with mmap := (E.do_munmap mm new_addr new_len).2 } (u64_add addr new_len)
        (u64_sub old_len new_len)).1 = 0 ∧ ¬ old_len = new_len) := by
      intro h
      exact htail ⟨lt_of_le_of_ne hge (Ne.symm h.2), h.1⟩
    simp [mremap_to, halign, hrange1, hrange2, hdest, hge, hnf]
  · simp [mremap_to, halign, hrange1, hrange2, hdest, hge]

/-- C10, as the code has it: `mremap_to` has no rollback.  Once the request passed
validation and the destination `do_munmap` returned 0, a failure of a later step
makes `mremap_to` store the status and the line and return at once: the address
space is the one that the two `do_munmap` calls left (`mm2` below) when the tail
`do_munmap`, `vma_to_resize` or `get_unmapped_area` failed, and the one that
`move_vma` left when `move_vma` failed; no call is made after the failing step. -/
theorem mremap_to_no_rollback (E : Env) (addr old_len new_addr new_len : Nat)
    (mm mm1 mm2 : lego_mm_struct) (reply : p2m_mremap_reply_struct) (tr pre : List Call)
    (len1 : Nat)
    (halign : offset_in_page new_addr = 0)
    (hrange : ¬ (new_len > TASK_SIZE ∨ new_addr > u64_sub TASK_SIZE new_len))
    (hdest : u64_of_int (E.do_munmap mm new_addr new_len).1 = 0)
    (hmm1 : mm1 = { mm with mmap := (E.do_munmap mm new_addr new_len).2 })
    (hmm2 : mm2 = if old_len ≥ new_len then
      { mm1 with mmap := (E.do_munmap mm1 (u64_add addr new_len)
          (u64_sub old_len new_len)).2 } else mm1)
    (hpre : pre = if old_len ≥ new_len then
      tr ++ [Call.do_munmap new_addr new_len,
             Call.do_munmap (u64_add addr new_len) (u64_sub old_len new_len)]
      else tr ++ [Call.do_munmap new_addr new_len])
    (hlen1 : len1 = if old_len ≥ new_len then new_len else old_len) :
    (old_len > new_len →
      u64_of_int (E.do_munmap mm1 (u64_add addr new_len) (u64_sub old_len new_len)).1 ≠ 0 →
      (mremap_to E addr old_len new_addr new_len mm reply tr).mm = mm2 ∧
      (mremap_to E addr old_len new_addr new_len mm reply tr).reply =
        { reply with
          status := some (E.ERR_TO_LEGO_RET (u64_of_int
            (E.do_munmap mm1 (u64_add addr new_len) (u64_sub old_len new_len)).1)),
          line := some 501 } ∧
      (mremap_to E addr old_len new_addr new_len mm reply tr).trace = pre ++ [Call.WARN_ON]) ∧
    (¬ (old_len > new_len ∧
        u64_of_int (E.do_munmap mm1 (u64_add addr new_len)
          (u64_sub old_len new_len)).1 ≠ 0) →
      (∀ err, E.vma_to_resize mm2 addr len1 new_len = Except.error err →
        (mremap_to E addr old_len new_addr new_len mm reply tr).mm = mm2 ∧
        (mremap_to E addr old_len new_addr new_len mm reply tr).reply =
          { reply with status := some (E.ERR_TO_LEGO_RET (u64_of_int err)),
                       line := some 512 } ∧
        (mremap_to E addr old_len new_addr new_len mm reply tr).trace =
          pre ++ [Call.vma_to_resize addr len1 new_len]) ∧
      (∀ vma map_flags pgoff, E.vma_to_resize mm2 addr len1 new_len = Except.ok vma →
        map_flags = (if vma.vm_flags &&& VM_MAYSHARE ≠ 0 then MAP_FIXED ||| MAP_SHARED
          else MAP_FIXED) →
        pgoff = u64_add vma.vm_pgoff (u64_sub addr vma.vm_start >>> PAGE_SHIFT) →
        (offset_in_page
            (E.get_unmapped_area mm2 vma.vm_file new_addr new_len pgoff map_flags) ≠ 0 →
          (mremap_to E addr old_len new_addr new_len mm reply tr).mm = mm2 ∧
          (mremap_to E addr old_len new_addr new_len mm reply tr).reply =
            { reply with status := some RET_ENOMEM, line := some 526 } ∧
          (mremap_to E addr old_len new_addr new_len mm reply tr).trace =
            pre ++ [Call.vma_to_resize addr len1 new_len,
                    Call.get_unmapped_area vma.vm_file new_addr new_len pgoff map_flags]) ∧
        (offset_in_page
            (E.get_unmapped_area mm2 vma.vm_file new_addr new_len pgoff map_flags) = 0 →
          offset_in_page (E.move_vma mm2 vma addr len1 new_len new_addr).1 ≠ 0 →
          (mremap_to E addr old_len new_addr new_len mm reply tr).mm =
            { mm2 with mmap := (E.move_vma mm2 vma addr len1 new_len new_addr).2 } ∧
          (mremap_to E addr old_len new_addr new_len mm reply tr).reply =
            { reply with status := some RET_ENOMEM, line := some 533 } ∧
          (mremap_to E addr old_len new_addr new_len mm reply tr).trace =
            pre ++ [Call.vma_to_resize addr len1 new_len,
                    Call.get_unmapped_area vma.vm_file new_addr new_len pgoff map_flags,
                    Call.move_vma addr len1 new_len new_addr]))) := by
  subst hmm1
  have hrange1 : ¬ new_len > TASK_SIZE := fun h => hrange (Or.inl h)
  have hrange2 : ¬ new_addr > u64_sub TASK_SIZE new_len := fun h => hrange (Or.inr h)
  constructor
  · intro hgt hret
    have hge : old_len ≥ new_len := Nat.le_of_lt hgt
    have hne : old_len ≠ new_len := Nat.ne_of_gt hgt
    rw [if_pos hge] at hmm2 hpre
    subst hmm2 hpre
    simp [mremap_to, halign, hrange1, hrange2, hdest, hge, hne, hret]
  · intro hnotfail
    have hreach := mremap_to_reaches_move E addr old_len new_addr new_len mm reply tr halign
      hrange hdest hnotfail
    rw [← hmm2, ← hpre, ← hlen1] at hreach
    have hfails := mremap_to_move_fails E addr len1 new_addr new_len mm2 reply pre
    rw [hreach]
    refine ⟨?_, ?_⟩
    · intro err herr
      rw [hfails.1 err herr]
      exact ⟨rfl, rfl, rfl⟩
    · intro vma map_flags pgoff hvma hmf hpg
      refine ⟨?_, ?_⟩
      · intro hgua
        rw [(hfails.2 vma map_flags pgoff hvma hmf hpg).1 hgua]
        exact ⟨rfl, rfl, rfl⟩
      · intro hgua hmove
        rw [(hfails.2 vma map_flags pgoff hvma hmf hpg).2 hgua hmove]
        exact ⟨rfl, rfl, rfl⟩

/-- Witness of C10: on the request of the counterexample, `vma_to_resize` fails after
the destination was unmapped, and the address space is what the two `do_munmap`
calls left: the mapping `[0x30000, 0x31000)` is gone. -/
theorem mremap_to_no_rollback_witness :
    (mremap_to (sim_env (some remap_task)) 0x20000 0x1000 0x30000 0x1000 remap_task.mm
      { status := none, new_addr := none, line := none } []).mm =
      { remap_task.mm with mmap := [anon_vma 0x10000 0x12000] } ∧
    (mremap_to (sim_env (some remap_task)) 0x20000 0x1000 0x30000 0x1000 remap_task.mm
      { status := none, new_addr := none, line := none } []).trace =
      [Call.do_munmap 0x30000 0x1000, Call.do_munmap 0x21000 0,
       Call.vma_to_resize 0x20000 0x1000 0x1000] := by
  have h := (mremap_to_no_rollback (sim_env (some remap_task)) 0x20000 0x1000 0x30000 0x1000
    remap_task.mm _ _ { status := none, new_addr := none, line := none } [] _ _
    (by decide) (by decide) (by decide) rfl rfl rfl rfl).2 (by decide)
  have h1 := h.1 (-(EFAULT : Int)) rfl
  exact ⟨h1.1, h1.2.2⟩

theorem TASK_SIZE_eq : TASK_SIZE = 140737488351232 := by decide

/-- The in-page offset is the remainder modulo the page size. -/
theorem offset_in_page_eq (p : Nat) : offset_in_page p = p % PAGE_SIZE := by
  have h : u64_not PAGE_MASK = 2 ^ 12 - 1 := by decide
  unfold offset_in_page
  rw [h, Nat.and_pow_two_sub_one_eq_mod, PAGE_SIZE_eq]

/-- C11 (defect of the code): three requests whose reply carries a status other than
`RET_OKAY` and a `line` field that no statement assigned.  In the non-distributed
build an `MREMAP_FIXED` request with a misaligned `new_addr`, or with
`new_len > TASK_SIZE`, leaves `mremap_to` at one of its two `RET_EINVAL` returns,
which set only `status`; in the distributed build an error value of
`distvm_mremap_homenode` becomes the status and `line` is not set. -/
theorem mremap_failure_without_line :
    (handle_p2m_mremap (sim_env (some remap_task))
      { pid := 1, old_addr := 0x10000, old_len := 0x2000, new_len := 0x2000, flags := 3,
        new_addr := 0x30001 } 9 { src_nid := 0 }).reply =
      { status := some RET_EINVAL, new_addr := none, line := none } ∧
    (handle_p2m_mremap (sim_env (some remap_task))
      { pid := 1, old_addr := 0x10000, old_len := 0x2000, new_len := 0x800000000000,
        flags := 3, new_addr := 0x30000 } 9 { src_nid := 0 }).reply =
      { status := some RET_EINVAL, new_addr := none, line := none } ∧
    (distvm_handle_p2m_mremap (failing_homenode_env (some remap_task))
      { pid := 1, old_addr := 0x10000, old_len := 0x2000, new_len := 0x4000, flags := 1,
        new_addr := 0 } 9 { src_nid := 0 }).reply =
      { status := some 0xFFFFFFF4, new_addr := some 0xFFFFFFFFFFFFFFF4, line := none } ∧
    RET_EINVAL ≠ RET_OKAY ∧ (0xFFFFFFF4 : Nat) ≠ RET_OKAY := by
  refine ⟨by decide, by decide, by decide, by decide, by decide⟩

/-- C12: `mremap_to` validates before it changes anything.  When `new_addr` is not
page aligned, or `new_len > TASK_SIZE`, or `new_addr > TASK_SIZE - new_len`, it
stores `RET_EINVAL` in `reply.status` and returns with the address space and the call
trace it was given: none of `do_munmap`, `vma_to_resize`, `get_unmapped_area`,
`move_vma` is called.  Seen from `handle_p2m_mremap`, the request only takes and
releases the semaphore. -/
theorem mremap_to_validates_first (E : Env) (p : p2m_mremap_struct) (desc : Nat)
    (hdr : common_header) (tsk : lego_task_struct)
    (hbad : p.new_addr % PAGE_SIZE ≠ 0 ∨ p.new_len > TASK_SIZE ∨
      p.new_addr > TASK_SIZE - p.new_len) :
    (∀ mm reply tr,
      mremap_to E p.old_addr p.old_len p.new_addr p.new_len mm reply tr =
        { mm := mm, reply := { reply with status := some RET_EINVAL }, trace := tr }) ∧
    (E.find_lego_task_by_pid hdr.src_nid p.pid = some tsk →
      E.down_write_killable tsk.mm = 0 → p.flags &&& MREMAP_FIXED ≠ 0 →
      (handle_p2m_mremap E p desc hdr).mm = some tsk.mm ∧
      (handle_p2m_mremap E p desc hdr).reply.status = some RET_EINVAL ∧
      (handle_p2m_mremap E p desc hdr).trace =
        [Call.find_lego_task_by_pid hdr.src_nid p.pid, Call.down_write_killable,
         Call.up_write, Call.ibapi_reply_message desc]) := by
  have hto : ∀ mm reply tr,
      mremap_to E p.old_addr p.old_len p.new_addr p.new_len mm reply tr =
        { mm := mm, reply := { reply with status := some RET_EINVAL }, trace := tr } := by
    intro mm reply tr
    by_cases hal : offset_in_page p.new_addr = 0
    · have hrange : p.new_len > TASK_SIZE ∨ p.new_addr > u64_sub TASK_SIZE p.new_len := by
        rw [offset_in_page_eq] at hal
        rcases hbad with h | h | h
        · exact absurd hal h
        · exact Or.inl h
        · by_cases hl : p.new_len > TASK_SIZE
          · exact Or.inl hl
          · right
            unfold u64_sub
            rw [U64_MOD_eq]
            rw [TASK_SIZE_eq] at h hl ⊢
            omega
      simp [mremap_to, hal, hrange]
    · simp [mremap_to, hal]
  refine ⟨hto, ?_⟩
  intro htsk hsem hfixed
  simp [handle_p2m_mremap, htsk, hsem, hfixed, hto, mremap_out]

/-- Witness of C12: `new_addr = 0x30001` is not page aligned. -/
theorem mremap_to_validates_first_witness :
    (handle_p2m_mremap (sim_env (some remap_task))
      { pid := 1, old_addr := 0x10000, old_len := 0x2000, new_len := 0x2000, flags := 3,
        new_addr := 0x30001 } 9 { src_nid := 0 }).mm = some remap_task.mm ∧
    (handle_p2m_mremap (sim_env (some remap_task))
      { pid := 1, old_addr := 0x10000, old_len := 0x2000, new_len := 0x2000, flags := 3,
        new_addr := 0x30001 } 9 { src_nid := 0 }).trace =
      [Call.find_lego_task_by_pid 0 1, Call.down_write_killable,
       Call.up_write, Call.ibapi_reply_message 9] := by
  have h := (mremap_to_validates_first (sim_env (some remap_task))
    { pid := 1, old_addr := 0x10000, old_len := 0x2000, new_len := 0x2000, flags := 3,
      new_addr := 0x30001 } 9 { src_nid := 0 } remap_task (Or.inl (by decide))).2
    rfl rfl (by decide)
  exact ⟨h.1, h.2.2⟩

/-- Counterexample to C17 as stated: an `MPROTECT` request with descriptor 9 is
answered by no call of `ibapi_reply_message` at all. -/
theorem mprotect_sends_no_reply_counterexample :
    replies (handle_p2m_mprotect () 9 { src_nid := 0 }).2 = [] ∧
    (handle_p2m_mprotect () 9 { src_nid := 0 }).2.count (Call.ibapi_reply_message 9) = 0 := by
  refine ⟨by decide, by decide⟩

/-- C17, as the code has it: for every `MPROTECT` request `handle_p2m_mprotect` emits
its warning and returns 0; the warning is the only call it makes, so no reply is
sent on `desc`. -/
theorem mprotect_warns_only (P : Type) (payload : P) (desc : Nat) (hdr : common_header) :
    handle_p2m_mprotect payload desc hdr = (0, [Call.WARN_ON]) ∧
    replies (handle_p2m_mprotect payload desc hdr).2 = [] := by
  refine ⟨rfl, rfl⟩

/-- C18 (defect of the code): in the distributed build, an `MREMAP` request for which
`distvm_mremap_homenode` returns an error value (here `-ENOMEM`) is answered after
`down_write_killable` succeeded and without any call of `up_write`: the handler
returns with `mmap_sem` held.  The same request on a home node that succeeds
releases the semaphore right before the reply. -/
theorem distvm_mremap_error_keeps_sem :
    (distvm_handle_p2m_mremap (failing_homenode_env (some remap_task))
      { pid := 1, old_addr := 0x10000, old_len := 0x2000, new_len := 0x4000, flags := 1,
        new_addr := 0 } 9 { src_nid := 0 }).trace =
      [Call.find_lego_task_by_pid 0 1, Call.down_write_killable, Call.load_reply_buffer,
       Call.distvm_mremap_homenode 0x10000 0x2000 0x4000 1 0, Call.remove_reply_buffer,
       Call.ibapi_reply_message 9] ∧
    (distvm_handle_p2m_mremap (sim_env (some remap_task))
      { pid := 1, old_addr := 0x10000, old_len := 0x2000, new_len := 0x4000, flags := 1,
        new_addr := 0 } 9 { src_nid := 0 }).trace =
      [Call.find_lego_task_by_pid 0 1, Call.down_write_killable, Call.load_reply_buffer,
       Call.distvm_mremap_homenode 0x10000 0x2000 0x4000 1 0, Call.remove_reply_buffer,
       Call.up_write, Call.ibapi_reply_message 9] := by
  refine ⟨by decide, by decide⟩

/-- The scanning loop of `do_msync` reports a hole: with enough iterations allowed,
when an unmapped part was already seen or some address of `[start, end)` lies in no
VMA of the cursor, the loop returns `-ENOMEM`. -/
theorem do_msync_loop_reports_hole (mm : lego_mm_struct) (end_ flags : Nat) :
    ∀ (cur : List vm_area_struct) (fuel start : Nat) (unmapped_error : Int)
      (tr : List Call),
      cur.length < fuel →
      (unmapped_error = 0 ∨ unmapped_error = -(ENOMEM : Int)) →
      (unmapped_error = -(ENOMEM : Int) ∨
        ∃ a, start ≤ a ∧ a < end_ ∧ ∀ vma ∈ cur, vma_holds a vma = false) →
      ∃ tr1, do_msync_loop mm end_ flags fuel cur start unmapped_error tr
        = Except.ok (-(ENOMEM : Int), tr1) := by
  have hne : (-(ENOMEM : Int)) ≠ 0 := by decide
  have fin : ∀ r : Int × List Call, r.1 = -(ENOMEM : Int) →
      ∃ tr1, (Except.ok r : Except Halt (Int × List Call))
        = Except.ok (-(ENOMEM : Int), tr1) := fun r h => ⟨r.2, by rw [← h]⟩
  intro cur
  induction cur with
  | nil =>
    intro fuel start ue tr hfuel hue _
    obtain ⟨f, rfl⟩ : ∃ f, fuel = f + 1 := ⟨fuel - 1, by simp at hfuel; omega⟩
    simp only [do_msync_loop]
    apply fin
    rcases hue with h | h <;> subst h <;> simp [msync_out_unlock, msync_out]
  | cons vma rest ih =>
    intro fuel start ue tr hfuel hue hhole
    obtain ⟨f, rfl⟩ : ∃ f, fuel = f + 1 := ⟨fuel - 1, by simp at hfuel; omega⟩
    have hrest : rest.length < f := by simp at hfuel; omega
    simp only [do_msync_loop]
    by_cases hbefore : start < vma.vm_start
    · -- a hole lies before this VMA
      by_cases hend : vma.vm_start ≥ end_
      · simp only [hbefore, decide_True, if_true, hend, and_self]
        apply fin
        rcases hue with h | h <;> subst h <;> simp [msync_out_unlock, msync_out]
      · simp only [hbefore, decide_True, if_true, hend, and_false, if_false]
        split_ifs with hsync hstop hstop
        · exact fin _ (by simp [msync_out])
        · exact absurd (Or.inl hne) hstop
        · exact fin _ (by simp [msync_out_unlock, msync_out])
        · exact ih f vma.vm_end _ _ hrest (Or.inr rfl) (Or.inl rfl)
    · -- the scan starts inside or behind this VMA
      have hue1 : ∀ (hcase : ¬ vma.vm_end ≥ end_),
          (ue = -(ENOMEM : Int) ∨
            ∃ a, vma.vm_end ≤ a ∧ a < end_ ∧ ∀ v ∈ rest, vma_holds a v = false) := by
        intro hcase
        rcases hhole with h | ⟨a, ha1, ha2, ha3⟩
        · exact Or.inl h
        · right
          have hv := ha3 vma (List.mem_cons_self _ _)
          simp only [vma_holds, Bool.and_eq_false_imp, decide_eq_true_eq,
            decide_eq_false_iff_not] at hv
          refine ⟨a, ?_, ha2, fun v hvm => ha3 v (List.mem_cons_of_mem _ hvm)⟩
          have := hv (by omega)
          omega
      simp only [hbefore, decide_False, false_and, if_false, Bool.false_eq_true]
      split_ifs with hsync hstop hstop
      · apply fin
        rcases hue with h | h <;> subst h <;> simp [msync_out]
      · exact absurd (Or.inl hne) hstop
      · -- the last VMA reaches the end: the hole was seen before
        rcases hhole with h | ⟨a, ha1, ha2, ha3⟩
        · subst h
          exact fin _ (by simp [msync_out_unlock, msync_out])
        · exfalso
          have hv := ha3 vma (List.mem_cons_self _ _)
          simp only [vma_holds, Bool.and_eq_false_imp, decide_eq_true_eq,
            decide_eq_false_iff_not] at hv
          have := hv (by omega)
          omega
      · exact ih f vma.vm_end _ _ hrest hue (hue1 hstop)

/-- C13: `do_msync` reports unmapped portions.  For every VMA list (sorted and
disjoint or not), every flags value and every `start`, `end`, if some address of
`[start, end)` lies in no VMA, then `do_msync`, allowed more iterations than there
are VMAs, returns `-ENOMEM`. -/
theorem do_msync_reports_hole (fuel : Nat) (mm : lego_mm_struct) (start end_ flags : Nat)
    (hfuel : mm.mmap.length < fuel)
    (hhole : ∃ a, start ≤ a ∧ a < end_ ∧ ∀ vma ∈ mm.mmap, vma_holds a vma = false) :
    ∃ tr, do_msync fuel mm start end_ flags = Except.ok (-(ENOMEM : Int), tr) := by
  obtain ⟨a, ha1, ha2, ha3⟩ := hhole
  have hsub : (find_vma mm start).Sublist mm.mmap := List.dropWhile_sublist _
  apply do_msync_loop_reports_hole mm end_ flags (find_vma mm start) fuel start 0 _
    (lt_of_le_of_lt hsub.length_le hfuel) (Or.inl rfl)
  exact Or.inr ⟨a, ha1, ha2, fun v hv => ha3 v (hsub.subset hv)⟩

/-- Witness of C13: `gap_mm` maps `[0x1000, 0x2000)` and `[0x3000, 0x4000)`; the
address `0x2000` of the range `[0x1000, 0x4000)` lies in no VMA, and `do_msync`
returns `-ENOMEM`. -/
theorem do_msync_reports_hole_witness :
    ∃ tr, do_msync 3 gap_mm 0x1000 0x4000 0 = Except.ok (-(ENOMEM : Int), tr) :=
  do_msync_reports_hole 3 gap_mm 0x1000 0x4000 0 (by decide)
    ⟨0x2000, by decide, by decide, by decide⟩

/-- C14 (defect of the code): the address space `shared_file_mm` maps the whole of
`[0x1000, 0x2000)` with one file-backed `VM_SHARED` VMA.  Without `MS_SYNC`,
`do_msync` returns 0 on that range; with `MS_SYNC` it returns `-ENOMEM`, although no
address of the range is unmapped: the branch that should flush the file leaves `ret`
at the `-ENOMEM` of the loop head and exits through `if (ret || start >= end)`. -/
theorem do_msync_sync_on_mapped_range :
    (∀ a, 0x1000 ≤ a → a < 0x2000 → ∃ vma ∈ shared_file_mm.mmap, vma_holds a vma = true) ∧
    do_msync 2 shared_file_mm 0x1000 0x2000 0 =
      Except.ok (0, [Call.down_read, Call.find_vma 0x1000, Call.up_read]) ∧
    do_msync 2 shared_file_mm 0x1000 0x2000 MS_SYNC =
      Except.ok (-(ENOMEM : Int), [Call.down_read, Call.find_vma 0x1000, Call.up_read]) := by
  refine ⟨?_, rfl, rfl⟩
  intro a h1 h2
  refine ⟨shared_file_vma, List.mem_singleton.mpr rfl, ?_⟩
  simp [vma_holds, shared_file_vma, h1, h2]

/-- What `handle_m2m_msync` does with a message: its reply is the status of
`do_msync` on `[start, start + len)`. -/
theorem handle_m2m_msync_interval (fuel : Nat) (E : Env) (payload : m2m_msync_struct)
    (desc : Nat) (hdr : common_header) (tsk : lego_task_struct)
    (htsk : E.find_lego_task_by_pid hdr.src_nid payload.pid = some tsk) :
    (handle_m2m_msync fuel E payload desc hdr).map (fun o => o.reply) =
      (do_msync fuel tsk.mm payload.start (u64_add payload.start payload.len)
        payload.flags).map (fun r => u32_of_int r.1) := by
  simp only [handle_m2m_msync, htsk]
  cases do_msync fuel tsk.mm payload.start (u64_add payload.start payload.len)
    payload.flags <;> rfl

/-- C15 (defect of the code): on the home node of `home_task` the request
`MSYNC(start = 0x40000000, len = 0x1000)` has one shard, `[0x40000000, 0x40001000)`,
owned by the memory node 1, where that page is mapped.  The message that
`distribute_msync` builds carries `len = 0x40001000`, the end of the shard, so node 1
runs `do_msync` on `[0x40000000, 0x80001000)` and finds a hole: the request is
answered `(u32)-ENOMEM`, whereas `do_msync` on the shard itself returns 0. -/
theorem distribute_msync_sends_end_as_len :
    (distribute_msync two_node_env home_task 0x40000000 0x40001000 0 1).1 =
      { pid := 1, start := 0x40000000, len := 0x40001000, flags := 0 } ∧
    do_msync 8 remote_task.mm 0x40000000 0x40001000 0 =
      Except.ok (0, [Call.down_read, Call.find_vma 0x40000000, Call.up_read]) ∧
    do_msync 8 remote_task.mm 0x40000000 (u64_add 0x40000000 0x40001000) 0 =
      Except.ok (-(ENOMEM : Int), [Call.down_read, Call.find_vma 0x40000000, Call.up_read]) ∧
    (handle_p2m_msync true 4 8 two_node_env
        { pid := 1, start := 0x40000000, len := 0x1000, flags := 0 } 9
        { src_nid := 0 }).map (fun o => (o.reply, o.trace)) =
      Except.ok (u32_of_int (-(ENOMEM : Int)),
        [Call.find_lego_task_by_pid 0 1,
         Call.net_send_reply_timeout 1 1 0x40000000 0x40001000 0,
         Call.ibapi_reply_message 9]) := by
  refine ⟨rfl, rfl, rfl, rfl⟩

/-- On values of type `int`, the conversion to `u64` is injective. -/
theorem u64_of_int_inj (i j : Int) (hi : -(2 ^ 31) ≤ i) (hi2 : i < 2 ^ 31)
    (hj : -(2 ^ 31) ≤ j) (hj2 : j < 2 ^ 31) (h : u64_of_int i = u64_of_int j) : i = j := by
  unfold u64_of_int U64_MOD at h
  have hi0 : 0 ≤ i % ((2 ^ 64 : Nat) : Int) := Int.emod_nonneg _ (by norm_num)
  have hj0 : 0 ≤ j % ((2 ^ 64 : Nat) : Int) := Int.emod_nonneg _ (by norm_num)
  have h2 : i % ((2 ^ 64 : Nat) : Int) = j % ((2 ^ 64 : Nat) : Int) := by
    rw [← Int.toNat_of_nonneg hi0, ← Int.toNat_of_nonneg hj0, h]
  norm_num at h2
  omega

/-- C19: when the task is found and `down_write_killable(mmap_sem)` returns non-zero,
`handle_p2m_brk`, `handle_p2m_munmap` and `handle_p2m_mremap` (in both builds) reply
`RET_EINTR`, leave the address space as it was, and make no call after the lock
attempt but the reply: no `do_munmap`, `do_brk`, `move_vma`, `vma_adjust`,
`lego_mm_populate`, and no `up_write`. -/
theorem interrupted_lock_replies_EINTR (E : Env) (desc : Nat) (hdr : common_header)
    (pid : Nat) (tsk : lego_task_struct)
    (htsk : E.find_lego_task_by_pid hdr.src_nid pid = some tsk)
    (hsem : E.down_write_killable tsk.mm ≠ 0) :
    (∀ brk,
      (handle_p2m_brk E { pid := pid, brk := brk } desc hdr).reply.ret_brk = RET_EINTR ∧
      (handle_p2m_brk E { pid := pid, brk := brk } desc hdr).mm = some tsk.mm ∧
      (handle_p2m_brk E { pid := pid, brk := brk } desc hdr).trace =
        [Call.find_lego_task_by_pid hdr.src_nid pid, Call.down_write_killable,
         Call.ibapi_reply_message desc]) ∧
    (∀ brk,
      (distvm_handle_p2m_brk E { pid := pid, brk := brk } desc hdr).reply.ret_brk
        = RET_EINTR ∧
      (distvm_handle_p2m_brk E { pid := pid, brk := brk } desc hdr).mm = some tsk.mm ∧
      (distvm_handle_p2m_brk E { pid := pid, brk := brk } desc hdr).trace =
        [Call.find_lego_task_by_pid hdr.src_nid pid, Call.down_write_killable,
         Call.ibapi_reply_message desc]) ∧
    (∀ cfg (p : p2m_munmap_struct), p.pid = pid →
      (handle_p2m_munmap cfg E p desc hdr).reply = RET_EINTR ∧
      (handle_p2m_munmap cfg E p desc hdr).mm = some tsk.mm ∧
      (handle_p2m_munmap cfg E p desc hdr).trace =
        [Call.find_lego_task_by_pid hdr.src_nid pid, Call.down_write_killable,
         Call.ibapi_reply_message desc]) ∧
    (∀ (p : p2m_mremap_struct), p.pid = pid →
      (handle_p2m_mremap E p desc hdr).reply.status = some RET_EINTR ∧
      (handle_p2m_mremap E p desc hdr).mm = some tsk.mm ∧
      (handle_p2m_mremap E p desc hdr).trace =
        [Call.find_lego_task_by_pid hdr.src_nid pid, Call.down_write_killable,
         Call.ibapi_reply_message desc]) ∧
    (∀ (p : p2m_mremap_struct), p.pid = pid →
      (distvm_handle_p2m_mremap E p desc hdr).reply.status = some RET_EINTR ∧
      (distvm_handle_p2m_mremap E p desc hdr).mm = some tsk.mm ∧
      (distvm_handle_p2m_mremap E p desc hdr).trace =
        [Call.find_lego_task_by_pid hdr.src_nid pid, Call.down_write_killable,
         Call.ibapi_reply_message desc]) := by
  refine ⟨?_, ?_, ?_, ?_, ?_⟩
  · intro brk; simp [handle_p2m_brk, htsk, hsem]
  · intro brk; simp [distvm_handle_p2m_brk, htsk, hsem]
  · intro cfg p hp; subst hp; simp [handle_p2m_munmap, htsk, hsem]
  · intro p hp; subst hp; simp [handle_p2m_mremap, htsk, hsem]
  · intro p hp; subst hp; simp [distvm_handle_p2m_mremap, htsk, hsem]

/-- Witness of C19: a signal interrupts the lock wait of a `BRK` and of a `MUNMAP`
request of `heap_task`. -/
theorem interrupted_lock_replies_EINTR_witness :
    (interrupted_env (some heap_task)).down_write_killable heap_task.mm ≠ 0 ∧
    (handle_p2m_brk (interrupted_env (some heap_task)) { pid := 1, brk := 0x410000 } 9
      { src_nid := 0 }).reply.ret_brk = RET_EINTR ∧
    (handle_p2m_munmap false (interrupted_env (some heap_task))
      { pid := 1, addr := 0x10000, len := 0x1000 } 9 { src_nid := 0 }).trace =
      [Call.find_lego_task_by_pid 0 1, Call.down_write_killable,
       Call.ibapi_reply_message 9] :=
  ⟨by decide,
   ((interrupted_lock_replies_EINTR (interrupted_env (some heap_task)) 9 { src_nid := 0 } 1
      heap_task rfl (by decide)).1 0x410000).1,
   ((interrupted_lock_replies_EINTR (interrupted_env (some heap_task)) 9 { src_nid := 0 } 1
      heap_task rfl (by decide)).2.2.1 false { pid := 1, addr := 0x10000, len := 0x1000 }
      rfl).2.2⟩

/-- C20: in `handle_m2m_mmap`, when no task is found, the task and its address space
are allocated and `ht_insert_lego_task` returns `-EEXIST`, the reply's `addr` is 0;
when it returns another non-zero value, the reply's `addr` is that value.  On both
paths the new task is released (`lego_mmput`, `kfree`) and the reply follows at
once, without a call of `do_dist_mmap`. -/
theorem m2m_mmap_insert_race (E : Env) (payload : m2m_mmap_struct) (desc : Nat)
    (hdr : common_header) (mm : lego_mm_struct)
    (hnone : E.find_lego_task_by_pid hdr.src_nid payload.pid = none)
    (hzalloc : E.kzalloc = true)
    (hmm : E.lego_mm_alloc = some mm)
    (hlo : -(2 ^ 31) ≤ E.ht_insert_lego_task
      { pid := payload.pid, home_node := hdr.src_nid, mm := mm })
    (hhi : E.ht_insert_lego_task
      { pid := payload.pid, home_node := hdr.src_nid, mm := mm } < 2 ^ 31) :
    (E.ht_insert_lego_task { pid := payload.pid, home_node := hdr.src_nid, mm := mm }
        = -(EEXIST : Int) →
      (handle_m2m_mmap E payload desc hdr).reply.addr = some 0) ∧
    (E.ht_insert_lego_task { pid := payload.pid, home_node := hdr.src_nid, mm := mm } ≠ 0 →
      E.ht_insert_lego_task { pid := payload.pid, home_node := hdr.src_nid, mm := mm }
        ≠ -(EEXIST : Int) →
      (handle_m2m_mmap E payload desc hdr).reply.addr =
        some (u64_of_int (E.ht_insert_lego_task
          { pid := payload.pid, home_node := hdr.src_nid, mm := mm }))) ∧
    (E.ht_insert_lego_task { pid := payload.pid, home_node := hdr.src_nid, mm := mm } ≠ 0 →
      (handle_m2m_mmap E payload desc hdr).trace =
        [Call.find_lego_task_by_pid hdr.src_nid payload.pid, Call.kzalloc,
         Call.lego_mm_alloc, Call.ht_insert_lego_task, Call.lego_mmput, Call.kfree,
         Call.ibapi_reply_message desc]) := by
  have hz := u64_of_int_eq_zero _ hlo hhi
  have hexist : u64_of_int (-(EEXIST : Int)) ≠ 0 := by decide
  refine ⟨?_, ?_, ?_⟩
  · intro hr
    simp [handle_m2m_mmap, hnone, hzalloc, hmm, hr, hexist]
  · intro hr0 hr
    have h1 : u64_of_int (E.ht_insert_lego_task
        { pid := payload.pid, home_node := hdr.src_nid, mm := mm }) ≠ 0 := mt hz.mp hr0
    have h2 : u64_of_int (E.ht_insert_lego_task
        { pid := payload.pid, home_node := hdr.src_nid, mm := mm })
        ≠ u64_of_int (-(EEXIST : Int)) := by
      intro h
      exact hr (u64_of_int_inj _ _ hlo hhi (by decide) (by decide) h)
    simp [handle_m2m_mmap, hnone, hzalloc, hmm, h1, h2]
  · intro hr0
    have h1 : u64_of_int (E.ht_insert_lego_task
        { pid := payload.pid, home_node := hdr.src_nid, mm := mm }) ≠ 0 := mt hz.mp hr0
    simp only [handle_m2m_mmap, hnone, hzalloc, hmm]
    split_ifs <;> simp_all

/-- Witness of C20: the first `MMAP` of pid 1 reaches a node on which the task was
inserted a moment before; the reply's `addr` is 0. -/
theorem m2m_mmap_insert_race_witness :
    (handle_m2m_mmap racing_env
      { pid := 1, new_range := 0, addr := 0x40000000, len := 0x1000, prot := 3,
        flags := 0x22, vm_flags := 0, pgoff := 0, f_name := "" } 9
      { src_nid := 0 }).reply.addr = some 0 :=
  (m2m_mmap_insert_race racing_env
    { pid := 1, new_range := 0, addr := 0x40000000, len := 0x1000, prot := 3,
      flags := 0x22, vm_flags := 0, pgoff := 0, f_name := "" } 9 { src_nid := 0 }
    { start_brk := 0, brk := 0, mmap := [], vmrange_map := [] }
    rfl rfl rfl (by decide) (by decide)).1 rfl

/-- On a sorted list of disjoint VMAs that covers `[start, end)` and holds no VMA for
which a synchronous flush is due, the scanning loop of `do_msync` returns 0. -/
theorem do_msync_loop_covered (mm : lego_mm_struct) (end_ flags : Nat) :
    ∀ (cur : List vm_area_struct) (fuel start : Nat) (tr : List Call),
      cur.length < fuel →
      (∀ vma, cur.head? = some vma → start < vma.vm_end) →
      cur.Pairwise (fun a b => a.vm_end ≤ b.vm_start) →
      (∀ vma ∈ cur, vma.vm_start < vma.vm_end) →
      (∀ vma ∈ cur, ¬ (flags &&& MS_SYNC ≠ 0 ∧ vma.vm_file.isSome = true ∧
        vma.vm_flags &&& VM_SHARED ≠ 0)) →
      start < end_ →
      (∀ a, start ≤ a → a < end_ → ∃ vma ∈ cur, vma_holds a vma = true) →
      ∃ tr1, do_msync_loop mm end_ flags fuel cur start 0 tr = Except.ok (0, tr1) := by
  intro cur
  induction cur with
  | nil =>
    intro fuel start tr _ _ _ _ _ hlt hcov
    obtain ⟨v, hv, _⟩ := hcov start (Nat.le_refl _) hlt
    exact absurd hv (List.not_mem_nil _)
  | cons vma rest ih =>
    intro fuel start tr hfuel hhead hsorted hwf hnosync hlt hcov
    have hhd := hhead vma rfl
    obtain ⟨f, rfl⟩ : ∃ f, fuel = f + 1 := ⟨fuel - 1, by simp at hfuel; omega⟩
    have hrest : rest.length < f := by simp at hfuel; omega
    have hpair := List.pairwise_cons.mp hsorted
    have hholds : ∀ a (u : vm_area_struct), vma_holds a u = true →
        u.vm_start ≤ a ∧ a < u.vm_end := by
      intro a u h
      simpa [vma_holds] using h
    have hnb : ¬ start < vma.vm_start := by
      intro hb
      obtain ⟨u, hu, hua⟩ := hcov start (Nat.le_refl _) hlt
      have h2 := hholds _ _ hua
      rcases List.mem_cons.mp hu with rfl | hur
      · omega
      · have h3 := hpair.1 u hur
        have h4 := hwf vma (List.mem_cons_self _ _)
        omega
    have hns := hnosync vma (List.mem_cons_self _ _)
    simp only [do_msync_loop, hnb, decide_False, Bool.false_eq_true, false_and, if_false,
      hns]
    by_cases hend : vma.vm_end ≥ end_
    · rw [if_pos hend]
      exact ⟨_, rfl⟩
    · rw [if_neg hend]
      apply ih f vma.vm_end tr hrest
        (fun v hv => by
          have h3 := hpair.1 v (List.mem_of_mem_head? hv)
          have h4 := hwf v (List.mem_cons_of_mem _ (List.mem_of_mem_head? hv))
          omega)
        hpair.2
        (fun v hv => hwf v (List.mem_cons_of_mem _ hv))
        (fun v hv => hnosync v (List.mem_cons_of_mem _ hv)) (by omega)
      intro a ha1 ha2
      obtain ⟨u, hu, hua⟩ := hcov a (by omega) ha2
      have h2 := hholds _ _ hua
      rcases List.mem_cons.mp hu with rfl | hur
      · omega
      · exact ⟨u, hur, hua⟩

/-- On a sorted list of disjoint VMAs that covers `[start, end)`, `do_msync` returns
0 unless a synchronous flush is due for one of the VMAs (`MS_SYNC` requested and the
VMA file-backed and `VM_SHARED`). -/
theorem do_msync_covered_without_sync (fuel : Nat) (mm : lego_mm_struct)
    (start end_ flags : Nat)
    (hfuel : mm.mmap.length < fuel)
    (hsorted : mm.mmap.Pairwise (fun a b => a.vm_end ≤ b.vm_start))
    (hwf : ∀ vma ∈ mm.mmap, vma.vm_start < vma.vm_end)
    (hnosync : ∀ vma ∈ mm.mmap, ¬ (flags &&& MS_SYNC ≠ 0 ∧ vma.vm_file.isSome = true ∧
      vma.vm_flags &&& VM_SHARED ≠ 0))
    (hlt : start < end_)
    (hcov : ∀ a, start ≤ a → a < end_ → ∃ vma ∈ mm.mmap, vma_holds a vma = true) :
    ∃ tr, do_msync fuel mm start end_ flags = Except.ok (0, tr) := by
  have hsub : (find_vma mm start).Sublist mm.mmap := List.dropWhile_sublist _
  apply do_msync_loop_covered mm end_ flags (find_vma mm start) fuel start _
    (lt_of_le_of_lt hsub.length_le hfuel)
    (fun v hv => by
      have h := List.head?_dropWhile_not (fun vma : vm_area_struct => decide (vma.vm_end ≤ start))
        mm.mmap
      simp only [find_vma] at hv
      rw [hv] at h
      simpa using h)
    (hsorted.sublist hsub)
    (fun v hv => hwf v (hsub.subset hv)) (fun v hv => hnosync v (hsub.subset hv)) hlt
  intro a ha1 ha2
  obtain ⟨u, hu, hua⟩ := hcov a ha1 ha2
  refine ⟨u, ?_, hua⟩
  have hsplit : u ∈ mm.mmap.takeWhile (fun vma => decide (vma.vm_end ≤ start)) ++
      mm.mmap.dropWhile (fun vma => decide (vma.vm_end ≤ start)) := by
    rw [List.takeWhile_append_dropWhile]; exact hu
  rcases List.mem_append.mp hsplit with h | h
  · have h1 := List.mem_takeWhile_imp h
    have h2 : u.vm_start ≤ a ∧ a < u.vm_end := by simpa [vma_holds] using hua
    simp only [decide_eq_true_eq] at h1
    omega
  · exact h

/-- The bits of `PCACHE_FLAGS_CHECK_AT_FREE`, by index. -/
theorem PCACHE_FLAGS_CHECK_AT_FREE_testBit (i : Nat) :
    PCACHE_FLAGS_CHECK_AT_FREE.testBit i =
      decide (i = PC_locked ∨ i = PC_valid ∨ i = PC_dirty ∨ i = PC_reclaim ∨
        i = PC_writeback) := by
  have h : PCACHE_FLAGS_CHECK_AT_FREE = 121 := by decide
  by_cases hi : i < 7
  · interval_cases i <;> decide
  · have hlt : PCACHE_FLAGS_CHECK_AT_FREE < 2 ^ i := by
      rw [h]
      calc 121 < 2 ^ 7 := by norm_num
        _ ≤ 2 ^ i := Nat.pow_le_pow_right (by norm_num) (Nat.le_of_not_lt hi)
    rw [Nat.testBit_lt_two_pow hlt]
    have : ¬ (i = PC_locked ∨ i = PC_valid ∨ i = PC_dirty ∨ i = PC_reclaim ∨
        i = PC_writeback) := by
      simp only [PC_locked, PC_valid, PC_dirty, PC_reclaim, PC_writeback]
      omega
    simp [this]

/-- The test function of a bit returns 0 exactly when the bit is clear. -/
theorem TEST_PC_BITS_eq_zero (lname : Nat) (p : pcache_meta) :
    TEST_PC_BITS lname p = 0 ↔ p.bits.testBit lname = false := by
  unfold TEST_PC_BITS test_bit
  cases p.bits.testBit lname <;> simp

/-- C21: `PCACHE_FLAGS_CHECK_AT_FREE` is exactly the set of line bits that must be
clear at free.  For every flag `f` of `enum pcache_meta_bits`, bit `f` of the mask is
set if and only if `f` is one of `PC_locked`, `PC_valid`, `PC_dirty`, `PC_reclaim`,
`PC_writeback`, that is, if and only if `f` is neither `PC_allocated` nor
`PC_usable`; and a line word `w` satisfies `(w & PCACHE_FLAGS_CHECK_AT_FREE) == 0`
exactly when none of those five bits is set in `w`, that is, when the five test
functions of those bits return 0 on the line. -/
theorem check_at_free_is_the_five_bits :
    (∀ f, f < __NR_PCLBITS →
      (PCACHE_FLAGS_CHECK_AT_FREE.testBit f = true ↔
        f = PC_locked ∨ f = PC_valid ∨ f = PC_dirty ∨ f = PC_reclaim ∨
          f = PC_writeback) ∧
      (PCACHE_FLAGS_CHECK_AT_FREE.testBit f = true ↔
        f ≠ PC_allocated ∧ f ≠ PC_usable)) ∧
    (∀ w : Nat, w &&& PCACHE_FLAGS_CHECK_AT_FREE = 0 ↔
      w.testBit PC_locked = false ∧ w.testBit PC_valid = false ∧
        w.testBit PC_dirty = false ∧ w.testBit PC_reclaim = false ∧
        w.testBit PC_writeback = false) ∧
    (∀ p : pcache_meta, p.bits &&& PCACHE_FLAGS_CHECK_AT_FREE = 0 ↔
      PcacheLocked p = 0 ∧ PcacheValid p = 0 ∧ PcacheDirty p = 0 ∧
        PcacheReclaim p = 0 ∧ PcacheWriteback p = 0) := by
  have hword : ∀ w : Nat, w &&& PCACHE_FLAGS_CHECK_AT_FREE = 0 ↔
      w.testBit PC_locked = false ∧ w.testBit PC_valid = false ∧
        w.testBit PC_dirty = false ∧ w.testBit PC_reclaim = false ∧
        w.testBit PC_writeback = false := by
    intro w
    constructor
    · intro h
      have hb : ∀ i, (w.testBit i && PCACHE_FLAGS_CHECK_AT_FREE.testBit i) = false := by
        intro i
        rw [← Nat.testBit_land, h, Nat.zero_testBit]
      have h0 := hb PC_locked
      have h3 := hb PC_valid
      have h4 := hb PC_dirty
      have h5 := hb PC_reclaim
      have h6 := hb PC_writeback
      rw [PCACHE_FLAGS_CHECK_AT_FREE_testBit] at h0 h3 h4 h5 h6
      simp only [true_or, or_true, decide_True, Bool.and_true] at h0 h3 h4 h5 h6
      exact ⟨h0, h3, h4, h5, h6⟩
    · rintro ⟨h0, h3, h4, h5, h6⟩
      apply Nat.eq_of_testBit_eq
      intro i
      rw [Nat.testBit_land, PCACHE_FLAGS_CHECK_AT_FREE_testBit, Nat.zero_testBit]
      by_cases hi : i = PC_locked ∨ i = PC_valid ∨ i = PC_dirty ∨ i = PC_reclaim ∨
          i = PC_writeback
      · rcases hi with rfl | rfl | rfl | rfl | rfl <;> simp [*]
      · simp [hi]
  refine ⟨?_, hword, ?_⟩
  · intro f hf
    rw [PCACHE_FLAGS_CHECK_AT_FREE_testBit, decide_eq_true_eq]
    refine ⟨Iff.rfl, ?_⟩
    simp only [__NR_PCLBITS] at hf
    simp only [PC_locked, PC_valid, PC_dirty, PC_reclaim, PC_writeback, PC_allocated,
      PC_usable]
    omega
  · intro p
    simp only [PcacheLocked, PcacheValid, PcacheDirty, PcacheReclaim, PcacheWriteback,
      TEST_PC_BITS_eq_zero]
    exact hword p.bits

/-- Witness of C21: `PC_dirty` is a flag of the enumeration and belongs to the mask;
a line whose word has only `PC_allocated` and `PC_usable` set passes the check. -/
theorem check_at_free_is_the_five_bits_witness :
    PC_dirty < __NR_PCLBITS ∧ PCACHE_FLAGS_CHECK_AT_FREE.testBit PC_dirty = true ∧
    ({ bits := 6 } : pcache_meta).bits &&& PCACHE_FLAGS_CHECK_AT_FREE = 0 :=
  ⟨by decide,
   ((check_at_free_is_the_five_bits.1 PC_dirty (by decide)).2).mpr ⟨by decide, by decide⟩,
   (check_at_free_is_the_five_bits.2.2 { bits := 6 }).mpr
     ⟨by decide, by decide, by decide, by decide, by decide⟩⟩

/-- The bits of a word after `set_bit`. -/
theorem set_bit_testBit (nr word i : Nat) :
    (set_bit nr word).testBit i = (word.testBit i || decide (nr = i)) := by
  unfold set_bit
  rw [Nat.testBit_lor, Nat.one_shiftLeft, Nat.testBit_two_pow]

/-- The bits of a 64-bit word after `clear_bit` of one of its bits. -/
theorem clear_bit_testBit (nr word i : Nat) (hnr : nr < 64) (hword : word < U64_MOD) :
    (clear_bit nr word).testBit i = (word.testBit i && !decide (nr = i)) := by
  have hm : 1 <<< nr < U64_MOD := by
    rw [Nat.one_shiftLeft]
    exact Nat.pow_lt_pow_right (by norm_num) hnr
  unfold clear_bit
  rw [land_u64_not_testBit word _ hword hm, Nat.one_shiftLeft, Nat.testBit_two_pow]

/-- The word stays a 64-bit word under `set_bit` of one of its bits. -/
theorem set_bit_lt (nr word : Nat) (hnr : nr < 64) (hword : word < U64_MOD) :
    set_bit nr word < U64_MOD := by
  unfold set_bit
  rw [Nat.one_shiftLeft]
  exact Nat.or_lt_two_pow hword (Nat.pow_lt_pow_right (by norm_num) hnr)

/-- The word stays a 64-bit word under `clear_bit`. -/
theorem clear_bit_lt (nr word : Nat) (hword : word < U64_MOD) :
    clear_bit nr word < U64_MOD :=
  lt_of_le_of_lt Nat.and_le_left hword

/-- The test function of bit `f` does not see a change of another bit. -/
theorem TEST_PC_BITS_congr (f : Nat) (p q : pcache_meta)
    (h : q.bits.testBit f = p.bits.testBit f) : TEST_PC_BITS f q = TEST_PC_BITS f p := by
  unfold TEST_PC_BITS test_bit
  rw [h]

/-- C22: the lock bit of a pcache line.  For every 64-bit bits word,
`TestSetPcacheLocked` returns 0 exactly when `PC_locked` was clear; afterwards
`PC_locked` is set, `PcacheLocked` returns non-zero, and every other bit of the word
is unchanged, so that the test functions of the other six flags return what they
returned before.  `ClearPcacheLocked` clears `PC_locked`, after which `PcacheLocked`
returns 0, and leaves every other bit unchanged.  An acquire followed by a release
on an unlocked line restores the line. -/
theorem lock_bit_acquire_release (p : pcache_meta) (h64 : p.bits < U64_MOD) :
    ((TestSetPcacheLocked p).1 = 0 ↔ p.bits.testBit PC_locked = false) ∧
    ((TestSetPcacheLocked p).1 = PcacheLocked p) ∧
    (TestSetPcacheLocked p).2.bits.testBit PC_locked = true ∧
    PcacheLocked (TestSetPcacheLocked p).2 ≠ 0 ∧
    (∀ i, i ≠ PC_locked →
      (TestSetPcacheLocked p).2.bits.testBit i = p.bits.testBit i) ∧
    (∀ f ∈ [PC_allocated, PC_usable, PC_valid, PC_dirty, PC_reclaim, PC_writeback],
      TEST_PC_BITS f (TestSetPcacheLocked p).2 = TEST_PC_BITS f p) ∧
    (TestSetPcacheLocked p).2.bits < U64_MOD ∧
    (ClearPcacheLocked p).bits.testBit PC_locked = false ∧
    PcacheLocked (ClearPcacheLocked p) = 0 ∧
    (∀ i, i ≠ PC_locked → (ClearPcacheLocked p).bits.testBit i = p.bits.testBit i) ∧
    (∀ f ∈ [PC_allocated, PC_usable, PC_valid, PC_dirty, PC_reclaim, PC_writeback],
      TEST_PC_BITS f (ClearPcacheLocked p) = TEST_PC_BITS f p) ∧
    (ClearPcacheLocked p).bits < U64_MOD ∧
    (p.bits.testBit PC_locked = false →
      ClearPcacheLocked (TestSetPcacheLocked p).2 = p) := by
  have hnr : PC_locked < 64 := by decide
  have hset : ∀ i, (TestSetPcacheLocked p).2.bits.testBit i =
      (p.bits.testBit i || decide (PC_locked = i)) := fun i => set_bit_testBit _ _ i
  have hclr : ∀ (q : pcache_meta), q.bits < U64_MOD → ∀ i,
      (ClearPcacheLocked q).bits.testBit i = (q.bits.testBit i && !decide (PC_locked = i)) :=
    fun q hq i => clear_bit_testBit _ _ i hnr hq
  have hset_lt : (TestSetPcacheLocked p).2.bits < U64_MOD := set_bit_lt _ _ hnr h64
  have hset_frame : ∀ i, i ≠ PC_locked →
      (TestSetPcacheLocked p).2.bits.testBit i = p.bits.testBit i := by
    intro i hi
    rw [hset, decide_eq_false (Ne.symm hi), Bool.or_false]
  have hclr_frame : ∀ i, i ≠ PC_locked →
      (ClearPcacheLocked p).bits.testBit i = p.bits.testBit i := by
    intro i hi
    rw [hclr p h64, decide_eq_false (Ne.symm hi), Bool.not_false, Bool.and_true]
  have hset_locked : (TestSetPcacheLocked p).2.bits.testBit PC_locked = true := by
    rw [hset]; simp
  have hclr_locked : (ClearPcacheLocked p).bits.testBit PC_locked = false := by
    rw [hclr p h64]; simp
  have hother : ∀ f ∈ [PC_allocated, PC_usable, PC_valid, PC_dirty, PC_reclaim,
      PC_writeback], f ≠ PC_locked := by decide
  refine ⟨TEST_PC_BITS_eq_zero PC_locked p, rfl, hset_locked, ?_, hset_frame, ?_, hset_lt,
    hclr_locked, ?_, hclr_frame, ?_, clear_bit_lt _ _ h64, ?_⟩
  · intro h0
    have := (TEST_PC_BITS_eq_zero PC_locked (TestSetPcacheLocked p).2).mp h0
    rw [hset_locked] at this
    exact Bool.noConfusion this
  · intro f hf
    exact TEST_PC_BITS_congr f _ _ (hset_frame f (hother f hf))
  · exact (TEST_PC_BITS_eq_zero PC_locked (ClearPcacheLocked p)).mpr hclr_locked
  · intro f hf
    exact TEST_PC_BITS_congr f _ _ (hclr_frame f (hother f hf))
  · intro hfree
    have hbits : (ClearPcacheLocked (TestSetPcacheLocked p).2).bits = p.bits := by
      apply Nat.eq_of_testBit_eq
      intro i
      rw [hclr _ hset_lt, hset]
      by_cases hi : PC_locked = i
      · rw [← hi, hfree]; simp
      · simp [hi]
    have hext : ∀ q r : pcache_meta, q.bits = r.bits → q = r := by
      intro q r h
      cases q; cases r
      simp only [pcache_meta.mk.injEq]
      exact h
    exact hext _ _ hbits

/-- Witness of C22: on the line with `PC_allocated` and `PC_usable` set and the
lock free, the acquire returns 0 and leaves the word 7; the release restores 6. -/
theorem lock_bit_acquire_release_witness :
    ({ bits := 6 } : pcache_meta).bits < U64_MOD ∧
    (TestSetPcacheLocked { bits := 6 }).1 = 0 ∧
    TestSetPcacheLocked { bits := 6 } = (0, { bits := 7 }) ∧
    ClearPcacheLocked (TestSetPcacheLocked { bits := 6 }).2 = { bits := 6 } :=
  ⟨by decide,
   (lock_bit_acquire_release { bits := 6 } (by decide)).1.mpr (by decide),
   by decide,
   (lock_bit_acquire_release { bits := 6 } (by decide)).2.2.2.2.2.2.2.2.2.2.2.2
     (by decide)⟩

/-- Counterexample to C23 as stated: with `start_brk = mm->brk = 0x400000`, the
request `BRK(0xFFFFFFFFFFFFFFFF)` reaches the call of `do_brk`, although
`PAGE_ALIGN(brk)` has wrapped to 0 and is not above `PAGE_ALIGN(mm->brk) = 0x400000`;
the length passed, `newbrk - oldbrk` modulo `2 ^ 64`, is `0xFFFFFFFFFFC00000`, while
the difference of the two page-aligned addresses is `-0x400000`. -/
theorem brk_grow_length_wraps_counterexample :
    heap_task.mm.start_brk ≤ 0xFFFFFFFFFFFFFFFF ∧
    heap_task.mm.brk < 0xFFFFFFFFFFFFFFFF ∧
    PAGE_ALIGN 0xFFFFFFFFFFFFFFFF ≠ PAGE_ALIGN heap_task.mm.brk ∧
    Call.do_brk 0x400000 0xFFFFFFFFFFC00000 ∈
      (handle_p2m_brk (sim_env (some heap_task)) { pid := 1, brk := 0xFFFFFFFFFFFFFFFF } 9
        { src_nid := 0 }).trace ∧
    PAGE_ALIGN heap_task.mm.brk = 0x400000 ∧
    PAGE_ALIGN 0xFFFFFFFFFFFFFFFF = 0 ∧
    ¬ (PAGE_ALIGN 0xFFFFFFFFFFFFFFFF > PAGE_ALIGN heap_task.mm.brk) ∧
    u64_sub (PAGE_ALIGN 0xFFFFFFFFFFFFFFFF) (PAGE_ALIGN heap_task.mm.brk)
      = 0xFFFFFFFFFFC00000 ∧
    ((PAGE_ALIGN 0xFFFFFFFFFFFFFFFF : Nat) : Int) - (PAGE_ALIGN heap_task.mm.brk : Nat)
      = -0x400000 := by
  refine ⟨by decide, by decide, by decide, by decide, by decide, by decide, by decide,
    by decide, by decide⟩

/-- C23, as the code has it: when `brk` lies at most `2 ^ 64 - PAGE_SIZE`, every call
of `do_brk` that `handle_p2m_brk` makes is `do_brk(oldbrk, newbrk - oldbrk)` with
`oldbrk = PAGE_ALIGN(mm->brk) < newbrk = PAGE_ALIGN(brk)`; the length is the
difference of the two page-aligned addresses, computed without wrapping, and is a
positive multiple of `PAGE_SIZE`. -/
theorem brk_grow_length (E : Env) (payload : p2m_brk_struct) (desc : Nat)
    (hdr : common_header) (tsk : lego_task_struct) (a len : Nat)
    (htsk : E.find_lego_task_by_pid hdr.src_nid payload.pid = some tsk)
    (hnowrap : payload.brk ≤ U64_MOD - PAGE_SIZE)
    (hcall : Call.do_brk a len ∈ (handle_p2m_brk E payload desc hdr).trace) :
    tsk.mm.start_brk ≤ payload.brk ∧ tsk.mm.brk < payload.brk ∧
    PAGE_ALIGN tsk.mm.brk < PAGE_ALIGN payload.brk ∧
    a = PAGE_ALIGN tsk.mm.brk ∧
    len = u64_sub (PAGE_ALIGN payload.brk) (PAGE_ALIGN tsk.mm.brk) ∧
    len = PAGE_ALIGN payload.brk - PAGE_ALIGN tsk.mm.brk ∧
    0 < len ∧ len % PAGE_SIZE = 0 := by
  have key : tsk.mm.start_brk ≤ payload.brk ∧ tsk.mm.brk < payload.brk ∧
      PAGE_ALIGN tsk.mm.brk ≠ PAGE_ALIGN payload.brk ∧
      a = PAGE_ALIGN tsk.mm.brk ∧
      len = u64_sub (PAGE_ALIGN payload.brk) (PAGE_ALIGN tsk.mm.brk) := by
    simp only [handle_p2m_brk, htsk, brk_set_brk, brk_out] at hcall
    split_ifs at hcall <;> simp at hcall <;> first
      | (obtain ⟨ha, hl⟩ := hcall; exact ⟨by omega, by omega, by assumption, ha, hl⟩)
  obtain ⟨hmin, hgrow, hpage, ha, hl⟩ := key
  have hmono : PAGE_ALIGN tsk.mm.brk ≤ PAGE_ALIGN payload.brk :=
    PAGE_ALIGN_mono _ _ (Nat.le_of_lt hgrow) hnowrap
  have hlt : PAGE_ALIGN tsk.mm.brk < PAGE_ALIGN payload.brk := lt_of_le_of_ne hmono hpage
  have hsub : u64_sub (PAGE_ALIGN payload.brk) (PAGE_ALIGN tsk.mm.brk) =
      PAGE_ALIGN payload.brk - PAGE_ALIGN tsk.mm.brk := by
    unfold u64_sub
    rw [U64_MOD_eq]
    rw [PAGE_ALIGN_eq, PAGE_ALIGN_eq] at hlt ⊢
    omega
  refine ⟨hmin, hgrow, hlt, ha, hl, by rw [hl, hsub], by rw [hl, hsub]; omega, ?_⟩
  rw [hl, hsub, PAGE_SIZE_eq, PAGE_ALIGN_eq, PAGE_ALIGN_eq]
  omega

/-- Witness of C23: with `start_brk = brk = 0x400000`, `BRK(0x410000)` calls
`do_brk(0x400000, 0x10000)`; the length is `0x410000 - 0x400000`, sixteen pages. -/
theorem brk_grow_length_witness :
    Call.do_brk 0x400000 0x10000 ∈
      (handle_p2m_brk (sim_env (some heap_task)) { pid := 1, brk := 0x410000 } 9
        { src_nid := 0 }).trace ∧
    PAGE_ALIGN heap_task.mm.brk < PAGE_ALIGN 0x410000 ∧
    0x10000 = PAGE_ALIGN 0x410000 - PAGE_ALIGN heap_task.mm.brk ∧
    0x10000 % PAGE_SIZE = 0 := by
  have h := brk_grow_length (sim_env (some heap_task)) { pid := 1, brk := 0x410000 } 9
    { src_nid := 0 } heap_task 0x400000 0x10000 rfl (by decide) (by decide)
  exact ⟨by decide, h.2.2.1, h.2.2.2.2.2.1, h.2.2.2.2.2.2.2⟩

/-- The second half of `mremap_to` only adds calls to the trace it is given. -/
theorem mremap_to_move_extends (E : Env) (addr old_len new_addr new_len : Nat)
    (mm : lego_mm_struct) (reply : p2m_mremap_reply_struct) (tr : List Call) :
    tr <+: (mremap_to_move E addr old_len new_addr new_len mm reply tr).trace := by
  unfold mremap_to_move
  cases E.vma_to_resize mm addr old_len new_len with
  | error err => exact List.prefix_append _ _
  | ok vma =>
    simp only
    split_ifs
    all_goals
      simp only [List.append_assoc]
      exact List.prefix_append _ _

/-- C24: the destination bound of `mremap_to`.  When `new_addr` is page aligned and
neither `new_len > TASK_SIZE` nor `new_addr > TASK_SIZE - new_len` holds, the sum
`new_addr + new_len` does not overflow 64 bits and is at most
`TASK_SIZE = 2 ^ 47 - PAGE_SIZE`, and the first call that `mremap_to` makes is
`do_munmap(mm, new_addr, new_len)`. -/
theorem mremap_to_destination_bound (E : Env) (addr old_len new_addr new_len : Nat)
    (mm : lego_mm_struct) (reply : p2m_mremap_reply_struct) (tr : List Call)
    (haligned : offset_in_page new_addr = 0)
    (hrange : ¬ (new_len > TASK_SIZE ∨ new_addr > u64_sub TASK_SIZE new_len)) :
    new_addr + new_len < U64_MOD ∧
    u64_add new_addr new_len = new_addr + new_len ∧
    new_addr + new_len ≤ TASK_SIZE ∧
    TASK_SIZE = 2 ^ 47 - PAGE_SIZE ∧
    (tr ++ [Call.do_munmap new_addr new_len]) <+:
      (mremap_to E addr old_len new_addr new_len mm reply tr).trace := by
  have hle : new_addr + new_len ≤ TASK_SIZE := by
    have h1 : ¬ new_len > TASK_SIZE := fun h => hrange (Or.inl h)
    have h2 : ¬ new_addr > u64_sub TASK_SIZE new_len := fun h => hrange (Or.inr h)
    unfold u64_sub at h2
    rw [U64_MOD_eq] at h2
    rw [TASK_SIZE_eq] at h1 h2 ⊢
    omega
  have hlt : new_addr + new_len < U64_MOD := by
    rw [TASK_SIZE_eq] at hle
    rw [U64_MOD_eq]
    omega
  refine ⟨hlt, ?_, hle, by decide, ?_⟩
  · unfold u64_add
    exact Nat.mod_eq_of_lt hlt
  · simp only [mremap_to, haligned, ne_eq, not_true_eq_false, if_false, hrange]
    split_ifs
    all_goals first
      | exact List.prefix_append _ _
      | exact (List.prefix_append _ _).trans (List.prefix_append _ _)
      | exact mremap_to_move_extends _ _ _ _ _ _ _ _
      | exact (List.prefix_append _ _).trans (mremap_to_move_extends _ _ _ _ _ _ _ _)

/-- Witness of C24: moving `[0x10000, 0x12000)` onto `0x30000` passes the validation
of `mremap_to`, whose first call is then `do_munmap(0x30000, 0x2000)`, and
`0x30000 + 0x2000` is below `TASK_SIZE`. -/
theorem mremap_to_destination_bound_witness :
    offset_in_page 0x30000 = 0 ∧
    0x30000 + 0x2000 ≤ TASK_SIZE ∧
    [Call.do_munmap 0x30000 0x2000] <+:
      (mremap_to (sim_env (some remap_task)) 0x10000 0x2000 0x30000 0x2000 remap_task.mm
        { status := none, new_addr := none, line := none } []).trace := by
  have h := mremap_to_destination_bound (sim_env (some remap_task)) 0x10000 0x2000 0x30000
    0x2000 remap_task.mm { status := none, new_addr := none, line := none } []
    (by decide) (by decide)
  exact ⟨by decide, h.2.2.1, h.2.2.2.2⟩

/-- The scanning loop of `do_msync`, started on a cursor with fewer VMAs than
iterations allowed, returns, and on every return path it has added exactly one
`up_read` to the trace; the result does not depend on the iterations left over. -/
theorem do_msync_loop_releases_once (mm : lego_mm_struct) (end_ flags : Nat) :
    ∀ (cur : List vm_area_struct) (fuel start : Nat) (unmapped_error : Int)
      (tr : List Call), cur.length < fuel →
      ∃ ret, do_msync_loop mm end_ flags fuel cur start unmapped_error tr
          = Except.ok (ret, tr ++ [Call.up_read]) ∧
        do_msync_loop mm end_ flags (cur.length + 1) cur start unmapped_error tr
          = Except.ok (ret, tr ++ [Call.up_read]) := by
  have hne : (-(ENOMEM : Int)) ≠ 0 := by decide
  intro cur
  induction cur with
  | nil =>
    intro fuel start ue tr hfuel
    obtain ⟨f, rfl⟩ : ∃ f, fuel = f + 1 := ⟨fuel - 1, by simp at hfuel; omega⟩
    simp only [do_msync_loop, msync_out_unlock, msync_out, List.length_nil]
    exact ⟨_, rfl, rfl⟩
  | cons vma rest ih =>
    intro fuel start ue tr hfuel
    obtain ⟨f, rfl⟩ : ∃ f, fuel = f + 1 := ⟨fuel - 1, by simp at hfuel; omega⟩
    have hrest : rest.length < f := by simp at hfuel; omega
    simp only [do_msync_loop, msync_out_unlock, msync_out, List.length_cons]
    split_ifs
    all_goals first
      | exact ⟨_, rfl, rfl⟩
      | exact ih _ _ _ _ hrest
      | (exfalso; rename_i h3; exact h3 (Or.inl hne))

/-- C25: `do_msync` terminates and leaves the lock balanced.  For every VMA list
(sorted or not) and every `start`, `end` and `flags`, the scanning loop returns
within one iteration per VMA of the list plus the one that finds the cursor `NULL`:
any larger number of iterations allowed gives the same result.  On every return path
the calls made are `down_read`, `find_vma(start)`, `up_read`: one `down_read` and
one `up_read`, also on the path that drops the semaphore before the file flush. -/
theorem do_msync_terminates_balanced (fuel : Nat) (mm : lego_mm_struct)
    (start end_ flags : Nat) (hfuel : mm.mmap.length < fuel) :
    ∃ ret tr, do_msync fuel mm start end_ flags = Except.ok (ret, tr) ∧
      do_msync (mm.mmap.length + 1) mm start end_ flags = Except.ok (ret, tr) ∧
      tr = [Call.down_read, Call.find_vma start, Call.up_read] ∧
      tr.count Call.down_read = tr.count Call.up_read := by
  have hsub : (find_vma mm start).Sublist mm.mmap := List.dropWhile_sublist _
  have hlen : (find_vma mm start).length < fuel := lt_of_le_of_lt hsub.length_le hfuel
  have hlen1 : (find_vma mm start).length < mm.mmap.length + 1 :=
    Nat.lt_succ_of_le hsub.length_le
  obtain ⟨ret, h1, _⟩ := do_msync_loop_releases_once mm end_ flags (find_vma mm start) fuel
    start 0 [Call.down_read, Call.find_vma start] hlen
  obtain ⟨ret1, h2, h3⟩ := do_msync_loop_releases_once mm end_ flags (find_vma mm start)
    (mm.mmap.length + 1) start 0 [Call.down_read, Call.find_vma start] hlen1
  obtain ⟨ret2, h4, h5⟩ := do_msync_loop_releases_once mm end_ flags (find_vma mm start)
    fuel start 0 [Call.down_read, Call.find_vma start] hlen
  have e12 : ret1 = ret2 := by
    have := h3.symm.trans h5
    simp only [Except.ok.injEq, Prod.mk.injEq] at this
    exact this.1
  have e2 : ret2 = ret := by
    have := h4.symm.trans h1
    simp only [Except.ok.injEq, Prod.mk.injEq] at this
    exact this.1
  refine ⟨ret, [Call.down_read, Call.find_vma start, Call.up_read], h1, ?_, rfl, by simp⟩
  rw [← e2, ← e12]
  exact h2

/-- Witness of C25: on `gap_mm`, which holds two VMAs, `do_msync` with three
iterations allowed returns with the semaphore taken and released once. -/
theorem do_msync_terminates_balanced_witness :
    ∃ ret tr, do_msync 3 gap_mm 0x1000 0x4000 MS_SYNC = Except.ok (ret, tr) ∧
      tr.count Call.down_read = tr.count Call.up_read := by
  obtain ⟨ret, tr, h1, _, _, h4⟩ :=
    do_msync_terminates_balanced 3 gap_mm 0x1000 0x4000 MS_SYNC (by decide)
  exact ⟨ret, tr, h1, h4⟩

end LegoOS
